import Mathlib

/-!
# Logitech G-series drivers (lg4l): readiness handshake and panel packing

A shallow embedding of the parts of the drivers that carry the device
bring-up handshake (`hid-g15.c` and its sibling drivers) and the monochrome
panel encoder (`hid-gfb.c`), followed by theorems about them.

Conventions of the embedding.

* `int ready_stages` is represented by its bit pattern as a natural number:
  the code only applies `&`, `|`, `==`, `!=` and assignment of constants to it,
  and these act on the bit pattern.
* A `u8 *` buffer the code only reads (`raw_data`, `fb_bitmap`) is a function
  from a byte offset to the byte stored there (`raw_data i` is the C
  expression `raw_data[i]`); the wire buffer `fb_vbitmap`, which the code
  writes, is the list of its `fb_vbitmap_size` bytes.
* Every region between `spin_lock_irqsave` and `spin_unlock_irqrestore` on
  `gdata->lock` is one atomic step; the blocking waits of the attach procedure
  take, as a parameter, the list of reports that the interrupt context
  delivers before the attach thread takes the lock again.
-/

namespace Lg4l

/-! ## Constants of the handshake (one set per driver, as in the sources) -/

def G15_READY_SUBSTAGE_1 : Nat := 0x01
def G15_READY_SUBSTAGE_2 : Nat := 0x02
def G15_READY_SUBSTAGE_3 : Nat := 0x04
def G15_READY_STAGE_1 : Nat := 0x07
def G15_READY_SUBSTAGE_4 : Nat := 0x08
def G15_READY_SUBSTAGE_5 : Nat := 0x10
def G15_READY_STAGE_2 : Nat := 0x1F
def G15_READY_SUBSTAGE_6 : Nat := 0x20
def G15_READY_SUBSTAGE_7 : Nat := 0x40
def G15_READY_STAGE_3 : Nat := 0x7F

def G13_READY_SUBSTAGE_1 : Nat := 0x01
def G13_READY_SUBSTAGE_2 : Nat := 0x02
def G13_READY_SUBSTAGE_3 : Nat := 0x04
def G13_READY_STAGE_1 : Nat := 0x07
def G13_READY_SUBSTAGE_4 : Nat := 0x08
def G13_READY_SUBSTAGE_5 : Nat := 0x10
def G13_READY_STAGE_2 : Nat := 0x1F
def G13_READY_SUBSTAGE_6 : Nat := 0x20
def G13_READY_SUBSTAGE_7 : Nat := 0x40
def G13_READY_STAGE_3 : Nat := 0x7F

def G15V2_READY_SUBSTAGE_1 : Nat := 0x01
def G15V2_READY_SUBSTAGE_2 : Nat := 0x02
def G15V2_READY_SUBSTAGE_3 : Nat := 0x04
def G15V2_READY_STAGE_1 : Nat := 0x07
def G15V2_READY_SUBSTAGE_4 : Nat := 0x08
def G15V2_READY_SUBSTAGE_5 : Nat := 0x10
def G15V2_READY_STAGE_2 : Nat := 0x1F
def G15V2_READY_SUBSTAGE_6 : Nat := 0x20
def G15V2_READY_SUBSTAGE_7 : Nat := 0x40
def G15V2_READY_STAGE_3 : Nat := 0x7F

def G19_READY_SUBSTAGE_1 : Nat := 0x01
def G19_READY_SUBSTAGE_2 : Nat := 0x02
def G19_READY_SUBSTAGE_3 : Nat := 0x04
def G19_READY_STAGE_1 : Nat := 0x07
def G19_READY_SUBSTAGE_4 : Nat := 0x08
def G19_READY_SUBSTAGE_5 : Nat := 0x10
def G19_READY_STAGE_2 : Nat := 0x1F
def G19_READY_SUBSTAGE_6 : Nat := 0x20
def G19_READY_SUBSTAGE_7 : Nat := 0x40
def G19_READY_STAGE_3 : Nat := 0x7F

def G110_READY_SUBSTAGE_1 : Nat := 0x01
def G110_READY_SUBSTAGE_2 : Nat := 0x02
def G110_READY_SUBSTAGE_3 : Nat := 0x04
def G110_READY_STAGE_1 : Nat := 0x07
def G110_READY_SUBSTAGE_4 : Nat := 0x08
def G110_READY_SUBSTAGE_5 : Nat := 0x10
def G110_READY_STAGE_2 : Nat := 0x1F
def G110_READY_SUBSTAGE_6 : Nat := 0x20
def G110_READY_SUBSTAGE_7 : Nat := 0x40
def G110_READY_STAGE_3 : Nat := 0x7F

def G510_READY_SUBSTAGE_1 : Nat := 0x01
def G510_READY_SUBSTAGE_2 : Nat := 0x02
def G510_READY_SUBSTAGE_3 : Nat := 0x04
def G510_READY_STAGE_1 : Nat := 0x07
def G510_READY_SUBSTAGE_4 : Nat := 0x08
def G510_READY_SUBSTAGE_5 : Nat := 0x10
def G510_READY_STAGE_2 : Nat := 0x1F
def G510_READY_SUBSTAGE_6 : Nat := 0x20
def G510_READY_SUBSTAGE_7 : Nat := 0x40
def G510_READY_STAGE_3 : Nat := 0x7F

/-! ## Data model of the handshake -/

/-- The part of `struct hid_report` the drivers look at. -/
structure hid_report where
  id : Nat

/-- The initialization-stage fields of `struct g15_data` (the other drivers
declare the same two fields in `g13_data`, `g15v2_data`, `g19_data`,
`g110_data`, `g510_data`).  `ready` is the `struct completion`: `true` once
`complete_all` has run since the last `init_completion`. -/
structure g15_data where
  ready_stages : Nat
  ready : Bool
  deriving DecidableEq

/-- What one call of a `raw_event` hook leaves behind: the driver data, the
value returned, whether `complete_all(&ready)` was called, and whether the
report was handed on to the driver's `raw_event_process_input`. -/
structure raw_event_result where
  g15data : g15_data
  retval : Int
  complete_all : Bool
  process_input : Bool
  deriving DecidableEq

/-- Source: `g15_raw_event` in hid-g15.c. -/
def g15_raw_event (g15data : g15_data) (report : hid_report)
    (raw_data : Nat → Nat) (_size : Int) : raw_event_result :=
  if g15data.ready_stages ≠ G15_READY_STAGE_3 then
    let ready_stages :=
      if report.id = 6 then
        if g15data.ready_stages &&& G15_READY_SUBSTAGE_1 = 0 then
          g15data.ready_stages ||| G15_READY_SUBSTAGE_1
        else if g15data.ready_stages &&& G15_READY_SUBSTAGE_4 ≠ 0 ∧
            g15data.ready_stages &&& G15_READY_SUBSTAGE_5 = 0 then
          g15data.ready_stages ||| G15_READY_SUBSTAGE_5
        else if g15data.ready_stages &&& G15_READY_SUBSTAGE_6 ≠ 0 ∧
            raw_data 1 ≥ 0x80 then
          g15data.ready_stages ||| G15_READY_SUBSTAGE_7
        else
          g15data.ready_stages
      else if report.id = 1 then
        if g15data.ready_stages &&& G15_READY_SUBSTAGE_2 = 0 then
          g15data.ready_stages ||| G15_READY_SUBSTAGE_2
        else
          g15data.ready_stages ||| G15_READY_SUBSTAGE_3
      else
        g15data.ready_stages
    if ready_stages = G15_READY_STAGE_1 ∨
        ready_stages = G15_READY_STAGE_2 ∨
        ready_stages = G15_READY_STAGE_3 then
      { g15data := { ready_stages := ready_stages, ready := true },
        retval := 1, complete_all := true, process_input := false }
    else
      { g15data := { ready_stages := ready_stages, ready := g15data.ready },
        retval := 1, complete_all := false, process_input := false }
  else if report.id = 2 then
    { g15data := g15data, retval := 1, complete_all := false, process_input := true }
  else
    { g15data := g15data, retval := 0, complete_all := false, process_input := false }

/-- Source: `g13_raw_event` in hid-g13.c. -/
def g13_raw_event (g13data : g15_data) (report : hid_report)
    (raw_data : Nat → Nat) (_size : Int) : raw_event_result :=
  if g13data.ready_stages ≠ G13_READY_STAGE_3 then
    let ready_stages :=
      if report.id = 6 then
        if g13data.ready_stages &&& G13_READY_SUBSTAGE_1 = 0 then
          g13data.ready_stages ||| G13_READY_SUBSTAGE_1
        else if g13data.ready_stages &&& G13_READY_SUBSTAGE_4 ≠ 0 ∧
            g13data.ready_stages &&& G13_READY_SUBSTAGE_5 = 0 then
          g13data.ready_stages ||| G13_READY_SUBSTAGE_5
        else if g13data.ready_stages &&& G13_READY_SUBSTAGE_6 ≠ 0 ∧
            raw_data 1 ≥ 0x80 then
          g13data.ready_stages ||| G13_READY_SUBSTAGE_7
        else
          g13data.ready_stages
      else if report.id = 1 then
        if g13data.ready_stages &&& G13_READY_SUBSTAGE_2 = 0 then
          g13data.ready_stages ||| G13_READY_SUBSTAGE_2
        else
          g13data.ready_stages ||| G13_READY_SUBSTAGE_3
      else
        g13data.ready_stages
    if ready_stages = G13_READY_STAGE_1 ∨
        ready_stages = G13_READY_STAGE_2 ∨
        ready_stages = G13_READY_STAGE_3 then
      { g15data := { ready_stages := ready_stages, ready := true },
        retval := 1, complete_all := true, process_input := false }
    else
      { g15data := { ready_stages := ready_stages, ready := g13data.ready },
        retval := 1, complete_all := false, process_input := false }
  else if report.id = 1 then
    { g15data := g13data, retval := 1, complete_all := false, process_input := true }
  else
    { g15data := g13data, retval := 0, complete_all := false, process_input := false }

/-- Source: `g15v2_raw_event` in hid-g15v2.c. -/
def g15v2_raw_event (g15data : g15_data) (report : hid_report)
    (raw_data : Nat → Nat) (_size : Int) : raw_event_result :=
  if g15data.ready_stages ≠ G15V2_READY_STAGE_3 then
    let ready_stages :=
      if report.id = 6 then
        if g15data.ready_stages &&& G15V2_READY_SUBSTAGE_1 = 0 then
          g15data.ready_stages ||| G15V2_READY_SUBSTAGE_1
        else if g15data.ready_stages &&& G15V2_READY_SUBSTAGE_4 ≠ 0 ∧
            g15data.ready_stages &&& G15V2_READY_SUBSTAGE_5 = 0 then
          g15data.ready_stages ||| G15V2_READY_SUBSTAGE_5
        else if g15data.ready_stages &&& G15V2_READY_SUBSTAGE_6 ≠ 0 ∧
            raw_data 1 ≥ 0x80 then
          g15data.ready_stages ||| G15V2_READY_SUBSTAGE_7
        else
          g15data.ready_stages
      else if report.id = 1 then
        if g15data.ready_stages &&& G15V2_READY_SUBSTAGE_2 = 0 then
          g15data.ready_stages ||| G15V2_READY_SUBSTAGE_2
        else
          g15data.ready_stages ||| G15V2_READY_SUBSTAGE_3
      else
        g15data.ready_stages
    if ready_stages = G15V2_READY_STAGE_1 ∨
        ready_stages = G15V2_READY_STAGE_2 ∨
        ready_stages = G15V2_READY_STAGE_3 then
      { g15data := { ready_stages := ready_stages, ready := true },
        retval := 1, complete_all := true, process_input := false }
    else
      { g15data := { ready_stages := ready_stages, ready := g15data.ready },
        retval := 1, complete_all := false, process_input := false }
  else if report.id = 2 then
    { g15data := g15data, retval := 1, complete_all := false, process_input := true }
  else
    { g15data := g15data, retval := 0, complete_all := false, process_input := false }

/-- Source: `g19_raw_event` in hid-g19.c. -/
def g19_raw_event (g19data : g15_data) (report : hid_report)
    (raw_data : Nat → Nat) (_size : Int) : raw_event_result :=
  if g19data.ready_stages ≠ G19_READY_STAGE_3 then
    let ready_stages :=
      if report.id = 6 then
        if g19data.ready_stages &&& G19_READY_SUBSTAGE_1 = 0 then
          g19data.ready_stages ||| G19_READY_SUBSTAGE_1
        else if g19data.ready_stages &&& G19_READY_SUBSTAGE_4 ≠ 0 ∧
            g19data.ready_stages &&& G19_READY_SUBSTAGE_5 = 0 then
          g19data.ready_stages ||| G19_READY_SUBSTAGE_5
        else if g19data.ready_stages &&& G19_READY_SUBSTAGE_6 ≠ 0 ∧
            raw_data 1 ≥ 0x80 then
          g19data.ready_stages ||| G19_READY_SUBSTAGE_7
        else
          g19data.ready_stages
      else if report.id = 1 then
        if g19data.ready_stages &&& G19_READY_SUBSTAGE_2 = 0 then
          g19data.ready_stages ||| G19_READY_SUBSTAGE_2
        else
          g19data.ready_stages ||| G19_READY_SUBSTAGE_3
      else
        g19data.ready_stages
    if ready_stages = G19_READY_STAGE_1 ∨
        ready_stages = G19_READY_STAGE_2 ∨
        ready_stages = G19_READY_STAGE_3 then
      { g15data := { ready_stages := ready_stages, ready := true },
        retval := 1, complete_all := true, process_input := false }
    else
      { g15data := { ready_stages := ready_stages, ready := g19data.ready },
        retval := 1, complete_all := false, process_input := false }
  else if report.id = 2 then
    { g15data := g19data, retval := 1, complete_all := false, process_input := true }
  else
    { g15data := g19data, retval := 0, complete_all := false, process_input := false }

/-- Source: `g110_raw_event` in hid-g110.c. -/
def g110_raw_event (g110data : g15_data) (report : hid_report)
    (raw_data : Nat → Nat) (_size : Int) : raw_event_result :=
  if g110data.ready_stages ≠ G110_READY_STAGE_3 then
    let ready_stages :=
      if report.id = 6 then
        if g110data.ready_stages &&& G110_READY_SUBSTAGE_1 = 0 then
          g110data.ready_stages ||| G110_READY_SUBSTAGE_1
        else if g110data.ready_stages &&& G110_READY_SUBSTAGE_4 ≠ 0 ∧
            g110data.ready_stages &&& G110_READY_SUBSTAGE_5 = 0 then
          g110data.ready_stages ||| G110_READY_SUBSTAGE_5
        else if g110data.ready_stages &&& G110_READY_SUBSTAGE_6 ≠ 0 ∧
            raw_data 1 ≥ 0x80 then
          g110data.ready_stages ||| G110_READY_SUBSTAGE_7
        else
          g110data.ready_stages
      else if report.id = 1 then
        if g110data.ready_stages &&& G110_READY_SUBSTAGE_2 = 0 then
          g110data.ready_stages ||| G110_READY_SUBSTAGE_2
        else
          g110data.ready_stages ||| G110_READY_SUBSTAGE_3
      else
        g110data.ready_stages
    if ready_stages = G110_READY_STAGE_1 ∨
        ready_stages = G110_READY_STAGE_2 ∨
        ready_stages = G110_READY_STAGE_3 then
      { g15data := { ready_stages := ready_stages, ready := true },
        retval := 1, complete_all := true, process_input := false }
    else
      { g15data := { ready_stages := ready_stages, ready := g110data.ready },
        retval := 1, complete_all := false, process_input := false }
  else if report.id = 2 then
    { g15data := g110data, retval := 1, complete_all := false, process_input := true }
  else
    { g15data := g110data, retval := 0, complete_all := false, process_input := false }

/-- Source: `g510_raw_event` in hid-g510.c. -/
def g510_raw_event (g510data : g15_data) (report : hid_report)
    (raw_data : Nat → Nat) (_size : Int) : raw_event_result :=
  if g510data.ready_stages ≠ G510_READY_STAGE_3 then
    let ready_stages :=
      if report.id = 6 then
        if g510data.ready_stages &&& G510_READY_SUBSTAGE_1 = 0 then
          g510data.ready_stages ||| G510_READY_SUBSTAGE_1
        else if g510data.ready_stages &&& G510_READY_SUBSTAGE_4 ≠ 0 ∧
            g510data.ready_stages &&& G510_READY_SUBSTAGE_5 = 0 then
          g510data.ready_stages ||| G510_READY_SUBSTAGE_5
        else if g510data.ready_stages &&& G510_READY_SUBSTAGE_6 ≠ 0 ∧
            raw_data 1 ≥ 0x80 then
          g510data.ready_stages ||| G510_READY_SUBSTAGE_7
        else
          g510data.ready_stages
      else if report.id = 1 then
        if g510data.ready_stages &&& G510_READY_SUBSTAGE_2 = 0 then
          g510data.ready_stages ||| G510_READY_SUBSTAGE_2
        else
          g510data.ready_stages ||| G510_READY_SUBSTAGE_3
      else
        g510data.ready_stages
    if ready_stages = G510_READY_STAGE_1 ∨
        ready_stages = G510_READY_STAGE_2 ∨
        ready_stages = G510_READY_STAGE_3 then
      { g15data := { ready_stages := ready_stages, ready := true },
        retval := 1, complete_all := true, process_input := false }
    else
      { g15data := { ready_stages := ready_stages, ready := g510data.ready },
        retval := 1, complete_all := false, process_input := false }
  else if report.id = 2 then
    { g15data := g510data, retval := 1, complete_all := false, process_input := true }
  else
    { g15data := g510data, retval := 0, complete_all := false, process_input := false }

/-! ## Report deliveries and the attach procedure -/

/-- The arguments of one call of the `raw_event` hook (`report`, `raw_data`,
`size`), as made by the HID core from the interrupt context. -/
structure raw_event_args where
  report : hid_report
  raw_data : Nat → Nat
  size : Int

/-- One report delivery: the driver data after `g15_raw_event` returns. -/
def deliver (g15data : g15_data) (a : raw_event_args) : g15_data :=
  (g15_raw_event g15data a.report a.raw_data a.size).g15data

/-- A sequence of report deliveries, oldest first. -/
def deliver_all (g15data : g15_data) (as : List raw_event_args) : g15_data :=
  as.foldl deliver g15data

/-- The driver data as `g15_probe` sets it up: `kzalloc` zeroes `ready_stages`
and `init_completion` leaves the completion not done. -/
def g15_probe_data : g15_data := { ready_stages := 0, ready := false }

/-- Outcome of one locked section of the attach procedure: the driver data
when the lock is released and whether `dev_warn` was called. -/
structure locked_result where
  g15data : g15_data
  dev_warn : Bool
  deriving DecidableEq

/-- Source: `wait_ready` in hid-g15.c, first locked section (after the first
`wait_for_completion_timeout`). -/
def wait_ready_stage_1 (g15data : g15_data) : locked_result :=
  let forced := g15data.ready_stages ≠ G15_READY_STAGE_1
  let ready_stages := if forced then G15_READY_STAGE_1 else g15data.ready_stages
  { g15data := { ready_stages := ready_stages ||| G15_READY_SUBSTAGE_4, ready := false },
    dev_warn := forced }

/-- Source: `wait_ready` in hid-g15.c, second locked section (after the init
report, the input-report request and the second wait). -/
def wait_ready_stage_2 (g15data : g15_data) : locked_result :=
  let forced := g15data.ready_stages ≠ G15_READY_STAGE_2
  let ready_stages := if forced then G15_READY_STAGE_2 else g15data.ready_stages
  { g15data := { ready_stages := ready_stages ||| G15_READY_SUBSTAGE_6, ready := false },
    dev_warn := forced }

/-- Source: `send_finalize_report` in hid-g15.c, the locked section after the
third wait. -/
def send_finalize_report_locked (g15data : g15_data) : locked_result :=
  if g15data.ready_stages ≠ G15_READY_STAGE_3 then
    { g15data := { ready_stages := G15_READY_STAGE_3, ready := g15data.ready },
      dev_warn := true }
  else
    { g15data := g15data, dev_warn := false }

/-- Source: `wait_ready` in hid-g15.c.  `wait1` and `wait2` are the reports
delivered before the first and before the second locked section (a wait ends
by completion or by its timeout, so any list is possible, the empty one
included). -/
def wait_ready (wait1 wait2 : List raw_event_args) (g15data : g15_data) :
    locked_result × locked_result :=
  let s1 := wait_ready_stage_1 (deliver_all g15data wait1)
  let s2 := wait_ready_stage_2 (deliver_all s1.g15data wait2)
  (s1, s2)

/-- Source: `send_finalize_report` in hid-g15.c, with `wait3` the reports
delivered before its locked section. -/
def send_finalize_report (wait3 : List raw_event_args) (g15data : g15_data) :
    locked_result :=
  send_finalize_report_locked (deliver_all g15data wait3)

/-- The record of one run of the attach handshake in `g15_probe`:
`wait_ready(gdata)` followed by `send_finalize_report(gdata)`. -/
structure attach_trace where
  stage_1 : locked_result
  stage_2 : locked_result
  stage_3 : locked_result

/-- Source: `g15_probe` in hid-g15.c, from `wait_ready(gdata)` to
`send_finalize_report(gdata)`, on freshly allocated driver data. -/
def g15_probe_handshake (wait1 wait2 wait3 : List raw_event_args) : attach_trace :=
  let w := wait_ready wait1 wait2 g15_probe_data
  { stage_1 := w.1, stage_2 := w.2,
    stage_3 := send_finalize_report wait3 w.2.g15data }

/-- One move of a session: a report delivery or the next locked section of
the attach procedure. -/
inductive session_step where
  | report (a : raw_event_args)
  | attach

/-- A device session: the driver data and how many locked sections of the
attach procedure have run (0 to 3). -/
structure session where
  g15data : g15_data
  attach_done : Nat

/-- Effect of one move on a session; the attach sections run in order and
there is no fourth one. -/
def session.step (s : session) : session_step → session
  | .report a => { s with g15data := deliver s.g15data a }
  | .attach =>
    match s.attach_done with
    | 0 => { g15data := (wait_ready_stage_1 s.g15data).g15data, attach_done := 1 }
    | 1 => { g15data := (wait_ready_stage_2 s.g15data).g15data, attach_done := 2 }
    | 2 => { g15data := (send_finalize_report_locked s.g15data).g15data, attach_done := 3 }
    | _ => s

/-- A session after a list of moves, starting from a fresh one. -/
def session.run (steps : List session_step) : session :=
  steps.foldl session.step { g15data := g15_probe_data, attach_done := 0 }

/-- The handshake transition as the specification words it: the bitmask a
report with identifier `id` and second raw byte `byte1` leaves behind when the
bitmask before it was `m` (not yet Stage3).  SUB1..SUB7 are bits 0..6. -/
def spec_ready_stages (m id byte1 : Nat) : Nat :=
  if id = 6 then
    if m.testBit 0 = false then m ||| 0x01
    else if m.testBit 3 = true ∧ m.testBit 4 = false then m ||| 0x10
    else if m.testBit 5 = true ∧ byte1 ≥ 0x80 then m ||| 0x40
    else m
  else if id = 1 then
    if m.testBit 1 = false then m ||| 0x02 else m ||| 0x04
  else m

/-- One delivery on the bitmask alone: nothing changes at Stage3, and before
that the transition of `spec_ready_stages` applies. -/
def ready_stages_step (m id byte1 : Nat) : Nat :=
  if m = 0x7F then m else spec_ready_stages m id byte1

/-- The report of the code comment in `g15_raw_event`:
`data = 6 0 255 255 255 ...`. -/
def scenario_a_raw_data : Nat → Nat :=
  fun i => if i = 0 then 6 else if i = 1 then 0 else 255

/-! ## Reachable session states -/

/-- The pairs (attach sections done, bitmask) a session can be in. -/
def session_inv (n m : Nat) : Prop :=
  (n = 0 ∧ (m = 0x00 ∨ m = 0x01 ∨ m = 0x02 ∨ m = 0x03 ∨ m = 0x06 ∨ m = 0x07)) ∨
  (n = 1 ∧ (m = 0x0F ∨ m = 0x1F)) ∨
  (n = 2 ∧ (m = 0x3F ∨ m = 0x7F)) ∨
  (n = 3 ∧ m = 0x7F)

instance (n m : Nat) : Decidable (session_inv n m) := by
  unfold session_inv
  infer_instance

/-! ## Panel framebuffer (hid-gfb.c) -/

def GFB_UPDATE_RATE_LIMIT : Nat := 30
def GFB_UPDATE_RATE_DEFAULT : Nat := 30

/-- The panel types of hid-gfb.h that `gfb_probe` and `gfb_fb_update` switch
on; `other` stands for any value of the `int` that is neither of the two. -/
inductive gfb_panel_type where
  | GFB_PANEL_TYPE_160_43_1
  | GFB_PANEL_TYPE_320_240_16
  | other
  deriving DecidableEq

/-- The fields of `struct gfb_data` (with the `fix` and `var` members of its
`fb_info` that the driver sets and reads).  `fb_bitmap` is the
memory behind the `u8 *fb_bitmap` pointer, indexed by byte offset: the surface
is its first `fix_smem_len` bytes and `vmalloc` hands out whole pages, so
offsets just past the surface are readable too.  `fb_vbitmap` is the array of
`fb_vbitmap_size` bytes that `kmalloc_array` returned. -/
structure gfb_data where
  panel_type : gfb_panel_type
  fix_line_length : Nat
  fix_smem_len : Nat
  var_xres : Nat
  var_yres : Nat
  var_bits_per_pixel : Nat
  fb_bitmap : Nat → Nat
  fb_vbitmap : List Nat
  fb_vbitmap_size : Nat
  fb_vbitmap_busy : Bool
  fb_update_rate : Nat
  fb_defio_delay : Nat
  fb_count : Int
  virtualized : Bool
  kref : Nat

/-- What `gfb_probe` gets from the kernel: whether each allocation and the
framebuffer registration succeed, the (uninitialised) contents of the memory
handed out by `vmalloc` and `kmalloc_array`, and the tick rate `HZ`. -/
structure gfb_probe_env where
  kzalloc_ok : Bool
  framebuffer_alloc_ok : Bool
  vmalloc_ok : Bool
  kmalloc_array_ok : Bool
  usb_alloc_urb_ok : Bool
  register_framebuffer_ok : Bool
  vmalloc_mem : Nat → Nat
  kmalloc_mem : Nat → Nat
  HZ : Nat

/-- Source: `gfb_probe` in hid-gfb.c; `none` is the `NULL` return. -/
def gfb_probe (env : gfb_probe_env) (panel_type : gfb_panel_type) : Option gfb_data :=
  if !env.kzalloc_ok then none
  else if !env.framebuffer_alloc_ok then none
  else
    let geometry : Option (Nat × Nat × Nat × Nat × Nat) :=
      match panel_type with
      | .GFB_PANEL_TYPE_160_43_1 => some (32, 160, 43, 1, 992)
      | .GFB_PANEL_TYPE_320_240_16 => some (640, 320, 240, 16, 154112)
      | .other => none
    match geometry with
    | none => none
    | some (line_length, xres, yres, bits_per_pixel, fb_vbitmap_size) =>
      if !env.vmalloc_ok then none
      else if !env.kmalloc_array_ok then none
      else if !env.usb_alloc_urb_ok then none
      else if !env.register_framebuffer_ok then none
      else
        some
          { panel_type := panel_type
            fix_line_length := line_length
            fix_smem_len := line_length * yres
            var_xres := xres
            var_yres := yres
            var_bits_per_pixel := bits_per_pixel
            fb_bitmap := env.vmalloc_mem
            fb_vbitmap := (List.range fb_vbitmap_size).map env.kmalloc_mem
            fb_vbitmap_size := fb_vbitmap_size
            fb_vbitmap_busy := false
            fb_update_rate := GFB_UPDATE_RATE_DEFAULT
            fb_defio_delay := env.HZ / GFB_UPDATE_RATE_DEFAULT
            fb_count := 0
            virtualized := false
            kref := 2 }

/-- A C `for (i = 0; i < n; ++i) body` loop over a state: `body` is run for
`i = 0, 1, ..., n - 1` in this order. -/
def for_loop {σ : Type} (n : Nat) (body : Nat → σ → σ) (s : σ) : σ :=
  match n with
  | 0 => s
  | k + 1 => body k (for_loop k body s)

/-- The C library call `memset(p, c, n)` on a byte array `p` of at least `n`
bytes. -/
def memset (p : List Nat) (c n : Nat) : List Nat :=
  List.replicate n c ++ p.drop n

/-- Source: `gfb_fb_mono_update`, body of the `bit` loop, on the state
(`fb_vbitmap` memory, `src` offset):
`if (*src & mask) *dst |= (0x01 << bit); src += ll;`. -/
def gfb_fb_mono_update_bit (fb_bitmap : Nat → Nat) (ll mask dst : Nat)
    (bit : Nat) (st : List Nat × Nat) : List Nat × Nat :=
  let vbitmap := st.1
  let src := st.2
  (if fb_bitmap src &&& mask ≠ 0 then
      vbitmap.set dst (vbitmap.getD dst 0 ||| (0x01 <<< bit))
    else vbitmap,
   src + ll)

/-- Source: `gfb_fb_mono_update`, body of the `col` loop, on the state
(`fb_vbitmap` memory, `dst` offset). -/
def gfb_fb_mono_update_col (fb_bitmap : Nat → Nat) (ll row_start : Nat)
    (col : Nat) (st : List Nat × Nat) : List Nat × Nat :=
  let vbitmap := st.1
  let dst := st.2
  let src := row_start + col / 8
  let mask := 0x01 <<< (col % 8)
  let r := for_loop 8 (gfb_fb_mono_update_bit fb_bitmap ll mask dst) (vbitmap, src)
  (r.1, dst + 1)

/-- Source: `gfb_fb_mono_update`, body of the `band` loop. -/
def gfb_fb_mono_update_band (fb_bitmap : Nat → Nat) (ll xres : Nat)
    (band : Nat) (st : List Nat × Nat) : List Nat × Nat :=
  let row_start := band * 8 * ll
  for_loop xres (gfb_fb_mono_update_col fb_bitmap ll row_start) st

/-- Source: `gfb_fb_mono_update` in hid-gfb.c. -/
def gfb_fb_mono_update (data : gfb_data) : gfb_data :=
  let vbitmap := memset data.fb_vbitmap 0x00 data.fb_vbitmap_size
  let vbitmap := vbitmap.set 0 0x03
  let xres := data.var_xres
  let yres := data.var_yres
  let ll := data.fix_line_length
  let dst := 32
  let bands := (yres + 7) / 8
  let r := for_loop bands (gfb_fb_mono_update_band data.fb_bitmap ll xres) (vbitmap, dst)
  { data with fb_vbitmap := r.1 }

/-- The transfer buffer handed to the URB in `gfb_fb_send`: the first
`fb_vbitmap_size` bytes of `fb_vbitmap`. -/
def gfb_frame (data : gfb_data) : List Nat :=
  data.fb_vbitmap.take data.fb_vbitmap_size

/-- The environment in which every allocation of `gfb_probe` succeeds, with
the given memory contents. -/
def probe_ok_env (vmalloc_mem kmalloc_mem : Nat → Nat) (HZ : Nat) : gfb_probe_env :=
  { kzalloc_ok := true, framebuffer_alloc_ok := true, vmalloc_ok := true,
    kmalloc_array_ok := true, usb_alloc_urb_ok := true, register_framebuffer_ok := true,
    vmalloc_mem := vmalloc_mem, kmalloc_mem := kmalloc_mem, HZ := HZ }

/-- The pixel at (`col`, `row`) of a one-bit surface with lines of `ll`
bytes: bit `col mod 8` of the byte at `row * ll + col div 8`. -/
def mono_pixel (fb_bitmap : Nat → Nat) (ll col row : Nat) : Bool :=
  (fb_bitmap (row * ll + col / 8)).testBit (col % 8)

/-- Unpacking of the body of a monochrome frame (the 960 bytes after the
32-byte header): the pixel at (`col`, `row`) is bit `row mod 8` of body byte
`160 * (row div 8) + col`. -/
def gfb_mono_unpack (body : List Nat) (col row : Nat) : Bool :=
  (body.getD (160 * (row / 8) + col) 0).testBit (row % 8)

/-- The byte built from `n` flags: bit `bit` is set when `p bit` holds, for
`bit < n`. -/
def or_bits (n : Nat) (p : Nat → Bool) : Nat :=
  match n with
  | 0 => 0
  | k + 1 => or_bits k p ||| (if p k then 0x01 <<< k else 0)

/-- The byte the `bit` loop of `gfb_fb_mono_update` ORs into `*dst` for
column `col` of the band starting at byte offset `row_start`. -/
def mono_col_byte (fb_bitmap : Nat → Nat) (ll row_start col : Nat) : Nat :=
  or_bits 8 (fun bit =>
    decide (fb_bitmap (row_start + col / 8 + bit * ll) &&& (0x01 <<< (col % 8)) ≠ 0))

/-- The frame `gfb_fb_mono_update` produces for a panel whose surface memory
holds `surface` and whose wire buffer holds `wire` (whatever earlier updates
left there). -/
def mono_panel_frame (data : gfb_data) (surface : Nat → Nat) (wire : List Nat) : List Nat :=
  gfb_frame (gfb_fb_mono_update { data with fb_bitmap := surface, fb_vbitmap := wire })

/-- The surface bytes (lines of 32 bytes, bit `col mod 8` of byte `col div 8`)
that hold the pattern `p col row`. -/
def surface_of_pattern (p : Nat → Nat → Bool) : Nat → Nat :=
  fun i => or_bits 8 (fun b => p (8 * (i % 32) + b) (i / 32))

/-- Surface memory with all 1376 surface bytes 0xFF, followed by zero bytes. -/
def all_on_surface : Nat → Nat := fun i => if i < 1376 then 0xFF else 0x00

/-- The data `gfb_probe` returns for the monochrome panel when every
allocation succeeds, the surface memory is `all_on_surface`, the wire buffer
starts zeroed and `HZ` is 250. -/
def all_on_data : gfb_data :=
  { panel_type := .GFB_PANEL_TYPE_160_43_1
    fix_line_length := 32
    fix_smem_len := 1376
    var_xres := 160
    var_yres := 43
    var_bits_per_pixel := 1
    fb_bitmap := all_on_surface
    fb_vbitmap := List.replicate 992 0
    fb_vbitmap_size := 992
    fb_vbitmap_busy := false
    fb_update_rate := 30
    fb_defio_delay := 8
    fb_count := 0
    virtualized := false
    kref := 2 }

/-! ## Colour panel encoder (hid-gfb.c) -/

/-- Source: `hdata` in hid-gfb.c, the 512-byte header of a colour frame. -/
def hdata : List Nat :=
  [0x10, 0x0f, 0x00, 0x58, 0x02, 0x00, 0x00, 0x00, 0x00, 0x00, 0x00, 0x3f,
   0x01, 0xef, 0x00, 0x0f, 0x10, 0x11, 0x12, 0x13, 0x14, 0x15, 0x16, 0x17,
   0x18, 0x19, 0x1a, 0x1b, 0x1c, 0x1d, 0x1e, 0x1f, 0x20, 0x21, 0x22, 0x23,
   0x24, 0x25, 0x26, 0x27, 0x28, 0x29, 0x2a, 0x2b, 0x2c, 0x2d, 0x2e, 0x2f,
   0x30, 0x31, 0x32, 0x33, 0x34, 0x35, 0x36, 0x37, 0x38, 0x39, 0x3a, 0x3b,
   0x3c, 0x3d, 0x3e, 0x3f, 0x40, 0x41, 0x42, 0x43, 0x44, 0x45, 0x46, 0x47,
   0x48, 0x49, 0x4a, 0x4b, 0x4c, 0x4d, 0x4e, 0x4f, 0x50, 0x51, 0x52, 0x53,
   0x54, 0x55, 0x56, 0x57, 0x58, 0x59, 0x5a, 0x5b, 0x5c, 0x5d, 0x5e, 0x5f,
   0x60, 0x61, 0x62, 0x63, 0x64, 0x65, 0x66, 0x67, 0x68, 0x69, 0x6a, 0x6b,
   0x6c, 0x6d, 0x6e, 0x6f, 0x70, 0x71, 0x72, 0x73, 0x74, 0x75, 0x76, 0x77,
   0x78, 0x79, 0x7a, 0x7b, 0x7c, 0x7d, 0x7e, 0x7f, 0x80, 0x81, 0x82, 0x83,
   0x84, 0x85, 0x86, 0x87, 0x88, 0x89, 0x8a, 0x8b, 0x8c, 0x8d, 0x8e, 0x8f,
   0x90, 0x91, 0x92, 0x93, 0x94, 0x95, 0x96, 0x97, 0x98, 0x99, 0x9a, 0x9b,
   0x9c, 0x9d, 0x9e, 0x9f, 0xa0, 0xa1, 0xa2, 0xa3, 0xa4, 0xa5, 0xa6, 0xa7,
   0xa8, 0xa9, 0xaa, 0xab, 0xac, 0xad, 0xae, 0xaf, 0xb0, 0xb1, 0xb2, 0xb3,
   0xb4, 0xb5, 0xb6, 0xb7, 0xb8, 0xb9, 0xba, 0xbb, 0xbc, 0xbd, 0xbe, 0xbf,
   0xc0, 0xc1, 0xc2, 0xc3, 0xc4, 0xc5, 0xc6, 0xc7, 0xc8, 0xc9, 0xca, 0xcb,
   0xcc, 0xcd, 0xce, 0xcf, 0xd0, 0xd1, 0xd2, 0xd3, 0xd4, 0xd5, 0xd6, 0xd7,
   0xd8, 0xd9, 0xda, 0xdb, 0xdc, 0xdd, 0xde, 0xdf, 0xe0, 0xe1, 0xe2, 0xe3,
   0xe4, 0xe5, 0xe6, 0xe7, 0xe8, 0xe9, 0xea, 0xeb, 0xec, 0xed, 0xee, 0xef,
   0xf0, 0xf1, 0xf2, 0xf3, 0xf4, 0xf5, 0xf6, 0xf7, 0xf8, 0xf9, 0xfa, 0xfb,
   0xfc, 0xfd, 0xfe, 0xff, 0x00, 0x01, 0x02, 0x03, 0x04, 0x05, 0x06, 0x07,
   0x08, 0x09, 0x0a, 0x0b, 0x0c, 0x0d, 0x0e, 0x0f, 0x10, 0x11, 0x12, 0x13,
   0x14, 0x15, 0x16, 0x17, 0x18, 0x19, 0x1a, 0x1b, 0x1c, 0x1d, 0x1e, 0x1f,
   0x20, 0x21, 0x22, 0x23, 0x24, 0x25, 0x26, 0x27, 0x28, 0x29, 0x2a, 0x2b,
   0x2c, 0x2d, 0x2e, 0x2f, 0x30, 0x31, 0x32, 0x33, 0x34, 0x35, 0x36, 0x37,
   0x38, 0x39, 0x3a, 0x3b, 0x3c, 0x3d, 0x3e, 0x3f, 0x40, 0x41, 0x42, 0x43,
   0x44, 0x45, 0x46, 0x47, 0x48, 0x49, 0x4a, 0x4b, 0x4c, 0x4d, 0x4e, 0x4f,
   0x50, 0x51, 0x52, 0x53, 0x54, 0x55, 0x56, 0x57, 0x58, 0x59, 0x5a, 0x5b,
   0x5c, 0x5d, 0x5e, 0x5f, 0x60, 0x61, 0x62, 0x63, 0x64, 0x65, 0x66, 0x67,
   0x68, 0x69, 0x6a, 0x6b, 0x6c, 0x6d, 0x6e, 0x6f, 0x70, 0x71, 0x72, 0x73,
   0x74, 0x75, 0x76, 0x77, 0x78, 0x79, 0x7a, 0x7b, 0x7c, 0x7d, 0x7e, 0x7f,
   0x80, 0x81, 0x82, 0x83, 0x84, 0x85, 0x86, 0x87, 0x88, 0x89, 0x8a, 0x8b,
   0x8c, 0x8d, 0x8e, 0x8f, 0x90, 0x91, 0x92, 0x93, 0x94, 0x95, 0x96, 0x97,
   0x98, 0x99, 0x9a, 0x9b, 0x9c, 0x9d, 0x9e, 0x9f, 0xa0, 0xa1, 0xa2, 0xa3,
   0xa4, 0xa5, 0xa6, 0xa7, 0xa8, 0xa9, 0xaa, 0xab, 0xac, 0xad, 0xae, 0xaf,
   0xb0, 0xb1, 0xb2, 0xb3, 0xb4, 0xb5, 0xb6, 0xb7, 0xb8, 0xb9, 0xba, 0xbb,
   0xbc, 0xbd, 0xbe, 0xbf, 0xc0, 0xc1, 0xc2, 0xc3, 0xc4, 0xc5, 0xc6, 0xc7,
   0xc8, 0xc9, 0xca, 0xcb, 0xcc, 0xcd, 0xce, 0xcf, 0xd0, 0xd1, 0xd2, 0xd3,
   0xd4, 0xd5, 0xd6, 0xd7, 0xd8, 0xd9, 0xda, 0xdb, 0xdc, 0xdd, 0xde, 0xdf,
   0xe0, 0xe1, 0xe2, 0xe3, 0xe4, 0xe5, 0xe6, 0xe7, 0xe8, 0xe9, 0xea, 0xeb,
   0xec, 0xed, 0xee, 0xef, 0xf0, 0xf1, 0xf2, 0xf3, 0xf4, 0xf5, 0xf6, 0xf7,
   0xf8, 0xf9, 0xfa, 0xfb, 0xfc, 0xfd, 0xfe, 0xff]

/-- The C library call `memcpy(dst, src, n)` onto the byte array `dst`, with
`src` holding at least `n` bytes. -/
def memcpy (dst src : List Nat) (n : Nat) : List Nat :=
  src.take n ++ dst.drop n

/-- Source: `gfb_fb_qvga_update`, body of the `row` loop, on the state
(`fb_vbitmap` bytes, byte offset of the `u16 *dst`):
`*dst++ = src[row * xres + col];`.  The 16-bit unit `src[i]` is the two bytes
at offsets `2 * i` and `2 * i + 1` of `fb_bitmap`, copied as they are. -/
def gfb_fb_qvga_update_row (fb_bitmap : Nat → Nat) (xres col : Nat)
    (row : Nat) (st : List Nat × Nat) : List Nat × Nat :=
  let vbitmap := st.1
  let dst := st.2
  let src := 2 * (row * xres + col)
  ((vbitmap.set dst (fb_bitmap src)).set (dst + 1) (fb_bitmap (src + 1)), dst + 2)

/-- Source: `gfb_fb_qvga_update`, body of the `col` loop. -/
def gfb_fb_qvga_update_col (fb_bitmap : Nat → Nat) (xres yres : Nat)
    (col : Nat) (st : List Nat × Nat) : List Nat × Nat :=
  for_loop yres (gfb_fb_qvga_update_row fb_bitmap xres col) st

/-- Source: `gfb_fb_qvga_update` in hid-gfb.c (`sizeof(hdata)` is 512). -/
def gfb_fb_qvga_update (data : gfb_data) : gfb_data :=
  let vbitmap := memcpy data.fb_vbitmap hdata 512
  let dst := 512
  let xres := data.var_xres
  let yres := data.var_yres
  let r := for_loop xres (gfb_fb_qvga_update_col data.fb_bitmap xres yres) (vbitmap, dst)
  { data with fb_vbitmap := r.1 }

/-- The frame `gfb_fb_qvga_update` produces for a panel whose surface memory
holds `surface` and whose wire buffer holds `wire`. -/
def qvga_panel_frame (data : gfb_data) (surface : Nat → Nat) (wire : List Nat) : List Nat :=
  gfb_frame (gfb_fb_qvga_update { data with fb_bitmap := surface, fb_vbitmap := wire })

/-- A colour panel of 3 columns and 2 rows, for running the encoder by hand:
surface byte `i` holds `i + 1`, the wire buffer is 524 bytes of 0xEE. -/
def small_qvga_data : gfb_data :=
  { panel_type := .GFB_PANEL_TYPE_320_240_16
    fix_line_length := 6
    fix_smem_len := 12
    var_xres := 3
    var_yres := 2
    var_bits_per_pixel := 16
    fb_bitmap := fun i => i + 1
    fb_vbitmap := List.replicate 524 0xEE
    fb_vbitmap_size := 524
    fb_vbitmap_busy := false
    fb_update_rate := 30
    fb_defio_delay := 8
    fb_count := 0
    virtualized := false
    kref := 2 }

/-- The 16-bit unit number `k` after the 512-byte header of a colour frame,
as its two bytes in memory order. -/
def qvga_frame_unit (frame : List Nat) (k : Nat) : Nat × Nat :=
  (frame.getD (512 + 2 * k) 0, frame.getD (512 + 2 * k + 1) 0)

/-- The 16-bit pixel `src[i]` of a colour surface, as its two bytes in memory
order. -/
def qvga_surface_unit (surface : Nat → Nat) (i : Nat) : Nat × Nat :=
  (surface (2 * i), surface (2 * i + 1))

/-- The data `gfb_probe` returns for the colour panel when every allocation
succeeds, with zeroed memory and `HZ` 250. -/
def qvga_probed_data : gfb_data :=
  { panel_type := .GFB_PANEL_TYPE_320_240_16
    fix_line_length := 640
    fix_smem_len := 640 * 240
    var_xres := 320
    var_yres := 240
    var_bits_per_pixel := 16
    fb_bitmap := fun _ => 0
    fb_vbitmap := (List.range 154112).map (fun _ => 0)
    fb_vbitmap_size := 154112
    fb_vbitmap_busy := false
    fb_update_rate := 30
    fb_defio_delay := 8
    fb_count := 0
    virtualized := false
    kref := 2 }

/-! ## Panel transfer pipeline (hid-gfb.c) -/

/-- Linux errno values the drivers return (from the kernel headers). -/
def EPERM : Int := 1
def ENOMEM : Int := 12
def EFAULT : Int := 14
def ENODEV : Int := 19
def EINVAL : Int := 22

/-- What the USB core answers during one call of `gfb_fb_send`: whether the
OUT endpoint 2 of the device exists, and the value `usb_submit_urb` returns. -/
structure usb_env where
  ep_present : Bool
  usb_submit_urb : Int

/-- What one call of `gfb_fb_send` (or of `gfb_fb_update`, which ends in it)
leaves behind: the panel data, the value returned, whether `usb_submit_urb`
was called, the frame handed over when it succeeded, and the delay passed to
`schedule_delayed_work` for `fb_info->deferred_work` when it was called. -/
structure gfb_fb_send_result where
  data : gfb_data
  retval : Int
  usb_submit_urb_called : Bool
  submitted : Option (List Nat)
  schedule_delayed_work : Option Nat

/-- Source: `gfb_fb_urb_completion` in hid-gfb.c; `status` is `urb->status`,
which the function does not read. -/
def gfb_fb_urb_completion (data : gfb_data) (_status : Int) : gfb_data :=
  { data with fb_vbitmap_busy := false }

/-- Source: `gfb_fb_send` in hid-gfb.c. -/
def gfb_fb_send (usb : usb_env) (data : gfb_data) : gfb_fb_send_result :=
  if data.virtualized then
    { data := data, retval := -ENODEV, usb_submit_urb_called := false,
      submitted := none, schedule_delayed_work := none }
  else if !data.fb_vbitmap_busy then
    match data.panel_type with
    | .other =>
      { data := data, retval := -EINVAL, usb_submit_urb_called := false,
        submitted := none, schedule_delayed_work := none }
    | _ =>
      if !usb.ep_present then
        { data := data, retval := -ENODEV, usb_submit_urb_called := false,
          submitted := none, schedule_delayed_work := none }
      else
        let retval := usb.usb_submit_urb
        if retval < 0 then
          { data := data, retval := retval, usb_submit_urb_called := true,
            submitted := none, schedule_delayed_work := none }
        else
          { data := { data with fb_vbitmap_busy := true }, retval := retval,
            usb_submit_urb_called := true, submitted := some (gfb_frame data),
            schedule_delayed_work := none }
  else
    { data := data, retval := 0, usb_submit_urb_called := false,
      submitted := none, schedule_delayed_work := some data.fb_defio_delay }

/-- Source: `gfb_fb_update` in hid-gfb.c. -/
def gfb_fb_update (usb : usb_env) (data : gfb_data) : gfb_fb_send_result :=
  match data.panel_type with
  | .GFB_PANEL_TYPE_160_43_1 => gfb_fb_send usb (gfb_fb_mono_update data)
  | .GFB_PANEL_TYPE_320_240_16 => gfb_fb_send usb (gfb_fb_qvga_update data)
  | .other =>
    { data := data, retval := 0, usb_submit_urb_called := false,
      submitted := none, schedule_delayed_work := none }

/-- Source: `gfb_fb_deferred_io` in hid-gfb.c (the value of `gfb_fb_update`
is dropped by the caller). -/
def gfb_fb_deferred_io (usb : usb_env) (data : gfb_data) : gfb_fb_send_result :=
  gfb_fb_update usb data

/-- Source: `gfb_fb_write` in hid-gfb.c.  `fb_sys_write_result` is the value
of the kernel's `fb_sys_write` and `written` the surface memory it leaves. -/
def gfb_fb_write (usb : usb_env) (data : gfb_data) (fb_sys_write_result : Int)
    (written : Nat → Nat) : gfb_fb_send_result :=
  let par := { data with fb_bitmap := written }
  if fb_sys_write_result ≠ -EFAULT ∧ fb_sys_write_result ≠ -EPERM then
    gfb_fb_update usb par
  else
    { data := par, retval := fb_sys_write_result, usb_submit_urb_called := false,
      submitted := none, schedule_delayed_work := none }

/-- Source: `gfb_fb_fillrect`, `gfb_fb_copyarea` and `gfb_fb_imageblit` in
hid-gfb.c: the kernel's software drawing routine leaves `written` in the
surface memory, then `gfb_fb_update(par)` is called and its value dropped. -/
def gfb_fb_draw (usb : usb_env) (data : gfb_data) (written : Nat → Nat) :
    gfb_fb_send_result :=
  gfb_fb_update usb { data with fb_bitmap := written }

/-- Source: `gfb_set_fb_update_rate` in hid-gfb.c, with the kernel tick rate
`HZ`; the second component is the value returned. -/
def gfb_set_fb_update_rate (HZ : Nat) (data : gfb_data) (fb_update_rate : Nat) :
    gfb_data × Int :=
  let rate :=
    if fb_update_rate > GFB_UPDATE_RATE_LIMIT then GFB_UPDATE_RATE_LIMIT
    else if fb_update_rate = 0 then 1
    else fb_update_rate
  ({ data with fb_update_rate := rate, fb_defio_delay := HZ / rate }, 0)

/-- The kernel's `schedule_delayed_work` on one work item, whose pending
timers are `queue`: a work item that is already pending is left as it is. -/
def schedule_delayed_work (queue : List Nat) (delay : Nat) : List Nat :=
  if queue = [] then [delay] else queue

/-- A panel pipeline: the panel data, the number of URBs submitted and not
yet completed, the frames handed to the USB core so far (oldest first), and
the pending timers of `fb_info->deferred_work`. -/
structure gfb_pipeline where
  data : gfb_data
  urbs_in_flight : Nat
  frames : List (List Nat)
  deferred_work : List Nat

/-- What can happen to a panel pipeline. -/
inductive gfb_event where
  | update (usb : usb_env)
  | draw (written : Nat → Nat) (usb : usb_env)
  | completion (status : Int)
  | deferred_io (usb : usb_env)

/-- The pipeline after a call that ended in `gfb_fb_send`. -/
def gfb_pipeline.after (p : gfb_pipeline) (r : gfb_fb_send_result) : gfb_pipeline :=
  { data := r.data
    urbs_in_flight := p.urbs_in_flight + (if r.submitted.isSome then 1 else 0)
    frames := p.frames ++ r.submitted.toList
    deferred_work :=
      match r.schedule_delayed_work with
      | some delay => schedule_delayed_work p.deferred_work delay
      | none => p.deferred_work }

/-- Effect of one event.  A completion is delivered by the USB core only for
a URB in flight, and the deferred work runs only when it is pending. -/
def gfb_pipeline.step (p : gfb_pipeline) : gfb_event → gfb_pipeline
  | .update usb => p.after (gfb_fb_update usb p.data)
  | .draw written usb => p.after (gfb_fb_draw usb p.data written)
  | .completion status =>
    if p.urbs_in_flight = 0 then p
    else { p with data := gfb_fb_urb_completion p.data status,
                  urbs_in_flight := p.urbs_in_flight - 1 }
  | .deferred_io usb =>
    if p.deferred_work = [] then p
    else ({ p with deferred_work := [] } : gfb_pipeline).after (gfb_fb_deferred_io usb p.data)

/-- The pipeline after a list of events, oldest first. -/
def gfb_pipeline.run (p : gfb_pipeline) (events : List gfb_event) : gfb_pipeline :=
  events.foldl gfb_pipeline.step p

/-- The pipeline of freshly probed panel data. -/
def gfb_pipeline.init (data : gfb_data) : gfb_pipeline :=
  { data := data, urbs_in_flight := 0, frames := [], deferred_work := [] }

/-- A USB core that accepts every submission. -/
def usb_ok : usb_env := { ep_present := true, usb_submit_urb := 0 }

/-- The probed monochrome panel of `all_on_data` with a blank surface. -/
def blank_data : gfb_data := { all_on_data with fb_bitmap := fun _ => 0 }

/-- The panel data after `update()` has submitted the frame of the blank
surface (the URB is still in flight) and the surface has then been filled
with `all_on_surface`. -/
def busy_data : gfb_data :=
  { ((gfb_pipeline.init blank_data).run [.update usb_ok]).data with
    fb_bitmap := all_on_surface }

/-- The probed monochrome panel of `all_on_data` after `gfb_remove` has set
`virtualized`. -/
def orphaned_data : gfb_data := { all_on_data with virtualized := true }
/-- The busy flag mirrors the number of URBs in flight, which is 0 or 1. -/
def gfb_pipeline.slot_inv (p : gfb_pipeline) : Prop :=
  (p.data.fb_vbitmap_busy = false ∧ p.urbs_in_flight = 0) ∨
  (p.data.fb_vbitmap_busy = true ∧ p.urbs_in_flight = 1)

/-- A monochrome pipeline with one transfer in flight and nothing handed over
since: the state in which surface mutations are coalesced.  `delay` is the
configured retry delay. -/
def gfb_pipeline.busy_mono (delay : Nat) (p : gfb_pipeline) : Prop :=
  p.data.panel_type = .GFB_PANEL_TYPE_160_43_1 ∧
  p.data.var_xres = 160 ∧ p.data.var_yres = 43 ∧ p.data.fix_line_length = 32 ∧
  p.data.fb_vbitmap_size = 992 ∧ p.data.fb_vbitmap.length = 992 ∧
  p.data.virtualized = false ∧ p.data.fb_vbitmap_busy = true ∧
  p.data.fb_defio_delay = delay ∧
  p.frames = [] ∧ p.urbs_in_flight = 1 ∧
  (p.deferred_work = [] ∨ p.deferred_work = [delay])

/-- The pipeline of a probed monochrome panel with surface `surface`, wire
buffer `wire` and retry delay `delay` while one transfer is in flight. -/
def gfb_pipeline.in_flight (data : gfb_data) (surface : Nat → Nat) (wire : List Nat)
    (delay : Nat) : gfb_pipeline :=
  { data := { data with fb_bitmap := surface, fb_vbitmap := wire,
                        fb_vbitmap_busy := true, fb_defio_delay := delay }
    urbs_in_flight := 1
    frames := []
    deferred_work := [] }

/-- The events of `N >= 1` surface mutations, each followed by its call of
`update()`: the `earlier` ones, then the one that leaves `final` in the
surface. -/
def coalesce_events (earlier : List ((Nat → Nat) × usb_env)) (final : Nat → Nat)
    (usb_final : usb_env) : List gfb_event :=
  earlier.map (fun d => gfb_event.draw d.1 d.2) ++ [gfb_event.draw final usb_final]

/-! ## Lifetime of the panel data (hid-gfb.c) -/

/-- The panel data together with what its lifetime depends on: whether
`data->fb_info` is still set, the pending timers of `free_framebuffer_work`,
and three counters kept for the proofs: calls of `schedule_delayed_work` on
`free_framebuffer_work`, runs of `gfb_free_framebuffer_work`, and calls of
`gfb_free_data` (which frees the two buffers and the data). -/
structure gfb_lifetime where
  data : gfb_data
  fb_info : Bool
  free_framebuffer_work : List Nat
  scheduled : Nat
  work_runs : Nat
  freed : Nat

/-- The kernel's `kref_put(&data->kref, gfb_free_data)`: one reference is
dropped and `gfb_free_data` runs when the count reaches zero. -/
def kref_put (l : gfb_lifetime) : gfb_lifetime :=
  let kref := l.data.kref - 1
  { l with data := { l.data with kref := kref },
           freed := if kref = 0 then l.freed + 1 else l.freed }

/-- The call `schedule_delayed_work(&data->free_framebuffer_work, delay)`. -/
def schedule_free_framebuffer_work (l : gfb_lifetime) (delay : Nat) : gfb_lifetime :=
  { l with free_framebuffer_work := schedule_delayed_work l.free_framebuffer_work delay,
           scheduled := l.scheduled + 1 }

/-- Source: `gfb_fb_open` in hid-gfb.c; the second component is the value
returned. -/
def gfb_fb_open (l : gfb_lifetime) : gfb_lifetime × Int :=
  if l.data.virtualized then (l, -ENODEV)
  else
    ({ l with data := { l.data with fb_count := l.data.fb_count + 1,
                                    kref := l.data.kref + 1 } }, 0)

/-- Source: `gfb_fb_release` in hid-gfb.c, with the kernel tick rate `HZ`. -/
def gfb_fb_release (HZ : Nat) (l : gfb_lifetime) : gfb_lifetime × Int :=
  let l1 : gfb_lifetime := { l with data := { l.data with fb_count := l.data.fb_count - 1 } }
  let l2 :=
    if l1.data.virtualized = true ∧ l1.data.fb_count = 0 then
      schedule_free_framebuffer_work l1 HZ
    else l1
  (kref_put l2, 0)

/-- Source: `gfb_remove` in hid-gfb.c. -/
def gfb_remove (l : gfb_lifetime) : gfb_lifetime :=
  let l1 : gfb_lifetime := { l with data := { l.data with virtualized := true } }
  let l2 := if l1.data.fb_count = 0 then schedule_free_framebuffer_work l1 0 else l1
  kref_put l2

/-- Source: `gfb_free_framebuffer_work` in hid-gfb.c. -/
def gfb_free_framebuffer_work (l : gfb_lifetime) : gfb_lifetime :=
  let l1 : gfb_lifetime := if l.fb_info then { l with fb_info := false } else l
  kref_put { l1 with work_runs := l1.work_runs + 1 }

/-- What can happen to the panel data after `gfb_probe`: a handle is opened,
a handle is closed, the device is detached (`gfb_remove`), the cleanup work
runs. -/
inductive gfb_lifetime_event where
  | fb_open
  | fb_release
  | remove
  | work
  deriving DecidableEq

/-- When an event can happen: a close needs an open handle, the device is
detached once, and the cleanup work runs only while it is pending. -/
def gfb_lifetime.enabled (l : gfb_lifetime) : gfb_lifetime_event → Bool
  | .fb_open => true
  | .fb_release => decide (0 < l.data.fb_count)
  | .remove => !l.data.virtualized
  | .work => decide (l.free_framebuffer_work ≠ [])

/-- Effect of one event (the kernel takes the cleanup work off its queue
before running it). -/
def gfb_lifetime.step (HZ : Nat) (l : gfb_lifetime) : gfb_lifetime_event → gfb_lifetime
  | .fb_open => (gfb_fb_open l).1
  | .fb_release => (gfb_fb_release HZ l).1
  | .remove => gfb_remove l
  | .work => gfb_free_framebuffer_work { l with free_framebuffer_work := [] }

/-- The lifetime state after a list of events, oldest first. -/
def gfb_lifetime.run (HZ : Nat) (l : gfb_lifetime) (events : List gfb_lifetime_event) :
    gfb_lifetime :=
  events.foldl (gfb_lifetime.step HZ) l

/-- A sequence of events is well formed when each event can happen in the
state the earlier ones lead to. -/
def gfb_lifetime.well_formed (HZ : Nat) (l : gfb_lifetime) :
    List gfb_lifetime_event → Bool
  | [] => true
  | e :: es => l.enabled e && gfb_lifetime.well_formed HZ (l.step HZ e) es

/-- The lifetime state that `gfb_probe` leaves. -/
def gfb_lifetime.init (data : gfb_data) : gfb_lifetime :=
  { data := data, fb_info := true, free_framebuffer_work := [],
    scheduled := 0, work_runs := 0, freed := 0 }

/-- The bookkeeping that holds in every state a well-formed sequence reaches:
the reference count is 2 plus the open handles, minus one once detached and
minus one once the cleanup work has run. -/
def gfb_lifetime.inv (l : gfb_lifetime) : Prop :=
  0 ≤ l.data.fb_count ∧
  (l.data.kref : Int) + (if l.data.virtualized then 1 else 0) + l.work_runs
    = 2 + l.data.fb_count ∧
  l.scheduled = (if l.data.virtualized = true ∧ l.data.fb_count = 0 then 1 else 0) ∧
  l.work_runs ≤ l.scheduled ∧
  l.freed = (if l.data.kref = 0 then 1 else 0) ∧
  (l.free_framebuffer_work ≠ [] ↔ l.work_runs < l.scheduled)

/-! ## The device: handshake and panel side by side (hid-gcore.h) -/

/-- The two members of `struct gcore_data` that carry state here: `data`, the
driver's own data with the readiness bitmask (kept as a session, which also
counts the locked sections of the attach procedure that have run), and
`gfb_data`, the panel (kept as a pipeline, which also records the frames
handed to the USB core). -/
structure gcore_data where
  data : session
  gfb_data : gfb_pipeline

/-- What can happen to a device: a move of the handshake (a report delivery
or the next locked section of the attach procedure) or an event of the panel
pipeline (the framebuffer operations are given `info->par`, the panel data). -/
inductive gcore_event where
  | handshake (s : session_step)
  | panel (e : gfb_event)

/-- Effect of one event on the device: `raw_event`, `wait_ready` and
`send_finalize_report` work on `gdata->data`, the functions of hid-gfb.c on
the `struct gfb_data` they are given. -/
def gcore_data.step (g : gcore_data) : gcore_event → gcore_data
  | .handshake s => { g with data := g.data.step s }
  | .panel e => { g with gfb_data := g.gfb_data.step e }

/-- The device after a list of events, oldest first. -/
def gcore_data.run (g : gcore_data) (events : List gcore_event) : gcore_data :=
  events.foldl gcore_data.step g

/-- The device as `g15_probe` has it when it calls `wait_ready(gdata)`:
`gfb_probe` has returned `data` (the framebuffer is registered and can be
written to) and the driver data is still as allocated. -/
def gcore_data.init (data : Lg4l.gfb_data) : gcore_data :=
  { data := { g15data := g15_probe_data, attach_done := 0 },
    gfb_data := gfb_pipeline.init data }

/-- The handshake moves among the events of a device, in order. -/
def gcore_event.handshake_steps : List gcore_event → List session_step
  | [] => []
  | .handshake s :: es => s :: gcore_event.handshake_steps es
  | .panel _ :: es => gcore_event.handshake_steps es

/-- The panel events among the events of a device, in order. -/
def gcore_event.panel_events : List gcore_event → List gfb_event
  | [] => []
  | .handshake _ :: es => gcore_event.panel_events es
  | .panel e :: es => e :: gcore_event.panel_events es

/-! ## The attach procedures (`g15_probe` and its siblings) -/

/-- What an attach procedure gets from the kernel and from the helpers it
calls: whether `gcore_alloc_data` and the `kzalloc` of the driver data return
memory, the values returned by `gcore_hid_open`, `gcore_input_probe`,
`read_feature_reports` and `gcore_leds_probe`, the allocation outcomes of
`gfb_probe`, the value of `sysfs_create_group`, and the reports delivered
during the three waits of the handshake.  `usb_alloc_urb_ok` (the URB of
endpoint 1) and `g19_ep1_read` are used by `g19_probe` only. -/
structure probe_env where
  gcore_alloc_data_ok : Bool
  kzalloc_ok : Bool
  usb_alloc_urb_ok : Bool
  gcore_hid_open : Int
  gcore_input_probe : Int
  read_feature_reports : Int
  gcore_leds_probe : Int
  gfb : gfb_probe_env
  sysfs_create_group : Int
  wait1 : List raw_event_args
  wait2 : List raw_event_args
  wait3 : List raw_event_args
  g19_ep1_read : Int

/-- The release calls behind the error labels of the attach procedures;
`hid_set_drvdata_NULL` is `hid_set_drvdata(hdev, NULL)` and `kfree` the
release of the driver's own data. -/
inductive probe_cleanup where
  | sysfs_remove_group
  | gfb_remove
  | gcore_leds_remove
  | gcore_input_remove
  | gcore_hid_close
  | usb_free_urb
  | kfree
  | gcore_free_data
  | hid_set_drvdata_NULL
  deriving DecidableEq

/-- What one run of an attach procedure leaves behind: the value returned,
whether `dev_err` was called, the release calls made (in order), the panel
that `gfb_probe` created (in the state it is left in), and the record of the
handshake when it was run. -/
structure probe_result where
  retval : Int
  dev_err : Bool
  cleanup : List probe_cleanup
  panel : Option gfb_lifetime
  handshake : Option attach_trace

/-- The error labels of `g15_probe`, `g13_probe`, `g15v2_probe` and
`g510_probe`, each falling through to the next. -/
def err_no_cleanup : List probe_cleanup := [.hid_set_drvdata_NULL]
def err_cleanup_gdata : List probe_cleanup := .gcore_free_data :: err_no_cleanup
def err_cleanup_g15data : List probe_cleanup := .kfree :: err_cleanup_gdata
def err_cleanup_hid : List probe_cleanup := .gcore_hid_close :: err_cleanup_g15data
def err_cleanup_input : List probe_cleanup := .gcore_input_remove :: err_cleanup_hid
def err_cleanup_leds : List probe_cleanup := .gcore_leds_remove :: err_cleanup_input
def err_cleanup_gfb : List probe_cleanup := .gfb_remove :: err_cleanup_leds

/-- The error labels of `g19_probe`, which also releases the URB of endpoint 1
and the sysfs group. -/
def g19_err_cleanup_g19data : List probe_cleanup := .kfree :: err_cleanup_gdata
def g19_err_cleanup_ep1_urb : List probe_cleanup := .usb_free_urb :: g19_err_cleanup_g19data
def g19_err_cleanup_hid : List probe_cleanup := .gcore_hid_close :: g19_err_cleanup_ep1_urb
def g19_err_cleanup_input : List probe_cleanup := .gcore_input_remove :: g19_err_cleanup_hid
def g19_err_cleanup_leds : List probe_cleanup := .gcore_leds_remove :: g19_err_cleanup_input
def g19_err_cleanup_gfb : List probe_cleanup := .gfb_remove :: g19_err_cleanup_leds
def g19_err_cleanup_sysfs : List probe_cleanup := .sysfs_remove_group :: g19_err_cleanup_gfb

/-- One report delivery through the `raw_event` hook of a driver. -/
def deliver_with
    (raw_event : g15_data → hid_report → (Nat → Nat) → Int → raw_event_result)
    (g15data : g15_data) (a : raw_event_args) : g15_data :=
  (raw_event g15data a.report a.raw_data a.size).g15data

/-- Source: the calls `wait_ready(gdata)` and `send_finalize_report(gdata)` of
`g13_probe`, `g15v2_probe`, `g19_probe` and `g510_probe`.  The two functions
are in each of these drivers the text of hid-g15.c with the driver's own
constants, which have the same values; the reports that arrive during the
waits go through the driver's own `raw_event`. -/
def probe_handshake
    (raw_event : g15_data → hid_report → (Nat → Nat) → Int → raw_event_result)
    (wait1 wait2 wait3 : List raw_event_args) : attach_trace :=
  let s1 := wait_ready_stage_1 (wait1.foldl (deliver_with raw_event) g15_probe_data)
  let s2 := wait_ready_stage_2 (wait2.foldl (deliver_with raw_event) s1.g15data)
  { stage_1 := s1, stage_2 := s2,
    stage_3 := send_finalize_report_locked (wait3.foldl (deliver_with raw_event) s2.g15data) }

/-- Source: `g15_probe` in hid-g15.c.  `error` is the local variable of that
name: it holds the value of the last helper that assigned it. -/
def g15_probe (env : probe_env) : probe_result :=
  if env.gcore_alloc_data_ok = false then
    { retval := -ENOMEM, dev_err := true, cleanup := err_no_cleanup,
      panel := none, handshake := none }
  else if env.kzalloc_ok = false then
    { retval := -ENOMEM, dev_err := false, cleanup := err_cleanup_gdata,
      panel := none, handshake := none }
  else
    let error := env.gcore_hid_open
    if error ≠ 0 then
      { retval := error, dev_err := true, cleanup := err_cleanup_g15data,
        panel := none, handshake := none }
    else
      let error := env.gcore_input_probe
      if error ≠ 0 then
        { retval := error, dev_err := true, cleanup := err_cleanup_hid,
          panel := none, handshake := none }
      else
        let error := env.read_feature_reports
        if error ≠ 0 then
          { retval := error, dev_err := true, cleanup := err_cleanup_input,
            panel := none, handshake := none }
        else
          let error := env.gcore_leds_probe
          if error ≠ 0 then
            { retval := error, dev_err := true, cleanup := err_cleanup_input,
              panel := none, handshake := none }
          else
            match gfb_probe env.gfb .GFB_PANEL_TYPE_160_43_1 with
            | none =>
              { retval := error, dev_err := true, cleanup := err_cleanup_leds,
                panel := none, handshake := none }
            | some data =>
              let error := env.sysfs_create_group
              if error ≠ 0 then
                { retval := error, dev_err := true, cleanup := err_cleanup_gfb,
                  panel := some (gfb_remove (gfb_lifetime.init data)), handshake := none }
              else
                { retval := 0, dev_err := false, cleanup := [],
                  panel := some (gfb_lifetime.init data),
                  handshake := some (g15_probe_handshake env.wait1 env.wait2 env.wait3) }

/-- Source: `g13_probe` in hid-g13.c. -/
def g13_probe (env : probe_env) : probe_result :=
  if env.gcore_alloc_data_ok = false then
    { retval := -ENOMEM, dev_err := true, cleanup := err_no_cleanup,
      panel := none, handshake := none }
  else if env.kzalloc_ok = false then
    { retval := -ENOMEM, dev_err := false, cleanup := err_cleanup_gdata,
      panel := none, handshake := none }
  else
    let error := env.gcore_hid_open
    if error ≠ 0 then
      { retval := error, dev_err := true, cleanup := err_cleanup_g15data,
        panel := none, handshake := none }
    else
      let error := env.gcore_input_probe
      if error ≠ 0 then
        { retval := error, dev_err := true, cleanup := err_cleanup_hid,
          panel := none, handshake := none }
      else
        let error := env.read_feature_reports
        if error ≠ 0 then
          { retval := error, dev_err := true, cleanup := err_cleanup_input,
            panel := none, handshake := none }
        else
          let error := env.gcore_leds_probe
          if error ≠ 0 then
            { retval := error, dev_err := true, cleanup := err_cleanup_input,
              panel := none, handshake := none }
          else
            match gfb_probe env.gfb .GFB_PANEL_TYPE_160_43_1 with
            | none =>
              { retval := error, dev_err := true, cleanup := err_cleanup_leds,
                panel := none, handshake := none }
            | some data =>
              let error := env.sysfs_create_group
              if error ≠ 0 then
                { retval := error, dev_err := true, cleanup := err_cleanup_gfb,
                  panel := some (gfb_remove (gfb_lifetime.init data)), handshake := none }
              else
                { retval := 0, dev_err := false, cleanup := [],
                  panel := some (gfb_lifetime.init data),
                  handshake :=
                    some (probe_handshake g13_raw_event env.wait1 env.wait2 env.wait3) }

/-- Source: `g15v2_probe` in hid-g15v2.c. -/
def g15v2_probe (env : probe_env) : probe_result :=
  if env.gcore_alloc_data_ok = false then
    { retval := -ENOMEM, dev_err := true, cleanup := err_no_cleanup,
      panel := none, handshake := none }
  else if env.kzalloc_ok = false then
    { retval := -ENOMEM, dev_err := false, cleanup := err_cleanup_gdata,
      panel := none, handshake := none }
  else
    let error := env.gcore_hid_open
    if error ≠ 0 then
      { retval := error, dev_err := true, cleanup := err_cleanup_g15data,
        panel := none, handshake := none }
    else
      let error := env.gcore_input_probe
      if error ≠ 0 then
        { retval := error, dev_err := true, cleanup := err_cleanup_hid,
          panel := none, handshake := none }
      else
        let error := env.read_feature_reports
        if error ≠ 0 then
          { retval := error, dev_err := true, cleanup := err_cleanup_input,
            panel := none, handshake := none }
        else
          let error := env.gcore_leds_probe
          if error ≠ 0 then
            { retval := error, dev_err := true, cleanup := err_cleanup_input,
              panel := none, handshake := none }
          else
            match gfb_probe env.gfb .GFB_PANEL_TYPE_160_43_1 with
            | none =>
              { retval := error, dev_err := true, cleanup := err_cleanup_leds,
                panel := none, handshake := none }
            | some data =>
              let error := env.sysfs_create_group
              if error ≠ 0 then
                { retval := error, dev_err := true, cleanup := err_cleanup_gfb,
                  panel := some (gfb_remove (gfb_lifetime.init data)), handshake := none }
              else
                { retval := 0, dev_err := false, cleanup := [],
                  panel := some (gfb_lifetime.init data),
                  handshake :=
                    some (probe_handshake g15v2_raw_event env.wait1 env.wait2 env.wait3) }

/-- Source: `g510_probe` in hid-g510.c. -/
def g510_probe (env : probe_env) : probe_result :=
  if env.gcore_alloc_data_ok = false then
    { retval := -ENOMEM, dev_err := true, cleanup := err_no_cleanup,
      panel := none, handshake := none }
  else if env.kzalloc_ok = false then
    { retval := -ENOMEM, dev_err := false, cleanup := err_cleanup_gdata,
      panel := none, handshake := none }
  else
    let error := env.gcore_hid_open
    if error ≠ 0 then
      { retval := error, dev_err := true, cleanup := err_cleanup_g15data,
        panel := none, handshake := none }
    else
      let error := env.gcore_input_probe
      if error ≠ 0 then
        { retval := error, dev_err := true, cleanup := err_cleanup_hid,
          panel := none, handshake := none }
      else
        let error := env.read_feature_reports
        if error ≠ 0 then
          { retval := error, dev_err := true, cleanup := err_cleanup_input,
            panel := none, handshake := none }
        else
          let error := env.gcore_leds_probe
          if error ≠ 0 then
            { retval := error, dev_err := true, cleanup := err_cleanup_input,
              panel := none, handshake := none }
          else
            match gfb_probe env.gfb .GFB_PANEL_TYPE_160_43_1 with
            | none =>
              { retval := error, dev_err := true, cleanup := err_cleanup_leds,
                panel := none, handshake := none }
            | some data =>
              let error := env.sysfs_create_group
              if error ≠ 0 then
                { retval := error, dev_err := true, cleanup := err_cleanup_gfb,
                  panel := some (gfb_remove (gfb_lifetime.init data)), handshake := none }
              else
                { retval := 0, dev_err := false, cleanup := [],
                  panel := some (gfb_lifetime.init data),
                  handshake :=
                    some (probe_handshake g510_raw_event env.wait1 env.wait2 env.wait3) }

/-- Source: `g19_probe` in hid-g19.c. -/
def g19_probe (env : probe_env) : probe_result :=
  if env.gcore_alloc_data_ok = false then
    { retval := -ENOMEM, dev_err := true, cleanup := err_no_cleanup,
      panel := none, handshake := none }
  else if env.kzalloc_ok = false then
    { retval := -ENOMEM, dev_err := false, cleanup := err_cleanup_gdata,
      panel := none, handshake := none }
  else if env.usb_alloc_urb_ok = false then
    { retval := -ENOMEM, dev_err := true, cleanup := g19_err_cleanup_g19data,
      panel := none, handshake := none }
  else
    let error := env.gcore_hid_open
    if error ≠ 0 then
      { retval := error, dev_err := true, cleanup := g19_err_cleanup_ep1_urb,
        panel := none, handshake := none }
    else
      let error := env.gcore_input_probe
      if error ≠ 0 then
        { retval := error, dev_err := true, cleanup := g19_err_cleanup_hid,
          panel := none, handshake := none }
      else
        let error := env.read_feature_reports
        if error ≠ 0 then
          { retval := error, dev_err := true, cleanup := g19_err_cleanup_input,
            panel := none, handshake := none }
        else
          let error := env.gcore_leds_probe
          if error ≠ 0 then
            { retval := error, dev_err := true, cleanup := g19_err_cleanup_input,
              panel := none, handshake := none }
          else
            match gfb_probe env.gfb .GFB_PANEL_TYPE_320_240_16 with
            | none =>
              { retval := error, dev_err := true, cleanup := g19_err_cleanup_leds,
                panel := none, handshake := none }
            | some data =>
              let error := env.sysfs_create_group
              if error ≠ 0 then
                { retval := error, dev_err := true, cleanup := g19_err_cleanup_gfb,
                  panel := some (gfb_remove (gfb_lifetime.init data)), handshake := none }
              else
                let handshake := probe_handshake g19_raw_event env.wait1 env.wait2 env.wait3
                let error := env.g19_ep1_read
                if error ≠ 0 then
                  { retval := error, dev_err := true, cleanup := g19_err_cleanup_sysfs,
                    panel := some (gfb_remove (gfb_lifetime.init data)),
                    handshake := some handshake }
                else
                  { retval := 0, dev_err := false, cleanup := [],
                    panel := some (gfb_lifetime.init data), handshake := some handshake }

/-- A kernel in which every step of an attach procedure succeeds and no
report arrives during the waits, over the panel allocations `gfb`. -/
def attach_ok_env (gfb : gfb_probe_env) : probe_env :=
  { gcore_alloc_data_ok := true, kzalloc_ok := true, usb_alloc_urb_ok := true,
    gcore_hid_open := 0, gcore_input_probe := 0, read_feature_reports := 0,
    gcore_leds_probe := 0, gfb := gfb, sysfs_create_group := 0,
    wait1 := [], wait2 := [], wait3 := [], g19_ep1_read := 0 }

/-- Panel allocations in which `vmalloc` of the surface buffer fails. -/
def gfb_env_no_vmalloc : gfb_probe_env :=
  { probe_ok_env (fun _ => 0) (fun _ => 0) 250 with vmalloc_ok := false }

/-- Whether every step of an attach procedure before `gfb_probe` succeeds
(`usb_alloc_urb_ok` matters to `g19_probe` only). -/
def probe_env.reaches_gfb_probe (env : probe_env) : Prop :=
  env.gcore_alloc_data_ok = true ∧ env.kzalloc_ok = true ∧
  env.gcore_hid_open = 0 ∧ env.gcore_input_probe = 0 ∧
  env.read_feature_reports = 0 ∧ env.gcore_leds_probe = 0

/-! ## Report decoder (hid-gcore.c and the `raw_event_process_input` functions) -/

/-- Key, button, axis and event codes of the kernel header
input-event-codes.h that the drivers name. -/
def KEY_RESERVED : Nat := 0
def KEY_F1 : Nat := 59
def KEY_F2 : Nat := 60
def KEY_F3 : Nat := 61
def KEY_F4 : Nat := 62
def KEY_F5 : Nat := 63
def KEY_F6 : Nat := 64
def KEY_F7 : Nat := 65
def KEY_F8 : Nat := 66
def KEY_F9 : Nat := 67
def KEY_F10 : Nat := 68
def KEY_F11 : Nat := 87
def KEY_F12 : Nat := 88
def KEY_UP : Nat := 103
def KEY_LEFT : Nat := 105
def KEY_RIGHT : Nat := 106
def KEY_DOWN : Nat := 108
def KEY_MENU : Nat := 139
def KEY_PROG1 : Nat := 148
def KEY_PROG2 : Nat := 149
def KEY_BACK : Nat := 158
def KEY_FORWARD : Nat := 159
def KEY_RECORD : Nat := 167
def KEY_F13 : Nat := 183
def KEY_F14 : Nat := 184
def KEY_F15 : Nat := 185
def KEY_F16 : Nat := 186
def KEY_F17 : Nat := 187
def KEY_F18 : Nat := 188
def KEY_F19 : Nat := 189
def KEY_F20 : Nat := 190
def KEY_F21 : Nat := 191
def KEY_F22 : Nat := 192
def KEY_PROG3 : Nat := 202
def KEY_KBDILLUMTOGGLE : Nat := 228
def KEY_UNKNOWN : Nat := 240
def BTN_LEFT : Nat := 0x110
def BTN_RIGHT : Nat := 0x111
def BTN_MIDDLE : Nat := 0x112
def KEY_OK : Nat := 0x160
def ABS_X : Nat := 0x00
def ABS_Y : Nat := 0x01

/-- What a driver hands to the input core, call by call:
`input_report_key(idev, code, value)` (the kernel passes on `!!value`, so the
state is a flag: pressed or released), `input_event(idev, EV_MSC, MSC_SCAN,
scancode)`, `input_report_abs(idev, axis, value)` and `input_sync(idev)`. -/
inductive input_event where
  | key (code : Nat) (pressed : Bool)
  | msc_scan (scancode : Nat)
  | abs (axis : Nat) (value : Nat)
  | sync
  deriving DecidableEq

/-- The kernel's `input_get_keycode` on an input device set up by
`gcore_input_probe`: `keycode` is the table `idev->keycode`, of
`keycodemax = keymap_size` entries, and no `getkeycode` handler is installed,
so a scancode at or past `keycodemax` is an error (`none`) and any other
scancode yields its table entry. -/
def input_get_keycode (keycode : List Nat) (scancode : Nat) : Option Nat :=
  if scancode < keycode.length then some (keycode.getD scancode KEY_RESERVED) else none

/-- Source: `gcore_input_report_key` in hid-gcore.c: the calls it makes on the
input device. -/
def gcore_input_report_key (keycode : List Nat) (scancode value : Nat) :
    List input_event :=
  match input_get_keycode keycode scancode with
  | some ke_keycode =>
    if ke_keycode ≠ KEY_UNKNOWN ∧ ke_keycode ≠ KEY_RESERVED then
      [.key ke_keycode (decide (value ≠ 0))]
    else if value ≠ 0 then [.msc_scan scancode]
    else []
  | none =>
    if value ≠ 0 then [.msc_scan scancode]
    else []

/-- What one call of a `raw_event_process_input` function leaves behind: the
calls made on the input device, in order, and the report buffer (two of the
functions clear a bit in it before decoding). -/
structure process_input_result where
  events : List input_event
  raw_data : Nat → Nat

/-- Source: `g15_raw_event_process_input` in hid-g15.c.  The loop state is
(calls made so far, `mask`). -/
def g15_raw_event_process_input (keycode : List Nat) (raw_data : Nat → Nat) :
    process_input_result :=
  let raw_data : Nat → Nat := fun k => if k = 4 then raw_data 4 &&& 0xFE else raw_data k
  let r := for_loop 8 (fun i (st : List input_event × Nat) =>
    let mask := st.2
    let events := st.1 ++ gcore_input_report_key keycode i (raw_data 1 &&& mask)
    let events := events ++ gcore_input_report_key keycode (i + 8) (raw_data 2 &&& mask)
    let events := events ++ gcore_input_report_key keycode (i + 16) (raw_data 3 &&& mask)
    let events := events ++ gcore_input_report_key keycode (i + 24) (raw_data 4 &&& mask)
    let events := events ++ gcore_input_report_key keycode (i + 32) (raw_data 5 &&& mask)
    let events := events ++ gcore_input_report_key keycode (i + 40) (raw_data 6 &&& mask)
    let events := events ++ gcore_input_report_key keycode (i + 48) (raw_data 7 &&& mask)
    let events := events ++ gcore_input_report_key keycode (i + 56) (raw_data 8 &&& mask)
    (events, mask <<< 1)) ([], 0x01)
  { events := r.1 ++ [.sync], raw_data := raw_data }

/-- Source: `g13_raw_event_process_input` in hid-g13.c. -/
def g13_raw_event_process_input (keycode : List Nat) (raw_data : Nat → Nat) :
    process_input_result :=
  let r := for_loop 8 (fun i (st : List input_event × Nat) =>
    let mask := st.2
    let events := st.1 ++ gcore_input_report_key keycode i (raw_data 3 &&& mask)
    let events := events ++ gcore_input_report_key keycode (i + 8) (raw_data 4 &&& mask)
    let events :=
      if i ≤ 5 then events ++ gcore_input_report_key keycode (i + 16) (raw_data 5 &&& mask)
      else events
    let events := events ++ gcore_input_report_key keycode (i + 22) (raw_data 6 &&& mask)
    let events :=
      if i ≤ 4 then events ++ gcore_input_report_key keycode (i + 30) (raw_data 7 &&& mask)
      else events
    (events, mask <<< 1)) ([], 0x01)
  { events := r.1 ++ [.abs ABS_X (raw_data 1), .abs ABS_Y (raw_data 2), .sync],
    raw_data := raw_data }

/-- Source: `g15v2_raw_event_process_input` in hid-g15v2.c. -/
def g15v2_raw_event_process_input (keycode : List Nat) (raw_data : Nat → Nat) :
    process_input_result :=
  let r := for_loop 8 (fun i (st : List input_event × Nat) =>
    let mask := st.2
    let events := st.1 ++ gcore_input_report_key keycode i (raw_data 1 &&& mask)
    let events := events ++ gcore_input_report_key keycode (i + 8) (raw_data 2 &&& mask)
    (events, mask <<< 1)) ([], 0x01)
  { events := r.1 ++ [.sync], raw_data := raw_data }

/-- Source: `g19_raw_event_process_input` in hid-g19.c. -/
def g19_raw_event_process_input (keycode : List Nat) (raw_data : Nat → Nat) :
    process_input_result :=
  let raw_data : Nat → Nat := fun k => if k = 3 then raw_data 3 &&& 0xBF else raw_data k
  let r := for_loop 8 (fun i (st : List input_event × Nat) =>
    let mask := st.2
    let events := st.1 ++ gcore_input_report_key keycode i (raw_data 1 &&& mask)
    let events := events ++ gcore_input_report_key keycode (i + 8) (raw_data 2 &&& mask)
    let events := events ++ gcore_input_report_key keycode (i + 16) (raw_data 3 &&& mask)
    (events, mask <<< 1)) ([], 0x01)
  { events := r.1 ++ [.sync], raw_data := raw_data }

/-- Source: `g110_raw_event_process_input` in hid-g110.c. -/
def g110_raw_event_process_input (keycode : List Nat) (raw_data : Nat → Nat) :
    process_input_result :=
  let raw_data : Nat → Nat := fun k => if k = 3 then raw_data 3 &&& 0xBF else raw_data k
  let r := for_loop 8 (fun i (st : List input_event × Nat) =>
    let mask := st.2
    let events := st.1 ++ gcore_input_report_key keycode i (raw_data 1 &&& mask)
    let events := events ++ gcore_input_report_key keycode (i + 8) (raw_data 2 &&& mask)
    let events :=
      if i = 0 then events ++ gcore_input_report_key keycode (i + 16) (raw_data 3 &&& mask)
      else events
    (events, mask <<< 1)) ([], 0x01)
  { events := r.1 ++ [.sync], raw_data := raw_data }

/-- Source: `g510_raw_event_process_input` in hid-g510.c. -/
def g510_raw_event_process_input (keycode : List Nat) (raw_data : Nat → Nat) :
    process_input_result :=
  let raw_data : Nat → Nat := fun k => if k = 4 then raw_data 4 &&& 0xFE else raw_data k
  let r := for_loop 8 (fun i (st : List input_event × Nat) =>
    let mask := st.2
    let events := st.1 ++ gcore_input_report_key keycode i (raw_data 1 &&& mask)
    let events := events ++ gcore_input_report_key keycode (i + 8) (raw_data 2 &&& mask)
    let events := events ++ gcore_input_report_key keycode (i + 16) (raw_data 3 &&& mask)
    let events := events ++ gcore_input_report_key keycode (i + 24) (raw_data 4 &&& mask)
    (events, mask <<< 1)) ([], 0x01)
  { events := r.1 ++ [.sync], raw_data := raw_data }

/-- Source: `g15_default_keymap` in hid-g15.c. -/
def g15_default_keymap : List Nat :=
  [KEY_F1, KEY_UNKNOWN, KEY_F13, KEY_UNKNOWN, KEY_UNKNOWN, KEY_UNKNOWN, KEY_UNKNOWN,
   KEY_KBDILLUMTOGGLE, KEY_F7, KEY_F2, KEY_UNKNOWN, KEY_F14, KEY_UNKNOWN, KEY_UNKNOWN,
   KEY_UNKNOWN, KEY_LEFT, KEY_UNKNOWN, KEY_F8, KEY_F3, KEY_UNKNOWN, KEY_F15, KEY_UNKNOWN,
   KEY_UNKNOWN, KEY_UP, KEY_UNKNOWN, KEY_UNKNOWN, KEY_F9, KEY_F4, KEY_UNKNOWN, KEY_F16,
   KEY_UNKNOWN, KEY_DOWN, KEY_UNKNOWN, KEY_UNKNOWN, KEY_UNKNOWN, KEY_F10, KEY_F5,
   KEY_UNKNOWN, KEY_F17, KEY_RIGHT, KEY_PROG1, KEY_UNKNOWN, KEY_UNKNOWN, KEY_UNKNOWN,
   KEY_F11, KEY_F6, KEY_UNKNOWN, KEY_UNKNOWN, KEY_UNKNOWN, KEY_PROG2, KEY_UNKNOWN,
   KEY_UNKNOWN, KEY_UNKNOWN, KEY_F12, KEY_RECORD, KEY_UNKNOWN, KEY_UNKNOWN, KEY_UNKNOWN,
   KEY_PROG3, KEY_UNKNOWN, KEY_UNKNOWN, KEY_UNKNOWN, KEY_F18, KEY_OK]

/-- Source: `g13_default_keymap` in hid-g13.c. -/
def g13_default_keymap : List Nat :=
  [KEY_F1, KEY_F2, KEY_F3, KEY_F4, KEY_F5, KEY_F6, KEY_F7,
   KEY_F8, KEY_F9, KEY_F10, KEY_F11,
   KEY_F12, KEY_F13, KEY_F14,
   KEY_F15, KEY_F16, KEY_F17, KEY_F18, KEY_F19,
   KEY_F20, KEY_F21, KEY_F22,
   KEY_OK, KEY_LEFT, KEY_UP, KEY_DOWN, KEY_RIGHT,
   KEY_PROG1, KEY_PROG2, KEY_PROG3, KEY_RECORD,
   BTN_LEFT, BTN_RIGHT, BTN_MIDDLE, KEY_KBDILLUMTOGGLE]

/-- Source: `g110_default_keymap` in hid-g110.c. -/
def g110_default_keymap : List Nat :=
  [KEY_F1, KEY_F2, KEY_F3, KEY_F4,
   KEY_F5, KEY_F6, KEY_F7, KEY_F8,
   KEY_F9, KEY_F10, KEY_F11, KEY_F12,
   KEY_PROG1, KEY_PROG2, KEY_PROG3, KEY_RECORD,
   KEY_KBDILLUMTOGGLE]

/-- Source: `g510_default_keymap` in hid-g510.c. -/
def g510_default_keymap : List Nat :=
  [KEY_F1, KEY_F2, KEY_F3, KEY_F4, KEY_F5, KEY_F6, KEY_F7, KEY_F8,
   KEY_F9, KEY_F10, KEY_F11, KEY_F12, KEY_F13, KEY_F14, KEY_F15, KEY_F16,
   KEY_F17, KEY_F18, KEY_UNKNOWN, KEY_KBDILLUMTOGGLE, KEY_PROG1, KEY_PROG2, KEY_PROG3,
   KEY_RECORD, KEY_OK, KEY_LEFT, KEY_UP, KEY_DOWN, KEY_RIGHT,
   KEY_UNKNOWN, KEY_UNKNOWN, KEY_UNKNOWN]

/-- What one run of `g110_ep1_urb_completion` leaves behind: the calls made on
the input device and whether the URB was submitted again. -/
structure ep1_urb_completion_result where
  events : List input_event
  usb_submit_urb_called : Bool

/-- Source: `g110_ep1_urb_completion` in hid-g110.c; `ep1keys` is the buffer
`g110data->ep1keys` the URB was filled into. -/
def g110_ep1_urb_completion (keycode : List Nat) (ep1keys : Nat → Nat) :
    ep1_urb_completion_result :=
  let events := for_loop 8 (fun i (events : List input_event) =>
    events ++ gcore_input_report_key keycode (24 + i) (ep1keys 0 &&& (1 <<< i))) []
  { events := events ++ [.sync], usb_submit_urb_called := true }

/-- A report buffer given by its first bytes, zero after them. -/
def raw_data_of (bytes : List Nat) : Nat → Nat := fun k => bytes.getD k 0

/-- Whether an event is a key-state event. -/
def input_event.is_key : input_event → Bool
  | .key _ _ => true
  | _ => false

/-! ## LEDs of the M buttons (hid-g510.c) -/

/-- Source: the LED indices of hid-g510.c; `led_cdev = k` stands for the
pointer `gdata->led_cdev[k]`. -/
def G510_LED_M1 : Nat := 0
def G510_LED_M2 : Nat := 1
def G510_LED_M3 : Nat := 2
def G510_LED_MR : Nat := 3

/-- The kernel's `enum led_brightness` values the driver returns. -/
def LED_OFF : Nat := 0
def LED_FULL : Nat := 255

/-- What `g510_led_mbtns_brightness_set` leaves behind: the stored bitmap
`g510data->led_mbtns` (a `u8`), the value of the local `mask` when the bitmap
was updated, and the three arguments (`msg`, `value1`, `value2`) passed to
`g510_led_send` by `g510_led_mbtns_send`. -/
structure g510_led_mbtns_result where
  led_mbtns : Nat
  mask : Nat
  led_send : Nat × Nat × Nat

/-- Source: `g510_led_mbtns_brightness_set` (with `g510_led_mbtns_send`) in
hid-g510.c.  `~mask` on the promoted `u8` keeps, within a byte, the bits that
are clear in `mask`. -/
def g510_led_mbtns_brightness_set (led_cdev : Nat) (value : Nat) (led_mbtns : Nat) :
    g510_led_mbtns_result :=
  let mask : Nat := 0
  let value :=
    if led_cdev = G510_LED_M1 then led_mbtns &&& 0x01
    else if led_cdev = G510_LED_M2 then led_mbtns &&& 0x02
    else if led_cdev = G510_LED_M3 then led_mbtns &&& 0x04
    else if led_cdev = G510_LED_MR then led_mbtns &&& 0x08
    else value
  let led_mbtns :=
    if mask ≠ 0 ∧ value ≠ 0 then (led_mbtns ||| mask) % 256
    else (led_mbtns &&& (0xFF ^^^ mask)) % 256
  { led_mbtns := led_mbtns, mask := mask, led_send := (4, 0xFF ^^^ led_mbtns, 0) }

/-- Source: `g510_led_mbtns_brightness_get` in hid-g510.c. -/
def g510_led_mbtns_brightness_get (led_cdev : Nat) (led_mbtns : Nat) : Nat :=
  let value :=
    if led_cdev = G510_LED_M1 then led_mbtns &&& 0x01
    else if led_cdev = G510_LED_M2 then led_mbtns &&& 0x02
    else if led_cdev = G510_LED_M3 then led_mbtns &&& 0x04
    else if led_cdev = G510_LED_MR then led_mbtns &&& 0x08
    else 0
  if value ≠ 0 then LED_FULL else LED_OFF

/-! ## Memory accesses of the monochrome encoder (hid-gfb.c) -/

/-- Source: `gfb_fb_mono_update` in hid-gfb.c, the byte offsets from
`data->fb_bitmap` at which `*src` is read, in the order of the three loops
(`src` starts at `row_start + col / 8` and advances by `ll` per bit). -/
def gfb_fb_mono_update_reads (data : gfb_data) : List Nat :=
  let xres := data.var_xres
  let yres := data.var_yres
  let ll := data.fix_line_length
  let bands := (yres + 7) / 8
  for_loop bands (fun band reads =>
    let row_start := band * 8 * ll
    for_loop xres (fun col reads =>
      let src := row_start + col / 8
      (for_loop 8 (fun _bit (st : List Nat × Nat) => (st.1 ++ [st.2], st.2 + ll))
        (reads, src)).1) reads) []

/-- Source: `gfb_fb_mono_update` in hid-gfb.c, the byte offsets from
`data->fb_vbitmap` that are written: the range of the `memset`, the magic
number at offset 0, and `*dst` for each column of each band (`dst` starts at
32 and advances by one per column). -/
def gfb_fb_mono_update_writes (data : gfb_data) : List Nat :=
  let xres := data.var_xres
  let yres := data.var_yres
  let bands := (yres + 7) / 8
  let r := for_loop bands (fun _band (st : List Nat × Nat) =>
    for_loop xres (fun _col (st : List Nat × Nat) => (st.1 ++ [st.2], st.2 + 1)) st)
    (List.range data.fb_vbitmap_size ++ [0], 32)
  r.1

/-- The G13 layout as the specification words it: the payload byte and the
bit that scancode `s` is read from (scancodes 0..7 from byte 3, 8..15 from
byte 4, 16..21 from byte 5, 22..29 from byte 6, 30..34 from byte 7). -/
def g13_scancode_source (s : Nat) : Nat × Nat :=
  if s < 8 then (3, s)
  else if s < 16 then (4, s - 8)
  else if s < 22 then (5, s - 16)
  else if s < 30 then (6, s - 22)
  else (7, s - 30)



/-- The handles open after `events`, counted from the events alone: the opens
made before the detach (a `gfb_fb_open` after it returns -ENODEV and opens
nothing) minus the closes. -/
def gfb_lifetime_event.open_handles (events : List gfb_lifetime_event) : Int :=
  ((events.takeWhile (fun e => decide (e ≠ gfb_lifetime_event.remove))).count
      gfb_lifetime_event.fb_open : Int)
    - (events.count gfb_lifetime_event.fb_release : Int)

/-! ## Coalescing on either panel type (hid-gfb.c) -/

/-- Source: `gfb_fb_update` in hid-gfb.c, the encoder that its `switch` runs
for the panel type before the call of `gfb_fb_send` (none for a type that is
neither of the two). -/
def gfb_fb_update_encode (data : gfb_data) : gfb_data :=
  match data.panel_type with
  | .GFB_PANEL_TYPE_160_43_1 => gfb_fb_mono_update data
  | .GFB_PANEL_TYPE_320_240_16 => gfb_fb_qvga_update data
  | .other => data

/-- The frame `gfb_fb_update` encodes for a panel of either type whose surface
memory holds `surface` and whose wire buffer holds `wire` (whatever earlier
updates left there). -/
def panel_frame (data : gfb_data) (surface : Nat → Nat) (wire : List Nat) : List Nat :=
  gfb_frame (gfb_fb_update_encode { data with fb_bitmap := surface, fb_vbitmap := wire })

/-- Panel data `d` that has the panel type, the geometry and the wire buffer
size of `data`. -/
def gfb_data.same_panel (d data : gfb_data) : Prop :=
  d.panel_type = data.panel_type ∧ d.var_xres = data.var_xres ∧
  d.var_yres = data.var_yres ∧ d.fix_line_length = data.fix_line_length ∧
  d.fb_vbitmap_size = data.fb_vbitmap_size ∧ d.fb_vbitmap.length = data.fb_vbitmap_size

/-- A pipeline on the panel of `data` with one transfer in flight and nothing
handed over since: the state in which surface mutations are coalesced.
`delay` is the configured retry delay. -/
def gfb_pipeline.busy_panel (data : gfb_data) (delay : Nat) (p : gfb_pipeline) : Prop :=
  p.data.same_panel data ∧
  p.data.virtualized = false ∧ p.data.fb_vbitmap_busy = true ∧
  p.data.fb_defio_delay = delay ∧
  p.frames = [] ∧ p.urbs_in_flight = 1 ∧
  (p.deferred_work = [] ∨ p.deferred_work = [delay])

/-! # Theorems -/

/-! ## Lemmas on bit tests -/

theorem and_two_pow_eq_zero_iff (m k : Nat) :
    m &&& 2 ^ k = 0 ↔ m.testBit k = false := by
  rw [Nat.and_two_pow]
  cases h : m.testBit k <;> simp

theorem and_1_eq_zero_iff (m : Nat) : m &&& 1 = 0 ↔ m.testBit 0 = false := by
  have h := and_two_pow_eq_zero_iff m 0
  rw [Nat.pow_zero] at h
  exact h

theorem and_2_eq_zero_iff (m : Nat) : m &&& 2 = 0 ↔ m.testBit 1 = false := by
  have h := and_two_pow_eq_zero_iff m 1
  rw [Nat.pow_one] at h
  exact h

theorem and_8_eq_zero_iff (m : Nat) : m &&& 8 = 0 ↔ m.testBit 3 = false := by
  have h := and_two_pow_eq_zero_iff m 3
  norm_num at h
  exact h

theorem and_16_eq_zero_iff (m : Nat) : m &&& 16 = 0 ↔ m.testBit 4 = false := by
  have h := and_two_pow_eq_zero_iff m 4
  norm_num at h
  exact h

theorem and_32_eq_zero_iff (m : Nat) : m &&& 32 = 0 ↔ m.testBit 5 = false := by
  have h := and_two_pow_eq_zero_iff m 5
  norm_num at h
  exact h

theorem and_or_self_left (m c : Nat) : m &&& (m ||| c) = m := by
  apply Nat.eq_of_testBit_eq
  intro i
  cases h : m.testBit i <;> simp [h]

/-! ## The sibling handlers agree with `g15_raw_event` -/

theorem g15v2_raw_event_eq : g15v2_raw_event = g15_raw_event := rfl

theorem g19_raw_event_eq : g19_raw_event = g15_raw_event := rfl

theorem g110_raw_event_eq : g110_raw_event = g15_raw_event := rfl

theorem g510_raw_event_eq : g510_raw_event = g15_raw_event := rfl

theorem g13_raw_event_eq (d : g15_data) (h : d.ready_stages ≠ 0x7F)
    (report : hid_report) (raw_data : Nat → Nat) (size : Int) :
    g13_raw_event d report raw_data size = g15_raw_event d report raw_data size := by
  have h13 : d.ready_stages ≠ G13_READY_STAGE_3 := h
  have h15 : d.ready_stages ≠ G15_READY_STAGE_3 := h
  unfold g13_raw_event g15_raw_event
  rw [if_pos h13, if_pos h15]
  rfl

/-- The bitmask `g15_raw_event` leaves behind, while not yet at Stage3. -/
theorem g15_raw_event_ready_stages (m : Nat) (hm : m ≠ 0x7F) (ready : Bool)
    (report : hid_report) (raw_data : Nat → Nat) (size : Int) :
    (g15_raw_event { ready_stages := m, ready := ready } report raw_data
      size).g15data.ready_stages = spec_ready_stages m report.id (raw_data 1) := by
  have h15 : m ≠ G15_READY_STAGE_3 := hm
  have e1 := and_1_eq_zero_iff m
  have e2 := and_2_eq_zero_iff m
  have e8 := and_8_eq_zero_iff m
  have e16 := and_16_eq_zero_iff m
  have e32 := and_32_eq_zero_iff m
  unfold g15_raw_event spec_ready_stages
  simp only [if_pos h15, G15_READY_SUBSTAGE_1, G15_READY_SUBSTAGE_2, G15_READY_SUBSTAGE_3,
    G15_READY_SUBSTAGE_4, G15_READY_SUBSTAGE_5, G15_READY_SUBSTAGE_6, G15_READY_SUBSTAGE_7,
    ne_eq, e1, e2, e8, e16, e32, Bool.not_eq_false,
    apply_ite raw_event_result.g15data, apply_ite g15_data.ready_stages, ite_self]


/-- The whole outcome of `g15_raw_event` while not yet at Stage3. -/
theorem g15_raw_event_handshake (m : Nat) (hm : m ≠ 0x7F) (ready : Bool)
    (report : hid_report) (raw_data : Nat → Nat) (size : Int) :
    g15_raw_event { ready_stages := m, ready := ready } report raw_data size =
      if spec_ready_stages m report.id (raw_data 1) = 0x07 ∨
          spec_ready_stages m report.id (raw_data 1) = 0x1F ∨
          spec_ready_stages m report.id (raw_data 1) = 0x7F then
        { g15data := { ready_stages := spec_ready_stages m report.id (raw_data 1),
                       ready := true },
          retval := 1, complete_all := true, process_input := false }
      else
        { g15data := { ready_stages := spec_ready_stages m report.id (raw_data 1),
                       ready := ready },
          retval := 1, complete_all := false, process_input := false } := by
  have h15 : m ≠ G15_READY_STAGE_3 := hm
  have e1 := and_1_eq_zero_iff m
  have e2 := and_2_eq_zero_iff m
  have e8 := and_8_eq_zero_iff m
  have e16 := and_16_eq_zero_iff m
  have e32 := and_32_eq_zero_iff m
  unfold g15_raw_event spec_ready_stages
  simp only [if_pos h15, G15_READY_SUBSTAGE_1, G15_READY_SUBSTAGE_2, G15_READY_SUBSTAGE_3,
    G15_READY_SUBSTAGE_4, G15_READY_SUBSTAGE_5, G15_READY_SUBSTAGE_6, G15_READY_SUBSTAGE_7,
    G15_READY_STAGE_1, G15_READY_STAGE_2, G15_READY_STAGE_3,
    ne_eq, e1, e2, e8, e16, e32, Bool.not_eq_false, hm, not_false_eq_true, if_true]

/-- While not yet at Stage3, `g15_raw_event` calls `complete_all` exactly when
the bitmask it leaves is one of the three stage values. -/
theorem g15_raw_event_complete_all (m : Nat) (hm : m ≠ 0x7F) (ready : Bool)
    (report : hid_report) (raw_data : Nat → Nat) (size : Int) :
    ((g15_raw_event { ready_stages := m, ready := ready } report raw_data
        size).complete_all = true ↔
      ((g15_raw_event { ready_stages := m, ready := ready } report raw_data
          size).g15data.ready_stages = 0x07 ∨
       (g15_raw_event { ready_stages := m, ready := ready } report raw_data
          size).g15data.ready_stages = 0x1F ∨
       (g15_raw_event { ready_stages := m, ready := ready } report raw_data
          size).g15data.ready_stages = 0x7F)) := by
  rw [g15_raw_event_handshake m hm]
  generalize spec_ready_stages m report.id (raw_data 1) = n
  by_cases h : n = 0x07 ∨ n = 0x1F ∨ n = 0x7F
  · simp only [if_pos h, true_iff]
    exact h
  · simp only [if_neg h, Bool.false_eq_true, false_iff]
    exact h

/-- At Stage3 `g15_raw_event` leaves the driver data alone and does not call
`complete_all`. -/
theorem g15_raw_event_stage_3 (ready : Bool)
    (report : hid_report) (raw_data : Nat → Nat) (size : Int) :
    (g15_raw_event { ready_stages := 0x7F, ready := ready } report raw_data size).g15data
        = { ready_stages := 0x7F, ready := ready } ∧
    (g15_raw_event { ready_stages := 0x7F, ready := ready } report raw_data
        size).complete_all = false := by
  unfold g15_raw_event
  simp only [G15_READY_STAGE_3, ne_eq, not_true_eq_false, if_false]
  split <;> exact ⟨rfl, rfl⟩

/-- The bitmask after one delivery, as a function of the bitmask before. -/
theorem deliver_ready_stages (d : g15_data) (a : raw_event_args) :
    (deliver d a).ready_stages
      = ready_stages_step d.ready_stages a.report.id (a.raw_data 1) := by
  obtain ⟨m, ready⟩ := d
  unfold deliver ready_stages_step
  by_cases hm : m = 0x7F
  · subst hm
    simp [(g15_raw_event_stage_3 ready a.report a.raw_data a.size).1]
  · simp only [if_neg hm]
    exact g15_raw_event_ready_stages m hm ready a.report a.raw_data a.size

theorem deliver_all_ready_stages (as : List raw_event_args) (d : g15_data) :
    (deliver_all d as).ready_stages
      = as.foldl (fun m a => ready_stages_step m a.report.id (a.raw_data 1))
          d.ready_stages := by
  unfold deliver_all
  induction as generalizing d with
  | nil => rfl
  | cons a as ih =>
    simp only [List.foldl_cons]
    rw [ih (deliver d a), deliver_ready_stages]


/-! ## Progress of the bitmask along delivery sequences -/

theorem foldl_step_stage_1 (as : List raw_event_args) :
    ∀ m : Nat, (m = 0 ∨ m = 1 ∨ m = 2 ∨ m = 3 ∨ m = 6 ∨ m = 7) →
      (m.testBit 0 = false → ∃ a ∈ as, a.report.id = 6) →
      (if m.testBit 1 = false then 2 else if m.testBit 2 = false then 1 else 0)
        ≤ as.countP (fun a => decide (a.report.id = 1)) →
      as.foldl (fun m a => ready_stages_step m a.report.id (a.raw_data 1)) m = 0x07 := by
  induction as with
  | nil =>
    intro m hm h6 h1
    rcases hm with h | h | h | h | h | h <;> subst h <;> simp +decide at h6 h1 ⊢
  | cons a as ih =>
    intro m hm h6 h1
    simp only [List.foldl_cons]
    have hid : (a.report.id = 6 ∧ a.report.id ≠ 1) ∨ (a.report.id = 1 ∧ a.report.id ≠ 6) ∨
        (a.report.id ≠ 6 ∧ a.report.id ≠ 1) := by
      omega
    apply ih <;> rcases hid with ⟨i, j⟩ | ⟨i, j⟩ | ⟨i, j⟩ <;>
      rcases hm with h | h | h | h | h | h <;> subst h <;>
      simp +decide [ready_stages_step, spec_ready_stages, i, j, List.countP_cons] at h6 h1 ⊢ <;>
      first | omega | assumption


theorem foldl_step_stage_2 (as : List raw_event_args) :
    ∀ m : Nat, (m = 0x0F ∨ m = 0x1F) →
      (m = 0x0F → ∃ a ∈ as, a.report.id = 6) →
      as.foldl (fun m a => ready_stages_step m a.report.id (a.raw_data 1)) m = 0x1F := by
  induction as with
  | nil =>
    intro m hm h6
    rcases hm with h | h <;> subst h <;> simp +decide at h6 ⊢
  | cons a as ih =>
    intro m hm h6
    simp only [List.foldl_cons]
    have hid : (a.report.id = 6 ∧ a.report.id ≠ 1) ∨ (a.report.id = 1 ∧ a.report.id ≠ 6) ∨
        (a.report.id ≠ 6 ∧ a.report.id ≠ 1) := by
      omega
    apply ih <;> rcases hid with ⟨i, j⟩ | ⟨i, j⟩ | ⟨i, j⟩ <;>
      rcases hm with h | h <;> subst h <;>
      simp +decide [ready_stages_step, spec_ready_stages, i, j] at h6 ⊢ <;>
      assumption

theorem foldl_step_stage_3 (as : List raw_event_args) :
    ∀ m : Nat, (m = 0x3F ∨ m = 0x7F) →
      (m = 0x3F → ∃ a ∈ as, a.report.id = 6 ∧ a.raw_data 1 ≥ 0x80) →
      as.foldl (fun m a => ready_stages_step m a.report.id (a.raw_data 1)) m = 0x7F := by
  induction as with
  | nil =>
    intro m hm h6
    rcases hm with h | h <;> subst h <;> simp +decide at h6 ⊢
  | cons a as ih =>
    intro m hm h6
    simp only [List.foldl_cons]
    have hid : (a.report.id = 6 ∧ a.report.id ≠ 1) ∨ (a.report.id = 1 ∧ a.report.id ≠ 6) ∨
        (a.report.id ≠ 6 ∧ a.report.id ≠ 1) := by
      omega
    by_cases hb : a.raw_data 1 ≥ 0x80 <;>
      apply ih <;> rcases hid with ⟨i, j⟩ | ⟨i, j⟩ | ⟨i, j⟩ <;>
      rcases hm with h | h <;> subst h <;>
      simp +decide [ready_stages_step, spec_ready_stages, i, j, hb] at h6 ⊢ <;>
      assumption


/-! ## Reachable sessions -/

theorem session_inv_report (n m id byte1 : Nat) (h : session_inv n m) :
    session_inv n (ready_stages_step m id byte1) := by
  have hid : (id = 6 ∧ id ≠ 1) ∨ (id = 1 ∧ id ≠ 6) ∨ (id ≠ 6 ∧ id ≠ 1) := by omega
  unfold session_inv at h ⊢
  by_cases hb : byte1 ≥ 0x80 <;>
    rcases hid with ⟨i, j⟩ | ⟨i, j⟩ | ⟨i, j⟩ <;>
    rcases h with ⟨hn, h | h | h | h | h | h⟩ | ⟨hn, h | h⟩ | ⟨hn, h | h⟩ | ⟨hn, h⟩ <;>
    subst hn <;> subst h <;>
    simp +decide [ready_stages_step, spec_ready_stages, i, j, hb]

theorem session_inv_step (s : session) (x : session_step)
    (h : session_inv s.attach_done s.g15data.ready_stages) :
    session_inv (s.step x).attach_done (s.step x).g15data.ready_stages := by
  cases x with
  | report a =>
    simp only [session.step, deliver_ready_stages]
    exact session_inv_report _ _ _ _ h
  | attach =>
    obtain ⟨⟨m, ready⟩, n⟩ := s
    unfold session_inv at h
    simp only at h
    rcases h with ⟨hn, h | h | h | h | h | h⟩ | ⟨hn, h | h⟩ | ⟨hn, h | h⟩ | ⟨hn, h⟩ <;>
      subst hn <;> subst h <;>
      simp +decide [session.step, session_inv, wait_ready_stage_1, wait_ready_stage_2,
        send_finalize_report_locked, G15_READY_STAGE_1, G15_READY_STAGE_2, G15_READY_STAGE_3,
        G15_READY_SUBSTAGE_4, G15_READY_SUBSTAGE_6]

theorem session_inv_foldl (steps : List session_step) :
    ∀ s : session, session_inv s.attach_done s.g15data.ready_stages →
      session_inv (steps.foldl session.step s).attach_done
        (steps.foldl session.step s).g15data.ready_stages := by
  induction steps with
  | nil => intro s h; exact h
  | cons x xs ih =>
    intro s h
    simp only [List.foldl_cons]
    exact ih _ (session_inv_step s x h)

theorem session_inv_run (steps : List session_step) :
    session_inv (session.run steps).attach_done (session.run steps).g15data.ready_stages := by
  unfold session.run
  apply session_inv_foldl
  simp +decide [session_inv, g15_probe_data]


/-! ## The handshake claims -/

/-- C1: while the bitmask `m` is not Stage3, each of the six raw-event
handlers leaves the bitmask given by the transition table (on id 6: set SUB1
if clear, else SUB5 if SUB4 is set and SUB5 clear, else SUB7 if SUB6 is set
and raw byte 1 is at least 0x80; on id 1: set SUB2 if clear, else SUB3; other
ids: unchanged), and the report `6 0 255 255 ...` on a fresh session gives
bitmask 0x01. -/
theorem raw_event_transition_table (m : Nat) (hm : m ≠ 0x7F) (ready : Bool)
    (report : hid_report) (raw_data : Nat → Nat) (size : Int) :
    (g15_raw_event { ready_stages := m, ready := ready } report raw_data
        size).g15data.ready_stages = spec_ready_stages m report.id (raw_data 1) ∧
    (g13_raw_event { ready_stages := m, ready := ready } report raw_data
        size).g15data.ready_stages = spec_ready_stages m report.id (raw_data 1) ∧
    (g15v2_raw_event { ready_stages := m, ready := ready } report raw_data
        size).g15data.ready_stages = spec_ready_stages m report.id (raw_data 1) ∧
    (g19_raw_event { ready_stages := m, ready := ready } report raw_data
        size).g15data.ready_stages = spec_ready_stages m report.id (raw_data 1) ∧
    (g110_raw_event { ready_stages := m, ready := ready } report raw_data
        size).g15data.ready_stages = spec_ready_stages m report.id (raw_data 1) ∧
    (g510_raw_event { ready_stages := m, ready := ready } report raw_data
        size).g15data.ready_stages = spec_ready_stages m report.id (raw_data 1) ∧
    (g15_raw_event g15_probe_data { id := 6 } scenario_a_raw_data
        258).g15data.ready_stages = 0x01 := by
  have h := g15_raw_event_ready_stages m hm ready report raw_data size
  refine ⟨h, ?_, ?_, ?_, ?_, ?_, ?_⟩
  · rw [g13_raw_event_eq _ hm]; exact h
  · rw [g15v2_raw_event_eq]; exact h
  · rw [g19_raw_event_eq]; exact h
  · rw [g110_raw_event_eq]; exact h
  · rw [g510_raw_event_eq]; exact h
  · decide

theorem raw_event_transition_table_witness :
    (0 : Nat) ≠ 0x7F ∧
    (g19_raw_event { ready_stages := 0, ready := false } { id := 1 } scenario_a_raw_data
        258).g15data.ready_stages = spec_ready_stages 0 1 (scenario_a_raw_data 1) :=
  ⟨by decide,
   (raw_event_transition_table 0 (by decide) false { id := 1 } scenario_a_raw_data
      258).2.2.2.1⟩

/-- C2: whatever reports arrive before each locked section of the attach
procedure (none at all included), the bitmask is 0x0F after the first section
of `wait_ready`, 0x3F after the second and 0x7F after `send_finalize_report`;
each section warns (and forces the stage) exactly when the bitmask it reads
differs from the stage value it expects. -/
theorem attach_forces_each_stage (wait1 wait2 wait3 : List raw_event_args) :
    (g15_probe_handshake wait1 wait2 wait3).stage_1.g15data.ready_stages = 0x0F ∧
    (g15_probe_handshake wait1 wait2 wait3).stage_2.g15data.ready_stages = 0x3F ∧
    (g15_probe_handshake wait1 wait2 wait3).stage_3.g15data.ready_stages = 0x7F ∧
    ((g15_probe_handshake wait1 wait2 wait3).stage_1.dev_warn = true ↔
      (deliver_all g15_probe_data wait1).ready_stages ≠ 0x07) ∧
    ((g15_probe_handshake wait1 wait2 wait3).stage_2.dev_warn = true ↔
      (deliver_all (g15_probe_handshake wait1 wait2 wait3).stage_1.g15data
        wait2).ready_stages ≠ 0x1F) ∧
    ((g15_probe_handshake wait1 wait2 wait3).stage_3.dev_warn = true ↔
      (deliver_all (g15_probe_handshake wait1 wait2 wait3).stage_2.g15data
        wait3).ready_stages ≠ 0x7F) := by
  simp only [g15_probe_handshake, wait_ready, send_finalize_report]
  generalize (deliver_all g15_probe_data wait1) = d1
  generalize (deliver_all (wait_ready_stage_1 d1).g15data wait2) = d2
  generalize (deliver_all (wait_ready_stage_2 d2).g15data wait3) = d3
  refine ⟨?_, ?_, ?_, ?_, ?_, ?_⟩
  · unfold wait_ready_stage_1
    by_cases h : d1.ready_stages = 0x07
    · simp +decide [h, G15_READY_STAGE_1, G15_READY_SUBSTAGE_4]
    · simp +decide [h, G15_READY_STAGE_1, G15_READY_SUBSTAGE_4]
  · unfold wait_ready_stage_2
    by_cases h : d2.ready_stages = 0x1F
    · simp +decide [h, G15_READY_STAGE_2, G15_READY_SUBSTAGE_6]
    · simp +decide [h, G15_READY_STAGE_2, G15_READY_SUBSTAGE_6]
  · unfold send_finalize_report_locked
    by_cases h : d3.ready_stages = 0x7F
    · simp [h, G15_READY_STAGE_3]
    · simp [h, G15_READY_STAGE_3]
  · simp [wait_ready_stage_1, G15_READY_STAGE_1]
  · simp [wait_ready_stage_2, G15_READY_STAGE_2]
  · unfold send_finalize_report_locked
    by_cases h : d3.ready_stages = 0x7F
    · simp [h, G15_READY_STAGE_3]
    · simp [h, G15_READY_STAGE_3]


/-- C3: from a fresh session every delivery sequence with at least one id-6
and at least two id-1 reports ends at Stage1 (0x07); from the re-armed bitmask
0x0F every sequence with at least one id-6 report ends at Stage2 (0x1F); from
the re-armed bitmask 0x3F every sequence with at least one id-6 report whose
raw byte 1 is at least 0x80 ends at Stage3 (0x7F). -/
theorem deliveries_reach_each_stage :
    (∀ as : List raw_event_args,
      (∃ a ∈ as, a.report.id = 6) →
      2 ≤ as.countP (fun a => decide (a.report.id = 1)) →
      (deliver_all g15_probe_data as).ready_stages = 0x07) ∧
    (∀ (ready : Bool) (as : List raw_event_args),
      (∃ a ∈ as, a.report.id = 6) →
      (deliver_all { ready_stages := 0x0F, ready := ready } as).ready_stages = 0x1F) ∧
    (∀ (ready : Bool) (as : List raw_event_args),
      (∃ a ∈ as, a.report.id = 6 ∧ a.raw_data 1 ≥ 0x80) →
      (deliver_all { ready_stages := 0x3F, ready := ready } as).ready_stages = 0x7F) := by
  refine ⟨?_, ?_, ?_⟩
  · intro as h6 h1
    rw [deliver_all_ready_stages]
    exact foldl_step_stage_1 as 0 (Or.inl rfl) (fun _ => h6) (by simpa using h1)
  · intro ready as h6
    rw [deliver_all_ready_stages]
    exact foldl_step_stage_2 as 0x0F (Or.inl rfl) (fun _ => h6)
  · intro ready as h6
    rw [deliver_all_ready_stages]
    exact foldl_step_stage_3 as 0x3F (Or.inl rfl) (fun _ => h6)

theorem deliveries_reach_each_stage_witness :
    (deliver_all g15_probe_data
      [⟨⟨1⟩, scenario_a_raw_data, 258⟩, ⟨⟨6⟩, scenario_a_raw_data, 258⟩,
       ⟨⟨1⟩, scenario_a_raw_data, 258⟩]).ready_stages = 0x07 ∧
    (deliver_all { ready_stages := 0x0F, ready := false }
      [⟨⟨1⟩, scenario_a_raw_data, 258⟩, ⟨⟨6⟩, scenario_a_raw_data, 258⟩]).ready_stages
        = 0x1F ∧
    (deliver_all { ready_stages := 0x3F, ready := false }
      [⟨⟨6⟩, scenario_a_raw_data, 258⟩, ⟨⟨6⟩, fun _ => 0x80, 258⟩]).ready_stages = 0x7F :=
  ⟨deliveries_reach_each_stage.1 _ ⟨⟨⟨6⟩, scenario_a_raw_data, 258⟩, by simp, rfl⟩ (by decide),
   deliveries_reach_each_stage.2.1 false _ ⟨⟨⟨6⟩, scenario_a_raw_data, 258⟩, by simp, rfl⟩,
   deliveries_reach_each_stage.2.2 false _ ⟨⟨⟨6⟩, fun _ => 0x80, 258⟩, by simp, rfl, by decide⟩⟩

/-- C4: while the bitmask is not Stage3, the handler calls `complete_all`
exactly when the bitmask it leaves equals 0x07, 0x1F or 0x7F; two id-1 reports
in a row on a fresh session give 0x02 and then 0x06, and neither call signals
completion. -/
theorem complete_all_iff_stage_value (m : Nat) (hm : m ≠ 0x7F) (ready : Bool)
    (report : hid_report) (raw_data : Nat → Nat) (size : Int) :
    ((g15_raw_event { ready_stages := m, ready := ready } report raw_data
        size).complete_all = true ↔
      ((g15_raw_event { ready_stages := m, ready := ready } report raw_data
          size).g15data.ready_stages = 0x07 ∨
       (g15_raw_event { ready_stages := m, ready := ready } report raw_data
          size).g15data.ready_stages = 0x1F ∨
       (g15_raw_event { ready_stages := m, ready := ready } report raw_data
          size).g15data.ready_stages = 0x7F)) ∧
    (g15_raw_event g15_probe_data { id := 1 } raw_data size)
      = { g15data := { ready_stages := 0x02, ready := false }, retval := 1,
          complete_all := false, process_input := false } ∧
    (g15_raw_event { ready_stages := 0x02, ready := false } { id := 1 } raw_data size)
      = { g15data := { ready_stages := 0x06, ready := false }, retval := 1,
          complete_all := false, process_input := false } := by
  refine ⟨g15_raw_event_complete_all m hm ready report raw_data size, ?_, ?_⟩
  · rw [g15_probe_data, g15_raw_event_handshake 0 (by decide)]
    simp +decide [spec_ready_stages]
  · rw [g15_raw_event_handshake 2 (by decide)]
    simp +decide [spec_ready_stages]

theorem complete_all_iff_stage_value_witness :
    (3 : Nat) ≠ 0x7F ∧
    ((g15_raw_event { ready_stages := 3, ready := false } { id := 1 } scenario_a_raw_data
        258).complete_all = true ↔
      ((g15_raw_event { ready_stages := 3, ready := false } { id := 1 } scenario_a_raw_data
          258).g15data.ready_stages = 0x07 ∨
       (g15_raw_event { ready_stages := 3, ready := false } { id := 1 } scenario_a_raw_data
          258).g15data.ready_stages = 0x1F ∨
       (g15_raw_event { ready_stages := 3, ready := false } { id := 1 } scenario_a_raw_data
          258).g15data.ready_stages = 0x7F)) :=
  ⟨by decide,
   (complete_all_iff_stage_value 3 (by decide) false { id := 1 } scenario_a_raw_data 258).1⟩

theorem spec_ready_stages_and (m id byte1 : Nat) :
    m &&& spec_ready_stages m id byte1 = m := by
  unfold spec_ready_stages
  split_ifs <;> first | exact and_or_self_left m _ | exact Nat.and_self m

theorem ready_stages_step_and (m id byte1 : Nat) :
    m &&& ready_stages_step m id byte1 = m := by
  unfold ready_stages_step
  split_ifs
  · exact Nat.and_self m
  · exact spec_ready_stages_and m id byte1

theorem foldl_step_and (as : List raw_event_args) :
    ∀ m : Nat,
      m &&& as.foldl (fun m a => ready_stages_step m a.report.id (a.raw_data 1)) m = m := by
  induction as with
  | nil => intro m; exact Nat.and_self m
  | cons a as ih =>
    intro m
    simp only [List.foldl_cons]
    have h1 := ready_stages_step_and m a.report.id (a.raw_data 1)
    have h2 := ih (ready_stages_step m a.report.id (a.raw_data 1))
    calc m &&& as.foldl (fun m a => ready_stages_step m a.report.id (a.raw_data 1))
            (ready_stages_step m a.report.id (a.raw_data 1))
        = (m &&& ready_stages_step m a.report.id (a.raw_data 1)) &&&
            as.foldl (fun m a => ready_stages_step m a.report.id (a.raw_data 1))
              (ready_stages_step m a.report.id (a.raw_data 1)) := by rw [h1]
      _ = m &&& ready_stages_step m a.report.id (a.raw_data 1) := by
          rw [Nat.and_assoc, h2]
      _ = m := h1

/-- C5: a report delivery never clears a bit of the readiness bitmask: with
`m` the bitmask before and `n` the bitmask after, `m AND n = m`; hence along
any delivery sequence the bitmask after a prefix is contained in the bitmask
after the whole sequence. -/
theorem raw_event_never_clears_bits :
    (∀ (d : g15_data) (report : hid_report) (raw_data : Nat → Nat) (size : Int),
      d.ready_stages &&& (g15_raw_event d report raw_data size).g15data.ready_stages
        = d.ready_stages) ∧
    (∀ (d : g15_data) (xs ys : List raw_event_args),
      (deliver_all d xs).ready_stages &&& (deliver_all d (xs ++ ys)).ready_stages
        = (deliver_all d xs).ready_stages) := by
  constructor
  · intro d report raw_data size
    have h := deliver_ready_stages d ⟨report, raw_data, size⟩
    unfold deliver at h
    simp only at h
    rw [h]
    exact ready_stages_step_and _ _ _
  · intro d xs ys
    have e : deliver_all d (xs ++ ys) = deliver_all (deliver_all d xs) ys := by
      unfold deliver_all
      rw [List.foldl_append]
    rw [e, deliver_all_ready_stages (d := deliver_all d xs)]
    exact foldl_step_and ys _

/-- C6: once the bitmask is Stage3 (0x7F), a report of any identifier and
payload leaves the driver data (bitmask and completion) as it was and does
not call `complete_all`; the same holds along any sequence of deliveries. -/
theorem stage_3_is_final (ready : Bool) :
    (∀ (report : hid_report) (raw_data : Nat → Nat) (size : Int),
      (g15_raw_event { ready_stages := 0x7F, ready := ready } report raw_data size).g15data
          = { ready_stages := 0x7F, ready := ready } ∧
      (g15_raw_event { ready_stages := 0x7F, ready := ready } report raw_data
          size).complete_all = false) ∧
    (∀ as : List raw_event_args,
      deliver_all { ready_stages := 0x7F, ready := ready } as
        = { ready_stages := 0x7F, ready := ready }) := by
  constructor
  · intro report raw_data size
    exact g15_raw_event_stage_3 ready report raw_data size
  · intro as
    unfold deliver_all
    induction as with
    | nil => rfl
    | cons a as ih =>
      simp only [List.foldl_cons, deliver]
      rw [(g15_raw_event_stage_3 ready a.report a.raw_data a.size).1]
      exact ih

/-- C7: in every session state reached from a fresh session by report
deliveries and attach sections in which SUB3 (0x04) is set, delivering an
id-1 report leaves the bitmask unchanged. -/
theorem r1_after_sub3_is_noop (steps : List session_step) (a : raw_event_args)
    (h3 : (session.run steps).g15data.ready_stages.testBit 2 = true)
    (h1 : a.report.id = 1) :
    (deliver (session.run steps).g15data a).ready_stages
      = (session.run steps).g15data.ready_stages := by
  have hinv := session_inv_run steps
  rw [deliver_ready_stages, h1]
  generalize (session.run steps).g15data.ready_stages = m at h3 hinv ⊢
  generalize (session.run steps).attach_done = n at hinv
  unfold session_inv at hinv
  rcases hinv with ⟨_, h | h | h | h | h | h⟩ | ⟨_, h | h⟩ | ⟨_, h | h⟩ | ⟨_, h⟩ <;>
    subst h <;> simp +decide [ready_stages_step, spec_ready_stages] at h3 ⊢

theorem r1_after_sub3_is_noop_witness :
    (session.run [.report ⟨⟨1⟩, scenario_a_raw_data, 258⟩,
        .report ⟨⟨1⟩, scenario_a_raw_data, 258⟩]).g15data.ready_stages.testBit 2 = true ∧
    (deliver (session.run [.report ⟨⟨1⟩, scenario_a_raw_data, 258⟩,
        .report ⟨⟨1⟩, scenario_a_raw_data, 258⟩]).g15data
        ⟨⟨1⟩, scenario_a_raw_data, 258⟩).ready_stages
      = (session.run [.report ⟨⟨1⟩, scenario_a_raw_data, 258⟩,
        .report ⟨⟨1⟩, scenario_a_raw_data, 258⟩]).g15data.ready_stages :=
  ⟨by decide, r1_after_sub3_is_noop _ _ (by decide) rfl⟩


/-! ## The monochrome encoder -/


theorem testBit_or_bits (n : Nat) (p : Nat → Bool) (r : Nat) :
    (or_bits n p).testBit r = (decide (r < n) && p r) := by
  induction n with
  | zero => simp [or_bits]
  | succ k ih =>
    simp only [or_bits, Nat.testBit_or, ih]
    by_cases hp : p k
    · simp only [hp, if_true, Nat.one_shiftLeft, Nat.testBit_two_pow]
      by_cases hr : k = r
      · subst hr; simp [hp]
      · have : (decide (r < k + 1)) = decide (r < k) := by
          have : r < k + 1 ↔ r < k := by omega
          simp [this]
        simp [hr, this]
    · simp only [hp, Bool.false_eq_true, if_false, Nat.zero_testBit, Bool.or_false]
      by_cases hr : k = r
      · subst hr; simp [hp]
      · have : (decide (r < k + 1)) = decide (r < k) := by
          have : r < k + 1 ↔ r < k := by omega
          simp [this]
        simp [this]

theorem or_bits_lt (n : Nat) (p : Nat → Bool) : or_bits n p < 2 ^ n := by
  apply Nat.lt_pow_two_of_testBit
  intro i hi
  rw [testBit_or_bits]
  have : ¬ i < n := by omega
  simp [this]

/-- A column byte fits in a `u8`: the `|=` of the `bit` loop never overflows. -/
theorem mono_col_byte_lt (fb_bitmap : Nat → Nat) (ll row_start col : Nat) :
    mono_col_byte fb_bitmap ll row_start col < 256 :=
  or_bits_lt 8 _

theorem set_getD_self (l : List Nat) (i : Nat) : l.set i (l.getD i 0) = l := by
  apply List.ext_getElem?
  intro j
  rw [List.getElem?_set]
  split
  · next h =>
    subst h
    split
    · next h2 => simp [List.getD_eq_getElem?_getD, List.getElem?_eq_getElem h2]
    · next h2 => simp [List.getElem?_eq_none (Nat.le_of_not_lt h2)]
  · rfl

theorem getD_set (l : List Nat) (i j v : Nat) (h : i < l.length) :
    (l.set i v).getD j 0 = if j = i then v else l.getD j 0 := by
  simp only [List.getD_eq_getElem?_getD, List.getElem?_set]
  by_cases hj : i = j
  · subst hj; simp [h]
  · have : ¬ j = i := fun e => hj e.symm
    simp [hj, this]

/-- The `bit` loop of `gfb_fb_mono_update`, run for `n` rounds. -/
theorem for_loop_mono_update_bit (fb_bitmap : Nat → Nat) (ll mask dst : Nat) (n : Nat)
    (vbitmap : List Nat) (src : Nat) (h : dst < vbitmap.length) :
    for_loop n (gfb_fb_mono_update_bit fb_bitmap ll mask dst) (vbitmap, src)
      = (vbitmap.set dst (vbitmap.getD dst 0 |||
            or_bits n (fun bit => decide (fb_bitmap (src + bit * ll) &&& mask ≠ 0))),
         src + n * ll) := by
  induction n with
  | zero => simp only [for_loop, or_bits, Nat.or_zero, set_getD_self, Nat.zero_mul, Nat.add_zero]
  | succ k ih =>
    simp only [for_loop, ih, gfb_fb_mono_update_bit, or_bits]
    have e : src + k * ll + ll = src + (k + 1) * ll := by rw [Nat.add_mul]; omega
    by_cases hp : fb_bitmap (src + k * ll) &&& mask ≠ 0
    · simp only [hp, if_true, decide_True, List.set_set, getD_set _ _ _ _ h,
        Nat.or_assoc, e, ne_eq, not_false_eq_true]
    · simp only [hp, if_false, decide_False, Nat.or_zero, e, Bool.false_eq_true]


/-- One round of the `col` loop: it ORs the column byte into `*dst` and
advances `dst`. -/
theorem mono_update_col_eq (fb_bitmap : Nat → Nat) (ll row_start col : Nat)
    (vbitmap : List Nat) (dst : Nat) (h : dst < vbitmap.length) :
    gfb_fb_mono_update_col fb_bitmap ll row_start col (vbitmap, dst)
      = (vbitmap.set dst (vbitmap.getD dst 0 ||| mono_col_byte fb_bitmap ll row_start col),
         dst + 1) := by
  simp only [gfb_fb_mono_update_col, for_loop_mono_update_bit _ _ _ _ _ _ _ h, mono_col_byte]

/-- The `col` loop of `gfb_fb_mono_update`, run for `n` columns from offset
`dst`: bytes `dst .. dst + n - 1` receive their column byte, nothing else
changes. -/
theorem for_loop_mono_update_col (fb_bitmap : Nat → Nat) (ll row_start : Nat) (n : Nat)
    (vbitmap : List Nat) (dst : Nat) (h : dst + n ≤ vbitmap.length) :
    (for_loop n (gfb_fb_mono_update_col fb_bitmap ll row_start) (vbitmap, dst)).2 = dst + n ∧
    (for_loop n (gfb_fb_mono_update_col fb_bitmap ll row_start) (vbitmap, dst)).1.length
      = vbitmap.length ∧
    ∀ i, (for_loop n (gfb_fb_mono_update_col fb_bitmap ll row_start) (vbitmap, dst)).1.getD i 0
      = if dst ≤ i ∧ i < dst + n then
          vbitmap.getD i 0 ||| mono_col_byte fb_bitmap ll row_start (i - dst)
        else vbitmap.getD i 0 := by
  induction n with
  | zero =>
    refine ⟨rfl, rfl, ?_⟩
    intro i
    have : ¬ (dst ≤ i ∧ i < dst + 0) := by omega
    simp only [for_loop, this, if_false]
  | succ k ih =>
    obtain ⟨h2, hl, hg⟩ := ih (by omega)
    generalize hr : for_loop k (gfb_fb_mono_update_col fb_bitmap ll row_start) (vbitmap, dst)
      = r at h2 hl hg
    obtain ⟨vb, d⟩ := r
    simp only at h2 hl hg
    subst h2
    have hlt : dst + k < vb.length := by omega
    simp only [for_loop, hr, mono_update_col_eq _ _ _ _ _ _ hlt, List.length_set]
    refine ⟨by omega, hl, ?_⟩
    intro i
    rw [getD_set _ _ _ _ hlt]
    by_cases hi : i = dst + k
    · have h1 : ¬ (dst ≤ dst + k ∧ dst + k < dst + k) := by omega
      have h3 : dst ≤ i ∧ i < dst + (k + 1) := by omega
      rw [if_pos hi, if_pos h3, hg, if_neg h1, hi, Nat.add_sub_cancel_left]
    · rw [if_neg hi, hg]
      by_cases hin : dst ≤ i ∧ i < dst + k
      · have h3 : dst ≤ i ∧ i < dst + (k + 1) := by omega
        rw [if_pos hin, if_pos h3]
      · have h3 : ¬ (dst ≤ i ∧ i < dst + (k + 1)) := by omega
        rw [if_neg hin, if_neg h3]

/-- The `band` loop of `gfb_fb_mono_update`, run for `b` bands of `xres`
columns from offset `dst`. -/
theorem for_loop_mono_update_band (fb_bitmap : Nat → Nat) (ll xres : Nat) (b : Nat)
    (vbitmap : List Nat) (dst : Nat) (h : dst + b * xres ≤ vbitmap.length) :
    (for_loop b (gfb_fb_mono_update_band fb_bitmap ll xres) (vbitmap, dst)).2
      = dst + b * xres ∧
    (for_loop b (gfb_fb_mono_update_band fb_bitmap ll xres) (vbitmap, dst)).1.length
      = vbitmap.length ∧
    (∀ band col, band < b → col < xres →
      (for_loop b (gfb_fb_mono_update_band fb_bitmap ll xres)
          (vbitmap, dst)).1.getD (dst + band * xres + col) 0
        = vbitmap.getD (dst + band * xres + col) 0 |||
            mono_col_byte fb_bitmap ll (band * 8 * ll) col) ∧
    (∀ i, i < dst ∨ dst + b * xres ≤ i →
      (for_loop b (gfb_fb_mono_update_band fb_bitmap ll xres) (vbitmap, dst)).1.getD i 0
        = vbitmap.getD i 0) := by
  induction b with
  | zero =>
    refine ⟨by simp [for_loop], rfl, ?_, ?_⟩
    · intro band col hb; omega
    · intro i _; rfl
  | succ k ih =>
    have e : dst + (k + 1) * xres = dst + k * xres + xres := by rw [Nat.add_mul]; omega
    obtain ⟨h2, hl, hin, hout⟩ := ih (by omega)
    generalize hr : for_loop k (gfb_fb_mono_update_band fb_bitmap ll xres) (vbitmap, dst)
      = r at h2 hl hin hout
    obtain ⟨vb, d⟩ := r
    simp only at h2 hl hin hout
    subst h2
    obtain ⟨c2, cl, cg⟩ := for_loop_mono_update_col fb_bitmap ll (k * 8 * ll) xres vb
      (dst + k * xres) (by omega)
    simp only [for_loop, hr, gfb_fb_mono_update_band]
    refine ⟨by omega, by omega, ?_, ?_⟩
    · intro band col hb hc
      rw [cg]
      by_cases hk : band = k
      · subst hk
        have h3 : dst + band * xres ≤ dst + band * xres + col ∧
            dst + band * xres + col < dst + band * xres + xres := by omega
        rw [if_pos h3, hout _ (Or.inr (by omega))]
        congr 2
        omega
      · have hlt : band < k := by omega
        have hm : (band + 1) * xres ≤ k * xres := Nat.mul_le_mul_right xres hlt
        rw [Nat.add_mul] at hm
        have h3 : ¬ (dst + k * xres ≤ dst + band * xres + col ∧
            dst + band * xres + col < dst + k * xres + xres) := by omega
        rw [if_neg h3]
        exact hin band col hlt hc
    · intro i hi
      rw [cg]
      have h3 : ¬ (dst + k * xres ≤ i ∧ i < dst + k * xres + xres) := by omega
      rw [if_neg h3]
      exact hout i (by omega)


theorem getD_memset (p : List Nat) (c n i : Nat) :
    (memset p c n).getD i 0 = if i < n then c else p.getD i 0 := by
  unfold memset
  simp only [List.getD_eq_getElem?_getD]
  by_cases h : i < n
  · rw [List.getElem?_append_left (by simpa using h)]
    simp [h]
  · rw [List.getElem?_append_right (by simpa using h)]
    simp only [List.length_replicate, List.getElem?_drop, if_neg h]
    congr 2
    omega

theorem length_memset (p : List Nat) (c n : Nat) (h : n ≤ p.length) :
    (memset p c n).length = p.length := by
  unfold memset
  simp only [List.length_append, List.length_replicate, List.length_drop]
  omega

/-- What `gfb_probe` sets up for the monochrome panel. -/
theorem gfb_probe_mono_geometry (env : gfb_probe_env) (data : gfb_data)
    (h : gfb_probe env .GFB_PANEL_TYPE_160_43_1 = some data) :
    data.var_xres = 160 ∧ data.var_yres = 43 ∧ data.fix_line_length = 32 ∧
    data.fix_smem_len = 1376 ∧ data.fb_vbitmap_size = 992 ∧
    data.fb_vbitmap.length = 992 := by
  unfold gfb_probe at h
  simp only [] at h
  split_ifs at h
  cases h
  simp

/-- The wire buffer `gfb_fb_mono_update` leaves for a 160x43 panel with lines
of 32 bytes and a 992-byte wire buffer. -/
theorem gfb_fb_mono_update_vbitmap (data : gfb_data)
    (hx : data.var_xres = 160) (hy : data.var_yres = 43) (hl : data.fix_line_length = 32)
    (hs : data.fb_vbitmap_size = 992) (hv : data.fb_vbitmap.length = 992) :
    (gfb_fb_mono_update data).fb_vbitmap.length = 992 ∧
    (gfb_fb_mono_update data).fb_vbitmap.getD 0 0 = 0x03 ∧
    (∀ i, 1 ≤ i → i < 32 → (gfb_fb_mono_update data).fb_vbitmap.getD i 0 = 0) ∧
    (∀ band col, band < 6 → col < 160 →
      (gfb_fb_mono_update data).fb_vbitmap.getD (32 + 160 * band + col) 0
        = mono_col_byte data.fb_bitmap 32 (band * 8 * 32) col) := by
  have hm : (memset data.fb_vbitmap 0 992).length = 992 := by
    rw [length_memset _ _ _ (by omega), hv]
  have h0 : (0 : Nat) < (memset data.fb_vbitmap 0 992).length := by omega
  have hlen : ((memset data.fb_vbitmap 0 992).set 0 3).length = 992 := by
    rw [List.length_set, hm]
  obtain ⟨_, bl, bin, bout⟩ := for_loop_mono_update_band data.fb_bitmap 32 160 6
    ((memset data.fb_vbitmap 0 992).set 0 3) 32 (by omega)
  simp only [gfb_fb_mono_update, hx, hy, hl, hs]
  refine ⟨by rw [bl, hlen], ?_, ?_, ?_⟩
  · rw [bout 0 (Or.inl (by omega)), getD_set _ _ _ _ h0]
    rfl
  · intro i h1 h32
    rw [bout i (Or.inl h32), getD_set _ _ _ _ h0, if_neg (by omega), getD_memset,
      if_pos (by omega)]
  · intro band col hb hc
    have e : 32 + 160 * band + col = 32 + band * 160 + col := by omega
    rw [e, bin band col hb hc, getD_set _ _ _ _ h0, if_neg (by omega), getD_memset,
      if_pos (by omega), Nat.zero_or]

/-- Bit `r` of a column byte is the pixel `r` rows below the band start. -/
theorem testBit_mono_col_byte (fb_bitmap : Nat → Nat) (ll row_start col r : Nat)
    (hr : r < 8) :
    (mono_col_byte fb_bitmap ll row_start col).testBit r
      = (fb_bitmap (row_start + col / 8 + r * ll)).testBit (col % 8) := by
  unfold mono_col_byte
  rw [testBit_or_bits]
  simp only [hr, decide_True, Bool.true_and, Nat.one_shiftLeft]
  cases hb : (fb_bitmap (row_start + col / 8 + r * ll)).testBit (col % 8)
  · have := (and_two_pow_eq_zero_iff _ _).mpr hb
    simp [this]
  · have : ¬ (fb_bitmap (row_start + col / 8 + r * ll) &&& 2 ^ (col % 8) = 0) := by
      rw [and_two_pow_eq_zero_iff, hb]; simp
    simp [this]


theorem all_on_data_probed :
    gfb_probe (probe_ok_env all_on_surface (fun _ => 0) 250) .GFB_PANEL_TYPE_160_43_1
      = some all_on_data := by
  have e : (List.range 992).map (fun _ => (0 : Nat)) = List.replicate 992 0 := by
    rw [List.map_const', List.length_range]
  simp only [gfb_probe, probe_ok_env, all_on_data, GFB_UPDATE_RATE_DEFAULT, e]
  rfl

/-- The frame of the monochrome panel, byte by byte. -/
theorem mono_panel_frame_bytes (env : gfb_probe_env) (data : gfb_data)
    (hprobe : gfb_probe env .GFB_PANEL_TYPE_160_43_1 = some data)
    (surface : Nat → Nat) (wire : List Nat) (hwire : wire.length = 992) :
    (mono_panel_frame data surface wire).length = 992 ∧
    (mono_panel_frame data surface wire).getD 0 0 = 0x03 ∧
    (∀ i, 1 ≤ i → i < 32 → (mono_panel_frame data surface wire).getD i 0 = 0) ∧
    (∀ band col, band < 6 → col < 160 →
      (mono_panel_frame data surface wire).getD (32 + 160 * band + col) 0
        = mono_col_byte surface 32 (band * 8 * 32) col) := by
  obtain ⟨hx, hy, hl, _, hs, _⟩ := gfb_probe_mono_geometry env data hprobe
  obtain ⟨h1, h2, h3, h4⟩ := gfb_fb_mono_update_vbitmap
    { data with fb_bitmap := surface, fb_vbitmap := wire } hx hy hl hs hwire
  have hf : mono_panel_frame data surface wire
      = (gfb_fb_mono_update { data with fb_bitmap := surface, fb_vbitmap := wire }).fb_vbitmap := by
    unfold mono_panel_frame gfb_frame
    apply List.take_of_length_le
    rw [h1]
    exact Nat.le_of_eq hs.symm
  rw [hf]
  exact ⟨h1, h2, h3, h4⟩

/-- C8: for the monochrome panel as `gfb_probe` configures it, whatever the
surface and the previous wire buffer hold, `gfb_fb_mono_update` leaves a
992-byte frame with byte 0 equal to 0x03 and bytes 1..31 zero, in which bit
`r` of byte `32 + 160 * band + col` is the source pixel at column `col`, row
`8 * band + r` (bit `col mod 8` of surface byte `row * 32 + col div 8`) for
every row below 43. -/
theorem mono_update_packs_pixels (env : gfb_probe_env) (data : gfb_data)
    (hprobe : gfb_probe env .GFB_PANEL_TYPE_160_43_1 = some data)
    (surface : Nat → Nat) (wire : List Nat) (hwire : wire.length = 992) :
    (mono_panel_frame data surface wire).length = 32 + 6 * 160 ∧
    (mono_panel_frame data surface wire).getD 0 0 = 0x03 ∧
    (∀ i, 1 ≤ i → i < 32 → (mono_panel_frame data surface wire).getD i 0 = 0) ∧
    (∀ band col r, band < 6 → col < 160 → r < 8 → 8 * band + r < 43 →
      ((mono_panel_frame data surface wire).getD (32 + 160 * band + col) 0).testBit r
        = (surface ((8 * band + r) * 32 + col / 8)).testBit (col % 8)) := by
  obtain ⟨h1, h2, h3, h4⟩ := mono_panel_frame_bytes env data hprobe surface wire hwire
  refine ⟨h1, h2, h3, ?_⟩
  intro band col r hb hc hr _
  rw [h4 band col hb hc, testBit_mono_col_byte _ _ _ _ _ hr]
  congr 2
  omega

theorem mono_update_packs_pixels_witness :
    gfb_probe (probe_ok_env all_on_surface (fun _ => 0) 250) .GFB_PANEL_TYPE_160_43_1
      = some all_on_data ∧
    (List.replicate 992 0xAA).length = 992 ∧
    (mono_panel_frame all_on_data all_on_surface (List.replicate 992 0xAA)).length
      = 32 + 6 * 160 :=
  ⟨all_on_data_probed, List.length_replicate _ _,
   (mono_update_packs_pixels _ _ all_on_data_probed all_on_surface (List.replicate 992 0xAA)
      (List.length_replicate _ _)).1⟩

/-- C9: mono packing is invertible.  `gfb_mono_unpack`, applied to the 960
body bytes of the frame, returns the pixel of the surface at every column
below 160 and row below 43; and every 160x43 pattern is the pixel pattern of
a surface, so unpacking the frame made from a pattern returns the pattern. -/
theorem mono_unpack_inverts_packing (env : gfb_probe_env) (data : gfb_data)
    (hprobe : gfb_probe env .GFB_PANEL_TYPE_160_43_1 = some data)
    (wire : List Nat) (hwire : wire.length = 992) :
    (∀ surface : Nat → Nat,
      ((mono_panel_frame data surface wire).drop 32).length = 960 ∧
      ∀ col row, col < 160 → row < 43 →
        gfb_mono_unpack ((mono_panel_frame data surface wire).drop 32) col row
          = mono_pixel surface 32 col row) ∧
    (∀ p : Nat → Nat → Bool, ∀ col row, col < 160 → row < 43 →
      gfb_mono_unpack ((mono_panel_frame data (surface_of_pattern p) wire).drop 32) col row
        = p col row) := by
  have key : ∀ surface : Nat → Nat,
      ((mono_panel_frame data surface wire).drop 32).length = 960 ∧
      ∀ col row, col < 160 → row < 43 →
        gfb_mono_unpack ((mono_panel_frame data surface wire).drop 32) col row
          = mono_pixel surface 32 col row := by
    intro surface
    obtain ⟨h1, _, _, h4⟩ := mono_panel_frame_bytes env data hprobe surface wire hwire
    constructor
    · rw [List.length_drop, h1]
    · intro col row hc hr
      unfold gfb_mono_unpack mono_pixel
      have e : ((mono_panel_frame data surface wire).drop 32).getD (160 * (row / 8) + col) 0
          = (mono_panel_frame data surface wire).getD (32 + 160 * (row / 8) + col) 0 := by
        simp only [List.getD_eq_getElem?_getD, List.getElem?_drop]
        congr 2
        omega
      rw [e, h4 (row / 8) col (by omega) hc, testBit_mono_col_byte _ _ _ _ _ (by omega)]
      congr 2
      omega
  refine ⟨key, ?_⟩
  intro p col row hc hr
  rw [(key (surface_of_pattern p)).2 col row hc hr]
  unfold mono_pixel surface_of_pattern
  rw [testBit_or_bits]
  have h8 : col % 8 < 8 := by omega
  have e1 : (row * 32 + col / 8) % 32 = col / 8 := by omega
  have e2 : (row * 32 + col / 8) / 32 = row := by omega
  have e3 : 8 * (col / 8) + col % 8 = col := by omega
  simp only [h8, decide_True, Bool.true_and, e1, e2, e3]

theorem mono_unpack_inverts_packing_witness :
    gfb_probe (probe_ok_env all_on_surface (fun _ => 0) 250) .GFB_PANEL_TYPE_160_43_1
      = some all_on_data ∧
    (List.replicate 992 0xAA).length = 992 ∧
    gfb_mono_unpack
        ((mono_panel_frame all_on_data all_on_surface (List.replicate 992 0xAA)).drop 32) 159 42
      = mono_pixel all_on_surface 32 159 42 :=
  ⟨all_on_data_probed, List.length_replicate _ _,
   ((mono_unpack_inverts_packing _ _ all_on_data_probed (List.replicate 992 0xAA)
      (List.length_replicate _ _)).1 all_on_surface).2 159 42 (by decide) (by decide)⟩


theorem getElem_opt_of_getD (l : List Nat) (i v : Nat) (h : i < l.length)
    (e : l.getD i 0 = v) : l[i]? = some v := by
  rw [List.getD_eq_getElem?_getD, List.getElem?_eq_getElem h] at e
  rw [List.getElem?_eq_getElem h]
  simpa using e

theorem testBit_255 (j : Nat) : (255 : Nat).testBit j = decide (j < 8) := by
  have h := Nat.testBit_two_pow_sub_one 8 j
  norm_num at h
  simpa using h

theorem testBit_7 (j : Nat) : (7 : Nat).testBit j = decide (j < 3) := by
  have h := Nat.testBit_two_pow_sub_one 3 j
  norm_num at h
  simpa using h

/-- A column byte whose eight source pixels are all set is 0xFF. -/
theorem mono_col_byte_eq_ff (fb_bitmap : Nat → Nat) (ll row_start col : Nat)
    (h : ∀ r, r < 8 → (fb_bitmap (row_start + col / 8 + r * ll)).testBit (col % 8) = true) :
    mono_col_byte fb_bitmap ll row_start col = 0xFF := by
  apply Nat.eq_of_testBit_eq
  intro j
  rw [testBit_255]
  by_cases hj : j < 8
  · rw [testBit_mono_col_byte _ _ _ _ _ hj, h j hj]
    simp [hj]
  · unfold mono_col_byte
    rw [testBit_or_bits]
    simp [hj]

/-- A column byte whose first three source pixels are set has bits 0..2 set. -/
theorem mono_col_byte_and_7 (fb_bitmap : Nat → Nat) (ll row_start col : Nat)
    (h : ∀ r, r < 3 → (fb_bitmap (row_start + col / 8 + r * ll)).testBit (col % 8) = true) :
    mono_col_byte fb_bitmap ll row_start col &&& 0x07 = 0x07 := by
  apply Nat.eq_of_testBit_eq
  intro j
  rw [Nat.testBit_and, testBit_7]
  by_cases hj : j < 3
  · rw [testBit_mono_col_byte _ _ _ _ _ (by omega), h j hj]
    simp [hj]
  · simp [hj]

theorem all_on_surface_pixels (col row : Nat) (hc : col < 160) (hr : row < 43) :
    mono_pixel all_on_surface 32 col row = true := by
  unfold mono_pixel all_on_surface
  have h : row * 32 + col / 8 < 1376 := by omega
  rw [if_pos h, testBit_255]
  have : col % 8 < 8 := by omega
  simp [this]

/-- C10, as the code has it: for a 160x43 surface with every pixel on, the
frame is 992 bytes, its first 32 bytes are 0x03 followed by 31 zero bytes,
bytes 32..831 (the five full bands) are 0xFF, and bytes 832..991 (the last
band, rows 40..42) have bits 0..2 set. -/
theorem all_on_frame (env : gfb_probe_env) (data : gfb_data)
    (hprobe : gfb_probe env .GFB_PANEL_TYPE_160_43_1 = some data)
    (surface : Nat → Nat) (wire : List Nat) (hwire : wire.length = 992)
    (hon : ∀ col row, col < 160 → row < 43 → mono_pixel surface 32 col row = true) :
    (mono_panel_frame data surface wire).length = 992 ∧
    (mono_panel_frame data surface wire).take 32 = 0x03 :: List.replicate 31 0 ∧
    (∀ i, 32 ≤ i → i < 832 → (mono_panel_frame data surface wire).getD i 0 = 0xFF) ∧
    (∀ i, 832 ≤ i → i < 992 →
      (mono_panel_frame data surface wire).getD i 0 &&& 0x07 = 0x07) := by
  obtain ⟨h1, h2, h3, h4⟩ := mono_panel_frame_bytes env data hprobe surface wire hwire
  refine ⟨h1, ?_, ?_, ?_⟩
  · apply List.ext_getElem?
    intro i
    by_cases hi : i < 32
    · rw [List.getElem?_take_of_lt hi]
      by_cases h0 : i = 0
      · subst h0
        rw [getElem_opt_of_getD _ 0 3 (by omega) h2]
        rfl
      · rw [getElem_opt_of_getD _ i 0 (by omega) (h3 i (by omega) hi)]
        obtain ⟨k, rfl⟩ : ∃ k, i = k + 1 := ⟨i - 1, by omega⟩
        rw [List.getElem?_cons_succ, List.getElem?_replicate, if_pos (by omega)]
    · rw [List.getElem?_eq_none (by rw [List.length_take, h1]; omega),
        List.getElem?_eq_none (by simp; omega)]
  · intro i hlo hhi
    have e : i = 32 + 160 * ((i - 32) / 160) + (i - 32) % 160 := by omega
    rw [e, h4 _ _ (by omega) (by omega)]
    apply mono_col_byte_eq_ff
    intro r hr
    have hp := hon ((i - 32) % 160) (8 * ((i - 32) / 160) + r) (by omega) (by omega)
    unfold mono_pixel at hp
    rw [← hp]
    congr 2
    omega
  · intro i hlo hhi
    have e : i = 32 + 160 * ((i - 32) / 160) + (i - 32) % 160 := by omega
    rw [e, h4 _ _ (by omega) (by omega)]
    apply mono_col_byte_and_7
    intro r hr
    have hp := hon ((i - 32) % 160) (8 * ((i - 32) / 160) + r) (by omega) (by omega)
    unfold mono_pixel at hp
    rw [← hp]
    congr 2
    omega

theorem all_on_frame_witness :
    gfb_probe (probe_ok_env all_on_surface (fun _ => 0) 250) .GFB_PANEL_TYPE_160_43_1
      = some all_on_data ∧
    (List.replicate 992 0xAA).length = 992 ∧
    (∀ col row, col < 160 → row < 43 → mono_pixel all_on_surface 32 col row = true) ∧
    (mono_panel_frame all_on_data all_on_surface (List.replicate 992 0xAA)).take 32
      = 0x03 :: List.replicate 31 0 :=
  ⟨all_on_data_probed, List.length_replicate _ _, all_on_surface_pixels,
   (all_on_frame _ _ all_on_data_probed all_on_surface (List.replicate 992 0xAA)
      (List.length_replicate _ _) all_on_surface_pixels).2.1⟩

/-- C10 as stated fails: on the surface with all 1376 bytes 0xFF (every pixel
on), as probed with zero bytes after the surface, frame byte 832 (last band,
column 0) is 0x07, so bytes 32..991 are not all 0xFF. -/
theorem all_on_frame_last_band_not_ff :
    gfb_probe (probe_ok_env all_on_surface (fun _ => 0) 250) .GFB_PANEL_TYPE_160_43_1
      = some all_on_data ∧
    (∀ col row, col < 160 → row < 43 → mono_pixel all_on_data.fb_bitmap 32 col row = true) ∧
    (gfb_frame (gfb_fb_mono_update all_on_data)).getD 832 0 = 0x07 ∧
    ¬ (∀ i, 32 ≤ i → i < 992 → (gfb_frame (gfb_fb_mono_update all_on_data)).getD i 0 = 0xFF) := by
  have hb := (mono_panel_frame_bytes _ _ all_on_data_probed all_on_surface
    (List.replicate 992 0) (List.length_replicate _ _)).2.2.2 5 0 (by decide) (by decide)
  have h832 : (gfb_frame (gfb_fb_mono_update all_on_data)).getD 832 0 = 0x07 := by
    have e : mono_panel_frame all_on_data all_on_surface (List.replicate 992 0)
        = gfb_frame (gfb_fb_mono_update all_on_data) := rfl
    rw [e] at hb
    rw [show (832 : Nat) = 32 + 160 * 5 + 0 from rfl, hb]
    decide
  refine ⟨all_on_data_probed, all_on_surface_pixels, h832, ?_⟩
  intro h
  have := h 832 (by decide) (by decide)
  rw [h832] at this
  exact absurd this (by decide)

/-! ## The colour encoder -/

set_option maxRecDepth 8192 in
theorem hdata_length : hdata.length = 512 := by
  decide

theorem length_memcpy (dst src : List Nat) (n : Nat) (hs : n ≤ src.length)
    (hd : n ≤ dst.length) : (memcpy dst src n).length = dst.length := by
  unfold memcpy
  simp only [List.length_append, List.length_take, List.length_drop]
  omega

theorem take_memcpy (dst src : List Nat) (n : Nat) (hs : n = src.length) :
    (memcpy dst src n).take n = src := by
  unfold memcpy
  subst hs
  rw [List.take_length, List.take_left]

/-- One round of the `row` loop writes the two bytes of one 16-bit unit. -/
theorem qvga_update_row_getD (fb_bitmap : Nat → Nat) (xres col row : Nat)
    (vbitmap : List Nat) (dst : Nat) (h : dst + 2 ≤ vbitmap.length) (i : Nat) :
    (gfb_fb_qvga_update_row fb_bitmap xres col row (vbitmap, dst)).1.getD i 0
      = if i = dst then fb_bitmap (2 * (row * xres + col))
        else if i = dst + 1 then fb_bitmap (2 * (row * xres + col) + 1)
        else vbitmap.getD i 0 := by
  simp only [gfb_fb_qvga_update_row]
  rw [getD_set _ _ _ _ (by rw [List.length_set]; omega), getD_set _ _ _ _ (by omega)]
  by_cases h1 : i = dst + 1
  · have h0 : ¬ i = dst := by omega
    rw [if_pos h1, if_neg h0, if_pos h1]
  · rw [if_neg h1]
    by_cases h0 : i = dst
    · rw [if_pos h0, if_pos h0]
    · rw [if_neg h0, if_neg h0, if_neg h1]

/-- The `row` loop of `gfb_fb_qvga_update`, run for `n` rows of column `col`
from byte offset `dst`. -/
theorem for_loop_qvga_update_row (fb_bitmap : Nat → Nat) (xres col : Nat) (n : Nat)
    (vbitmap : List Nat) (dst : Nat) (h : dst + 2 * n ≤ vbitmap.length) :
    (for_loop n (gfb_fb_qvga_update_row fb_bitmap xres col) (vbitmap, dst)).2
      = dst + 2 * n ∧
    (for_loop n (gfb_fb_qvga_update_row fb_bitmap xres col) (vbitmap, dst)).1.length
      = vbitmap.length ∧
    (∀ row, row < n →
      (for_loop n (gfb_fb_qvga_update_row fb_bitmap xres col)
          (vbitmap, dst)).1.getD (dst + 2 * row) 0 = fb_bitmap (2 * (row * xres + col)) ∧
      (for_loop n (gfb_fb_qvga_update_row fb_bitmap xres col)
          (vbitmap, dst)).1.getD (dst + 2 * row + 1) 0
        = fb_bitmap (2 * (row * xres + col) + 1)) ∧
    (∀ i, i < dst ∨ dst + 2 * n ≤ i →
      (for_loop n (gfb_fb_qvga_update_row fb_bitmap xres col) (vbitmap, dst)).1.getD i 0
        = vbitmap.getD i 0) := by
  induction n with
  | zero =>
    refine ⟨rfl, rfl, ?_, ?_⟩
    · intro row hr; omega
    · intro i _; rfl
  | succ k ih =>
    obtain ⟨h2, hl, hin, hout⟩ := ih (by omega)
    generalize hr : for_loop k (gfb_fb_qvga_update_row fb_bitmap xres col) (vbitmap, dst)
      = r at h2 hl hin hout
    obtain ⟨vb, d⟩ := r
    simp only at h2 hl hin hout
    subst h2
    have hlt : dst + 2 * k + 2 ≤ vb.length := by omega
    have hg := qvga_update_row_getD fb_bitmap xres col k vb (dst + 2 * k) hlt
    simp only [for_loop, hr]
    refine ⟨?_, ?_, ?_, ?_⟩
    · simp only [gfb_fb_qvga_update_row]; omega
    · simp only [gfb_fb_qvga_update_row, List.length_set]; exact hl
    · intro row hrow
      rw [hg, hg]
      by_cases hk : row = k
      · subst hk
        rw [if_pos rfl, if_neg (by omega), if_pos rfl]
        exact ⟨rfl, rfl⟩
      · have hlt2 : row < k := by omega
        rw [if_neg (by omega), if_neg (by omega), if_neg (by omega), if_neg (by omega)]
        exact hin row hlt2
    · intro i hi
      rw [hg, if_neg (by omega), if_neg (by omega)]
      exact hout i (by omega)

/-- The `col` loop of `gfb_fb_qvga_update`, run for `m` columns of `yres`
rows from byte offset `dst`. -/
theorem for_loop_qvga_update_col (fb_bitmap : Nat → Nat) (xres yres : Nat) (m : Nat)
    (vbitmap : List Nat) (dst : Nat) (h : dst + 2 * (m * yres) ≤ vbitmap.length) :
    (for_loop m (gfb_fb_qvga_update_col fb_bitmap xres yres) (vbitmap, dst)).2
      = dst + 2 * (m * yres) ∧
    (for_loop m (gfb_fb_qvga_update_col fb_bitmap xres yres) (vbitmap, dst)).1.length
      = vbitmap.length ∧
    (∀ col row, col < m → row < yres →
      (for_loop m (gfb_fb_qvga_update_col fb_bitmap xres yres)
          (vbitmap, dst)).1.getD (dst + 2 * (col * yres + row)) 0
        = fb_bitmap (2 * (row * xres + col)) ∧
      (for_loop m (gfb_fb_qvga_update_col fb_bitmap xres yres)
          (vbitmap, dst)).1.getD (dst + 2 * (col * yres + row) + 1) 0
        = fb_bitmap (2 * (row * xres + col) + 1)) ∧
    (∀ i, i < dst ∨ dst + 2 * (m * yres) ≤ i →
      (for_loop m (gfb_fb_qvga_update_col fb_bitmap xres yres) (vbitmap, dst)).1.getD i 0
        = vbitmap.getD i 0) := by
  induction m with
  | zero =>
    refine ⟨by simp [for_loop], rfl, ?_, ?_⟩
    · intro col row hc; omega
    · intro i _; rfl
  | succ k ih =>
    have e : (k + 1) * yres = k * yres + yres := by rw [Nat.add_mul]; omega
    obtain ⟨h2, hl, hin, hout⟩ := ih (by omega)
    generalize hr : for_loop k (gfb_fb_qvga_update_col fb_bitmap xres yres) (vbitmap, dst)
      = r at h2 hl hin hout
    obtain ⟨vb, d⟩ := r
    simp only at h2 hl hin hout
    subst h2
    obtain ⟨c2, cl, cin, cout⟩ := for_loop_qvga_update_row fb_bitmap xres k yres vb
      (dst + 2 * (k * yres)) (by omega)
    simp only [for_loop, hr, gfb_fb_qvga_update_col]
    refine ⟨by omega, by omega, ?_, ?_⟩
    · intro col row hc hrow
      by_cases hk : col = k
      · subst hk
        have e1 : dst + 2 * (col * yres + row) = dst + 2 * (col * yres) + 2 * row := by omega
        rw [e1]
        exact cin row hrow
      · have hlt : col < k := by omega
        have hm : (col + 1) * yres ≤ k * yres := Nat.mul_le_mul_right yres hlt
        rw [Nat.add_mul] at hm
        rw [cout _ (Or.inl (by omega)), cout _ (Or.inl (by omega))]
        exact hin col row hlt hrow
    · intro i hi
      rw [cout i (by omega)]
      exact hout i (by omega)

theorem getD_memcpy_lt (dst src : List Nat) (n i : Nat) (hs : n = src.length) (hi : i < n) :
    (memcpy dst src n).getD i 0 = src.getD i 0 := by
  unfold memcpy
  subst hs
  rw [List.take_length]
  simp only [List.getD_eq_getElem?_getD]
  rw [List.getElem?_append_left hi]

/-- What `gfb_probe` sets up for the colour panel. -/
theorem gfb_probe_qvga_geometry (env : gfb_probe_env) (data : gfb_data)
    (h : gfb_probe env .GFB_PANEL_TYPE_320_240_16 = some data) :
    data.var_xres = 320 ∧ data.var_yres = 240 ∧ data.fix_line_length = 640 ∧
    data.fix_smem_len = 153600 ∧ data.fb_vbitmap_size = 154112 ∧
    data.fb_vbitmap.length = 154112 := by
  unfold gfb_probe at h
  simp only [] at h
  split_ifs at h
  cases h
  refine ⟨rfl, rfl, rfl, rfl, rfl, ?_⟩
  rw [List.length_map, List.length_range]

/-- The frame of the colour panel, byte by byte. -/
theorem qvga_panel_frame_bytes (env : gfb_probe_env) (data : gfb_data)
    (hprobe : gfb_probe env .GFB_PANEL_TYPE_320_240_16 = some data)
    (surface : Nat → Nat) (wire : List Nat) (hwire : wire.length = 154112) :
    (qvga_panel_frame data surface wire).length = 154112 ∧
    (∀ i, i < 512 → (qvga_panel_frame data surface wire).getD i 0 = hdata.getD i 0) ∧
    (∀ col row, col < 320 → row < 240 →
      (qvga_panel_frame data surface wire).getD (512 + 2 * (col * 240 + row)) 0
        = surface (2 * (row * 320 + col)) ∧
      (qvga_panel_frame data surface wire).getD (512 + 2 * (col * 240 + row) + 1) 0
        = surface (2 * (row * 320 + col) + 1)) := by
  obtain ⟨hx, hy, _, _, hs, _⟩ := gfb_probe_qvga_geometry env data hprobe
  have hm : (memcpy wire hdata 512).length = 154112 := by
    rw [length_memcpy _ _ _ (by rw [hdata_length]) (by omega), hwire]
  obtain ⟨_, bl, bin, bout⟩ := for_loop_qvga_update_col surface 320 240 320
    (memcpy wire hdata 512) 512 (by omega)
  have hf : qvga_panel_frame data surface wire
      = (for_loop 320 (gfb_fb_qvga_update_col surface 320 240)
          (memcpy wire hdata 512, 512)).1 := by
    simp only [qvga_panel_frame, gfb_frame, gfb_fb_qvga_update, hx, hy, hs]
    apply List.take_of_length_le
    rw [bl, hm]
  rw [hf]
  refine ⟨by rw [bl, hm], ?_, ?_⟩
  · intro i hi
    rw [bout i (Or.inl hi), getD_memcpy_lt _ _ _ _ hdata_length.symm hi]
  · intro col row hc hr
    exact bin col row hc hr

theorem qvga_probed_data_probed :
    gfb_probe (probe_ok_env (fun _ => 0) (fun _ => 0) 250) .GFB_PANEL_TYPE_320_240_16
      = some qvga_probed_data := by
  simp only [gfb_probe, probe_ok_env, qvga_probed_data, GFB_UPDATE_RATE_DEFAULT]
  rfl

/-- C11: for the colour panel as `gfb_probe` configures it, whatever the
surface and the previous wire buffer hold, `gfb_fb_qvga_update` leaves a frame
of 240 * 640 + 512 bytes whose first 512 bytes are `hdata` and in which the
16-bit unit `col * 240 + row` after the header is the source pixel of row
`row`, column `col`; every unit of the body is such a pixel and different
pixels go to different units. -/
theorem qvga_update_rotates (env : gfb_probe_env) (data : gfb_data)
    (hprobe : gfb_probe env .GFB_PANEL_TYPE_320_240_16 = some data)
    (surface : Nat → Nat) (wire : List Nat) (hwire : wire.length = 154112) :
    (qvga_panel_frame data surface wire).length = 240 * 640 + 512 ∧
    (qvga_panel_frame data surface wire).take 512 = hdata ∧
    (∀ col row, col < 320 → row < 240 →
      qvga_frame_unit (qvga_panel_frame data surface wire) (col * 240 + row)
        = qvga_surface_unit surface (row * 320 + col)) ∧
    (∀ k, k < 320 * 240 →
      qvga_frame_unit (qvga_panel_frame data surface wire) k
        = qvga_surface_unit surface ((k % 240) * 320 + k / 240)) ∧
    (∀ col row col2 row2, col < 320 → row < 240 → col2 < 320 → row2 < 240 →
      col * 240 + row = col2 * 240 + row2 → col = col2 ∧ row = row2) := by
  obtain ⟨h1, h2, h3⟩ := qvga_panel_frame_bytes env data hprobe surface wire hwire
  have hunit : ∀ col row, col < 320 → row < 240 →
      qvga_frame_unit (qvga_panel_frame data surface wire) (col * 240 + row)
        = qvga_surface_unit surface (row * 320 + col) := by
    intro col row hc hr
    unfold qvga_frame_unit qvga_surface_unit
    rw [(h3 col row hc hr).1, (h3 col row hc hr).2]
  refine ⟨h1, ?_, hunit, ?_, ?_⟩
  · apply List.ext_getElem?
    intro i
    by_cases hi : i < 512
    · rw [List.getElem?_take_of_lt hi,
        getElem_opt_of_getD _ i _ (by omega) (h2 i hi),
        getElem_opt_of_getD hdata i _ (by rw [hdata_length]; exact hi) rfl]
    · rw [List.getElem?_eq_none (by rw [List.length_take, h1]; omega),
        List.getElem?_eq_none (by rw [hdata_length]; omega)]
  · intro k hk
    have e : k = (k / 240) * 240 + k % 240 := by omega
    have h := hunit (k / 240) (k % 240) (by omega) (by omega)
    rw [← e] at h
    exact h
  · intro col row col2 row2 _ hr _ hr2 e
    omega

theorem qvga_update_rotates_witness :
    gfb_probe (probe_ok_env (fun _ => 0) (fun _ => 0) 250) .GFB_PANEL_TYPE_320_240_16
      = some qvga_probed_data ∧
    (List.replicate 154112 0xEE).length = 154112 ∧
    qvga_frame_unit
        (qvga_panel_frame qvga_probed_data (fun i => i % 256) (List.replicate 154112 0xEE))
        (319 * 240 + 239)
      = qvga_surface_unit (fun i => i % 256) (239 * 320 + 319) :=
  ⟨qvga_probed_data_probed, List.length_replicate _ _,
   (qvga_update_rotates _ _ qvga_probed_data_probed (fun i => i % 256)
      (List.replicate 154112 0xEE) (List.length_replicate _ _)).2.2.1 319 239
      (by decide) (by decide)⟩

/-! ## The panel transfer pipeline -/

/-- C20: for every requested rate `n`, `gfb_set_fb_update_rate` stores 1 when
`n = 0`, 30 when `n > 30` and `n` otherwise (a value in 1..30), sets the retry
delay to `HZ` divided by the stored rate, and returns 0. -/
theorem set_update_rate_clamps (HZ : Nat) (data : gfb_data) (n : Nat) :
    (gfb_set_fb_update_rate HZ data n).1.fb_update_rate
      = (if n = 0 then 1 else if n > 30 then 30 else n) ∧
    1 ≤ (gfb_set_fb_update_rate HZ data n).1.fb_update_rate ∧
    (gfb_set_fb_update_rate HZ data n).1.fb_update_rate ≤ 30 ∧
    (gfb_set_fb_update_rate HZ data n).1.fb_defio_delay
      = HZ / (gfb_set_fb_update_rate HZ data n).1.fb_update_rate ∧
    (gfb_set_fb_update_rate HZ data n).2 = 0 := by
  simp only [gfb_set_fb_update_rate, GFB_UPDATE_RATE_LIMIT]
  refine ⟨?_, ?_, ?_, trivial, trivial⟩
  · split_ifs <;> omega
  · split_ifs <;> omega
  · split_ifs <;> omega

theorem gfb_fb_send_virtualized (usb : usb_env) (data : gfb_data)
    (hv : data.virtualized = true) :
    gfb_fb_send usb data
      = { data := data, retval := -ENODEV, usb_submit_urb_called := false,
          submitted := none, schedule_delayed_work := none } := by
  unfold gfb_fb_send
  rw [if_pos hv]

theorem gfb_fb_send_busy (usb : usb_env) (data : gfb_data)
    (hv : data.virtualized = false) (hb : data.fb_vbitmap_busy = true) :
    gfb_fb_send usb data
      = { data := data, retval := 0, usb_submit_urb_called := false,
          submitted := none, schedule_delayed_work := some data.fb_defio_delay } := by
  unfold gfb_fb_send
  simp [hv, hb]

theorem gfb_fb_send_failed (usb : usb_env) (data : gfb_data)
    (hv : data.virtualized = false) (hb : data.fb_vbitmap_busy = false)
    (hp : data.panel_type ≠ .other) (he : usb.ep_present = true)
    (hs : usb.usb_submit_urb < 0) :
    gfb_fb_send usb data
      = { data := data, retval := usb.usb_submit_urb, usb_submit_urb_called := true,
          submitted := none, schedule_delayed_work := none } := by
  unfold gfb_fb_send
  cases h : data.panel_type <;> simp_all

theorem gfb_fb_send_ok (usb : usb_env) (data : gfb_data)
    (hv : data.virtualized = false) (hb : data.fb_vbitmap_busy = false)
    (hp : data.panel_type ≠ .other) (he : usb.ep_present = true)
    (hs : ¬ usb.usb_submit_urb < 0) :
    gfb_fb_send usb data
      = { data := { data with fb_vbitmap_busy := true }, retval := usb.usb_submit_urb,
          usb_submit_urb_called := true, submitted := some (gfb_frame data),
          schedule_delayed_work := none } := by
  unfold gfb_fb_send
  cases h : data.panel_type <;> simp_all

/-- The encoder that `gfb_fb_update` runs before `gfb_fb_send`. -/
theorem gfb_fb_update_eq (usb : usb_env) (data : gfb_data) (hp : data.panel_type ≠ .other) :
    gfb_fb_update usb data = gfb_fb_send usb (gfb_fb_mono_update data) ∨
    gfb_fb_update usb data = gfb_fb_send usb (gfb_fb_qvga_update data) := by
  unfold gfb_fb_update
  cases h : data.panel_type
  · exact Or.inl rfl
  · exact Or.inr rfl
  · exact absurd h hp

/-- Calling `usb_submit_urb` happens only with the slot free, and a transfer
is handed over exactly when the slot goes from free to busy. -/
theorem gfb_fb_send_slot (usb : usb_env) (data : gfb_data) :
    ((gfb_fb_send usb data).usb_submit_urb_called = true → data.fb_vbitmap_busy = false) ∧
    (((gfb_fb_send usb data).submitted.isSome = true ∧ data.fb_vbitmap_busy = false ∧
        (gfb_fb_send usb data).data.fb_vbitmap_busy = true) ∨
      ((gfb_fb_send usb data).submitted = none ∧
        (gfb_fb_send usb data).data.fb_vbitmap_busy = data.fb_vbitmap_busy)) := by
  unfold gfb_fb_send
  cases hv : data.virtualized <;> cases hb : data.fb_vbitmap_busy <;>
    cases hp : data.panel_type <;> cases he : usb.ep_present <;>
    by_cases hs : usb.usb_submit_urb < 0 <;> simp [hv, hb, he, hs]

theorem gfb_fb_update_slot (usb : usb_env) (data : gfb_data) :
    ((gfb_fb_update usb data).usb_submit_urb_called = true → data.fb_vbitmap_busy = false) ∧
    (((gfb_fb_update usb data).submitted.isSome = true ∧ data.fb_vbitmap_busy = false ∧
        (gfb_fb_update usb data).data.fb_vbitmap_busy = true) ∨
      ((gfb_fb_update usb data).submitted = none ∧
        (gfb_fb_update usb data).data.fb_vbitmap_busy = data.fb_vbitmap_busy)) := by
  unfold gfb_fb_update
  cases hp : data.panel_type
  · exact gfb_fb_send_slot usb (gfb_fb_mono_update data)
  · exact gfb_fb_send_slot usb (gfb_fb_qvga_update data)
  · simp

/-- C15: when the slot is free and `usb_submit_urb` fails, `gfb_fb_update`
(like `gfb_fb_send`) returns the error code of the submission, leaves the busy
flag clear, hands over no frame and schedules no deferred retry. -/
theorem failed_submit_leaves_slot_free (usb : usb_env) (data : gfb_data)
    (hv : data.virtualized = false) (hb : data.fb_vbitmap_busy = false)
    (hp : data.panel_type ≠ .other) (he : usb.ep_present = true)
    (hs : usb.usb_submit_urb < 0) :
    (gfb_fb_update usb data).retval = usb.usb_submit_urb ∧
    (gfb_fb_update usb data).usb_submit_urb_called = true ∧
    (gfb_fb_update usb data).data.fb_vbitmap_busy = false ∧
    (gfb_fb_update usb data).submitted = none ∧
    (gfb_fb_update usb data).schedule_delayed_work = none ∧
    gfb_fb_send usb data
      = { data := data, retval := usb.usb_submit_urb, usb_submit_urb_called := true,
          submitted := none, schedule_delayed_work := none } := by
  have key : gfb_fb_update usb data
        = { data := gfb_fb_mono_update data, retval := usb.usb_submit_urb,
            usb_submit_urb_called := true, submitted := none,
            schedule_delayed_work := none } ∨
      gfb_fb_update usb data
        = { data := gfb_fb_qvga_update data, retval := usb.usb_submit_urb,
            usb_submit_urb_called := true, submitted := none,
            schedule_delayed_work := none } := by
    rcases gfb_fb_update_eq usb data hp with e | e
    · exact Or.inl (e.trans (gfb_fb_send_failed usb (gfb_fb_mono_update data) hv hb hp he hs))
    · exact Or.inr (e.trans (gfb_fb_send_failed usb (gfb_fb_qvga_update data) hv hb hp he hs))
  refine ⟨?_, ?_, ?_, ?_, ?_, gfb_fb_send_failed usb data hv hb hp he hs⟩ <;>
    rcases key with e | e <;> rw [e] <;> first | rfl | exact hb

theorem failed_submit_leaves_slot_free_witness :
    all_on_data.virtualized = false ∧ all_on_data.fb_vbitmap_busy = false ∧
    all_on_data.panel_type ≠ .other ∧
    (gfb_fb_update { ep_present := true, usb_submit_urb := -ENOMEM } all_on_data).retval
      = -ENOMEM ∧
    (gfb_fb_update { ep_present := true, usb_submit_urb := -ENOMEM }
      all_on_data).data.fb_vbitmap_busy = false :=
  ⟨rfl, rfl, by decide,
   (failed_submit_leaves_slot_free { ep_present := true, usb_submit_urb := -ENOMEM }
      all_on_data rfl rfl (by decide) rfl (by decide)).1,
   (failed_submit_leaves_slot_free { ep_present := true, usb_submit_urb := -ENOMEM }
      all_on_data rfl rfl (by decide) rfl (by decide)).2.2.1⟩

theorem slot_inv_after (p : gfb_pipeline) (usb : usb_env) (data : gfb_data)
    (hd : data.fb_vbitmap_busy = p.data.fb_vbitmap_busy)
    (queue : List Nat) (h : p.slot_inv) :
    (({ p with deferred_work := queue } : gfb_pipeline).after
      (gfb_fb_update usb data)).slot_inv := by
  unfold gfb_pipeline.slot_inv at h ⊢
  simp only [gfb_pipeline.after]
  rcases (gfb_fb_update_slot usb data).2 with ⟨hs, hb, hb2⟩ | ⟨hs, hb⟩
  · rw [hd] at hb
    rcases h with ⟨h1, h2⟩ | ⟨h1, h2⟩
    · right; simp [hs, hb2, h2]
    · rw [h1] at hb; exact absurd hb (by decide)
  · rw [hd] at hb
    simp only [hs, hb, Option.isSome_none, Bool.false_eq_true, if_false, Nat.add_zero]
    exact h

theorem slot_inv_step (p : gfb_pipeline) (e : gfb_event) (h : p.slot_inv) :
    (p.step e).slot_inv := by
  cases e with
  | update usb => exact slot_inv_after p usb p.data rfl p.deferred_work h
  | draw written usb =>
    exact slot_inv_after p usb { p.data with fb_bitmap := written } rfl p.deferred_work h
  | completion status =>
    simp only [gfb_pipeline.step]
    split
    · exact h
    · next hn =>
      unfold gfb_pipeline.slot_inv at h ⊢
      rcases h with ⟨_, h2⟩ | ⟨_, h2⟩
      · exact absurd h2 hn
      · left; simp [gfb_fb_urb_completion, h2]
  | deferred_io usb =>
    simp only [gfb_pipeline.step]
    split
    · exact h
    · exact slot_inv_after p usb p.data rfl [] h

theorem slot_inv_run (events : List gfb_event) :
    ∀ p : gfb_pipeline, p.slot_inv → (p.run events).slot_inv := by
  induction events with
  | nil => intro p h; exact h
  | cons e es ih =>
    intro p h
    simp only [gfb_pipeline.run, List.foldl_cons]
    exact ih _ (slot_inv_step p e h)

/-- An update with the slot busy: the encoder runs, nothing is submitted and
the deferred work is scheduled with the configured delay. -/
theorem gfb_fb_update_busy (usb : usb_env) (data : gfb_data)
    (hv : data.virtualized = false) (hb : data.fb_vbitmap_busy = true)
    (hp : data.panel_type ≠ .other) :
    (gfb_fb_update usb data).retval = 0 ∧
    (gfb_fb_update usb data).submitted = none ∧
    (gfb_fb_update usb data).usb_submit_urb_called = false ∧
    (gfb_fb_update usb data).schedule_delayed_work = some data.fb_defio_delay ∧
    (gfb_fb_update usb data).data.fb_vbitmap_busy = true ∧
    (gfb_fb_update usb data).data.virtualized = false ∧
    (gfb_fb_update usb data).data.panel_type = data.panel_type ∧
    (gfb_fb_update usb data).data.fb_defio_delay = data.fb_defio_delay := by
  rcases gfb_fb_update_eq usb data hp with e | e
  · rw [e, gfb_fb_send_busy usb (gfb_fb_mono_update data) hv hb]
    exact ⟨rfl, rfl, rfl, rfl, hb, hv, rfl, rfl⟩
  · rw [e, gfb_fb_send_busy usb (gfb_fb_qvga_update data) hv hb]
    exact ⟨rfl, rfl, rfl, rfl, hb, hv, rfl, rfl⟩

/-- An update with the slot free and a submission that succeeds. -/
theorem gfb_fb_update_free (usb : usb_env) (data : gfb_data)
    (hv : data.virtualized = false) (hb : data.fb_vbitmap_busy = false)
    (hp : data.panel_type ≠ .other) (he : usb.ep_present = true)
    (hs : ¬ usb.usb_submit_urb < 0) :
    (gfb_fb_update usb data).retval = usb.usb_submit_urb ∧
    (gfb_fb_update usb data).submitted.isSome = true ∧
    (gfb_fb_update usb data).data.fb_vbitmap_busy = true ∧
    (gfb_fb_update usb data).data.virtualized = false ∧
    (gfb_fb_update usb data).data.panel_type = data.panel_type ∧
    (gfb_fb_update usb data).data.fb_defio_delay = data.fb_defio_delay ∧
    (gfb_fb_update usb data).schedule_delayed_work = none := by
  rcases gfb_fb_update_eq usb data hp with e | e
  · rw [e, gfb_fb_send_ok usb (gfb_fb_mono_update data) hv hb hp he hs]
    exact ⟨rfl, rfl, rfl, hv, rfl, rfl, rfl⟩
  · rw [e, gfb_fb_send_ok usb (gfb_fb_qvga_update data) hv hb hp he hs]
    exact ⟨rfl, rfl, rfl, hv, rfl, rfl, rfl⟩

/-- What `gfb_probe` leaves in the flags of the panel data. -/
theorem gfb_probe_flags (env : gfb_probe_env) (panel_type : gfb_panel_type)
    (data : gfb_data) (h : gfb_probe env panel_type = some data) :
    data.fb_vbitmap_busy = false ∧ data.virtualized = false ∧
    data.panel_type = panel_type ∧ panel_type ≠ .other ∧
    data.fb_count = 0 ∧ data.kref = 2 := by
  unfold gfb_probe at h
  cases panel_type <;> simp only [] at h <;> split_ifs at h <;> cases h <;> simp

/-- C12: from freshly probed panel data, after any sequence of updates,
drawing operations, completions and deferred retries the number of URBs in
flight is at most one and the busy flag is set exactly when one is in flight;
`usb_submit_urb` is called only with the slot free, a frame is handed over
exactly when the flag goes from clear to set, the completion callback clears
it for every status; two `update()` calls in a row with the completion still
outstanding hand over exactly one frame, the second only arming the deferred
retry. -/
theorem at_most_one_transfer_outstanding (env : gfb_probe_env)
    (panel_type : gfb_panel_type) (data : gfb_data)
    (hprobe : gfb_probe env panel_type = some data) :
    (∀ events : List gfb_event,
      ((gfb_pipeline.init data).run events).urbs_in_flight ≤ 1 ∧
      (((gfb_pipeline.init data).run events).data.fb_vbitmap_busy = true ↔
        ((gfb_pipeline.init data).run events).urbs_in_flight = 1)) ∧
    (∀ (usb : usb_env) (d : gfb_data),
      ((gfb_fb_update usb d).usb_submit_urb_called = true → d.fb_vbitmap_busy = false) ∧
      ((gfb_fb_update usb d).submitted.isSome = true →
        d.fb_vbitmap_busy = false ∧ (gfb_fb_update usb d).data.fb_vbitmap_busy = true) ∧
      ((gfb_fb_update usb d).submitted = none →
        (gfb_fb_update usb d).data.fb_vbitmap_busy = d.fb_vbitmap_busy)) ∧
    (∀ (d : gfb_data) (status : Int),
      (gfb_fb_urb_completion d status).fb_vbitmap_busy = false) ∧
    (∀ usb2 : usb_env,
      ((gfb_pipeline.init data).run [.update usb_ok, .update usb2]).frames.length = 1 ∧
      ((gfb_pipeline.init data).run [.update usb_ok, .update usb2]).urbs_in_flight = 1 ∧
      ((gfb_pipeline.init data).run [.update usb_ok, .update usb2]).deferred_work
        = [data.fb_defio_delay] ∧
      (gfb_fb_update usb2 ((gfb_pipeline.init data).run [.update usb_ok]).data).submitted
        = none ∧
      (gfb_fb_update usb2 ((gfb_pipeline.init data).run [.update usb_ok]).data).retval
        = 0) := by
  obtain ⟨hb, hv, hp, hne, _, _⟩ := gfb_probe_flags env panel_type data hprobe
  refine ⟨?_, ?_, ?_, ?_⟩
  · intro events
    have h := slot_inv_run events (gfb_pipeline.init data) (Or.inl ⟨hb, rfl⟩)
    unfold gfb_pipeline.slot_inv at h
    rcases h with ⟨h1, h2⟩ | ⟨h1, h2⟩
    · simp [h1, h2]
    · simp [h1, h2]
  · intro usb d
    refine ⟨(gfb_fb_update_slot usb d).1, ?_, ?_⟩
    · intro hs
      rcases (gfb_fb_update_slot usb d).2 with ⟨_, h1, h2⟩ | ⟨h1, _⟩
      · exact ⟨h1, h2⟩
      · rw [h1] at hs; exact absurd hs (by decide)
    · intro hs
      rcases (gfb_fb_update_slot usb d).2 with ⟨h1, _, _⟩ | ⟨_, h2⟩
      · rw [hs] at h1; exact absurd h1 (by decide)
      · exact h2
  · intro d status
    rfl
  · intro usb2
    have hpd : data.panel_type ≠ .other := by rw [hp]; exact hne
    obtain ⟨a1, a2, a3, a4, a5, a6, a7⟩ := gfb_fb_update_free usb_ok data hv hb hpd rfl (by decide)
    obtain ⟨b1, b2, b3, b4, _, _, _, _⟩ := gfb_fb_update_busy usb2 (gfb_fb_update usb_ok data).data
      a4 a3 (by rw [a5]; exact hpd)
    have e1 : (gfb_pipeline.init data).run [.update usb_ok]
        = (gfb_pipeline.init data).after (gfb_fb_update usb_ok data) := rfl
    have e2 : (gfb_pipeline.init data).run [.update usb_ok, .update usb2]
        = ((gfb_pipeline.init data).after (gfb_fb_update usb_ok data)).after
            (gfb_fb_update usb2 (gfb_fb_update usb_ok data).data) := rfl
    rw [e1, e2]
    simp only [gfb_pipeline.after, gfb_pipeline.init, b1, b2, b4, a6, a7, schedule_delayed_work]
    obtain ⟨f, hf⟩ := Option.isSome_iff_exists.mp a2
    simp [hf]
theorem at_most_one_transfer_outstanding_witness :
    gfb_probe (probe_ok_env all_on_surface (fun _ => 0) 250) .GFB_PANEL_TYPE_160_43_1
      = some all_on_data ∧
    ((gfb_pipeline.init all_on_data).run [.update usb_ok, .update usb_ok]).frames.length = 1 :=
  ⟨all_on_data_probed,
   ((at_most_one_transfer_outstanding _ _ _ all_on_data_probed).2.2.2 usb_ok).1⟩

theorem gfb_fb_update_mono (usb : usb_env) (data : gfb_data)
    (hp : data.panel_type = .GFB_PANEL_TYPE_160_43_1) :
    gfb_fb_update usb data = gfb_fb_send usb (gfb_fb_mono_update data) := by
  unfold gfb_fb_update
  rw [hp]

theorem busy_data_eq :
    busy_data = { gfb_fb_mono_update blank_data with
                  fb_vbitmap_busy := true, fb_bitmap := all_on_surface } := by
  have e2 := gfb_fb_send_ok usb_ok (gfb_fb_mono_update blank_data) rfl rfl (by decide) rfl
    (by decide)
  unfold busy_data
  simp only [gfb_pipeline.run, List.foldl, gfb_pipeline.step, gfb_pipeline.after,
    gfb_pipeline.init, gfb_fb_update_mono usb_ok blank_data rfl, e2]

/-- C13, the code at a failing input: with the frame of a blank surface in
flight (slot busy) and the surface since filled, `gfb_fb_update` submits
nothing, returns 0 and schedules the deferred retry, but it has re-encoded
the wire buffer: byte 32 was 0x00 before the call and is 0xFF after it. -/
theorem update_while_busy_rewrites_wire_buffer :
    busy_data.fb_vbitmap_busy = true ∧
    (gfb_fb_update usb_ok busy_data).submitted = none ∧
    (gfb_fb_update usb_ok busy_data).usb_submit_urb_called = false ∧
    (gfb_fb_update usb_ok busy_data).retval = 0 ∧
    (gfb_fb_update usb_ok busy_data).schedule_delayed_work = some 8 ∧
    busy_data.fb_vbitmap.getD 32 0 = 0x00 ∧
    (gfb_fb_update usb_ok busy_data).data.fb_vbitmap.getD 32 0 = 0xFF ∧
    (gfb_fb_update usb_ok busy_data).data.fb_vbitmap ≠ busy_data.fb_vbitmap := by
  have hvb : busy_data.fb_vbitmap = (gfb_fb_mono_update blank_data).fb_vbitmap := by
    rw [busy_data_eq]
  have hblank := gfb_fb_mono_update_vbitmap blank_data rfl rfl rfl rfl
    (List.length_replicate _ _)
  have hbefore : busy_data.fb_vbitmap.getD 32 0 = 0x00 := by
    rw [hvb, show (32 : Nat) = 32 + 160 * 0 + 0 from rfl,
      hblank.2.2.2 0 0 (by decide) (by decide)]
    decide
  have hl : busy_data.fb_vbitmap.length = 992 := by
    rw [hvb]
    exact hblank.1
  have e : gfb_fb_update usb_ok busy_data
      = { data := gfb_fb_mono_update busy_data, retval := 0, usb_submit_urb_called := false,
          submitted := none, schedule_delayed_work := some 8 } := by
    rw [gfb_fb_update_mono usb_ok busy_data rfl,
      gfb_fb_send_busy usb_ok (gfb_fb_mono_update busy_data) rfl rfl]
    rfl
  have hbusy := gfb_fb_mono_update_vbitmap busy_data rfl rfl rfl rfl hl
  have hafter : (gfb_fb_mono_update busy_data).fb_vbitmap.getD 32 0 = 0xFF := by
    rw [show (32 : Nat) = 32 + 160 * 0 + 0 from rfl,
      hbusy.2.2.2 0 0 (by decide) (by decide)]
    decide
  rw [e]
  refine ⟨rfl, rfl, rfl, rfl, rfl, hbefore, hafter, ?_⟩
  intro h
  have h2 : (gfb_fb_mono_update busy_data).fb_vbitmap.getD 32 0
      = busy_data.fb_vbitmap.getD 32 0 := by
    simp only at h
    rw [h]
  rw [hbefore, hafter] at h2
  exact absurd h2 (by decide)

/-- C16 as stated fails: on the orphaned panel `gfb_fb_update` returns
-ENODEV, and `gfb_fb_write` (after a surface write of 1376 bytes) returns
-ENODEV to its caller. -/
theorem orphaned_update_returns_enodev :
    orphaned_data.virtualized = true ∧
    (gfb_fb_update usb_ok orphaned_data).retval = -19 ∧
    (gfb_fb_write usb_ok orphaned_data 1376 all_on_surface).retval = -19 ∧
    (gfb_fb_write usb_ok orphaned_data 1376 all_on_surface).retval ≠ 0 := by
  have e1 : gfb_fb_update usb_ok orphaned_data
      = gfb_fb_send usb_ok (gfb_fb_mono_update orphaned_data) :=
    gfb_fb_update_mono usb_ok orphaned_data rfl
  have e2 : gfb_fb_write usb_ok orphaned_data 1376 all_on_surface
      = gfb_fb_send usb_ok (gfb_fb_mono_update { orphaned_data with fb_bitmap := all_on_surface }) := by
    unfold gfb_fb_write
    rw [if_pos (by decide)]
    exact gfb_fb_update_mono usb_ok _ rfl
  rw [e1, e2, gfb_fb_send_virtualized usb_ok _ rfl, gfb_fb_send_virtualized usb_ok _ rfl]
  exact ⟨rfl, rfl, rfl, by decide⟩

/-- C16, as the code has it: on an orphaned panel (`virtualized` set) every
`gfb_fb_update` submits nothing, schedules no retry, leaves the busy flag as
it was and returns -ENODEV; `gfb_fb_write` returns that -ENODEV to its caller
unless the surface write itself returned -EFAULT or -EPERM, which it then
returns. -/
theorem orphaned_update_submits_nothing (usb : usb_env) (data : gfb_data)
    (hv : data.virtualized = true) (hp : data.panel_type ≠ .other) :
    (gfb_fb_update usb data).submitted = none ∧
    (gfb_fb_update usb data).usb_submit_urb_called = false ∧
    (gfb_fb_update usb data).schedule_delayed_work = none ∧
    (gfb_fb_update usb data).data.fb_vbitmap_busy = data.fb_vbitmap_busy ∧
    (gfb_fb_update usb data).retval = -ENODEV ∧
    (∀ (r : Int) (written : Nat → Nat),
      (gfb_fb_write usb data r written).submitted = none ∧
      (gfb_fb_write usb data r written).schedule_delayed_work = none ∧
      (gfb_fb_write usb data r written).retval
        = if r = -EFAULT ∨ r = -EPERM then r else -ENODEV) := by
  have key : ∀ d : gfb_data, d.virtualized = true → d.panel_type ≠ .other →
      (gfb_fb_update usb d).submitted = none ∧
      (gfb_fb_update usb d).usb_submit_urb_called = false ∧
      (gfb_fb_update usb d).schedule_delayed_work = none ∧
      (gfb_fb_update usb d).data.fb_vbitmap_busy = d.fb_vbitmap_busy ∧
      (gfb_fb_update usb d).retval = -ENODEV := by
    intro d hdv hdp
    rcases gfb_fb_update_eq usb d hdp with e | e
    · rw [e, gfb_fb_send_virtualized usb (gfb_fb_mono_update d) hdv]
      exact ⟨rfl, rfl, rfl, rfl, rfl⟩
    · rw [e, gfb_fb_send_virtualized usb (gfb_fb_qvga_update d) hdv]
      exact ⟨rfl, rfl, rfl, rfl, rfl⟩
  obtain ⟨k1, k2, k3, k4, k5⟩ := key data hv hp
  refine ⟨k1, k2, k3, k4, k5, ?_⟩
  intro r written
  obtain ⟨w1, _, w3, _, w5⟩ := key { data with fb_bitmap := written } hv hp
  unfold gfb_fb_write
  by_cases hr : r ≠ -EFAULT ∧ r ≠ -EPERM
  · have hn : ¬ (r = -EFAULT ∨ r = -EPERM) := by
      intro h
      rcases h with h | h
      · exact hr.1 h
      · exact hr.2 h
    simp only [if_pos hr, if_neg hn]
    exact ⟨w1, w3, w5⟩
  · have hn : r = -EFAULT ∨ r = -EPERM := by
      by_cases h1 : r = -EFAULT
      · exact Or.inl h1
      · by_cases h2 : r = -EPERM
        · exact Or.inr h2
        · exact absurd ⟨h1, h2⟩ hr
    simp only [if_neg hr, if_pos hn]
    exact ⟨trivial, trivial, trivial⟩

theorem orphaned_update_submits_nothing_witness :
    orphaned_data.virtualized = true ∧ orphaned_data.panel_type ≠ .other ∧
    (gfb_fb_update usb_ok orphaned_data).submitted = none ∧
    (gfb_fb_update usb_ok orphaned_data).retval = -ENODEV :=
  ⟨rfl, by decide,
   (orphaned_update_submits_nothing usb_ok orphaned_data rfl (by decide)).1,
   (orphaned_update_submits_nothing usb_ok orphaned_data rfl (by decide)).2.2.2.2.1⟩

theorem list_eq_of_getD (l1 l2 : List Nat) (hl : l1.length = l2.length)
    (h : ∀ i, i < l1.length → l1.getD i 0 = l2.getD i 0) : l1 = l2 := by
  apply List.ext_getElem hl
  intro i h1 h2
  have := h i h1
  rw [List.getD_eq_getElem _ _ h1, List.getD_eq_getElem _ _ h2] at this
  exact this

/-- The frame of a 160x43 panel depends on the surface only, not on what the
wire buffer held or on the other fields of the panel data. -/
theorem gfb_frame_mono_update_congr (d1 d2 : gfb_data)
    (hx1 : d1.var_xres = 160) (hy1 : d1.var_yres = 43) (hl1 : d1.fix_line_length = 32)
    (hs1 : d1.fb_vbitmap_size = 992) (hv1 : d1.fb_vbitmap.length = 992)
    (hx2 : d2.var_xres = 160) (hy2 : d2.var_yres = 43) (hl2 : d2.fix_line_length = 32)
    (hs2 : d2.fb_vbitmap_size = 992) (hv2 : d2.fb_vbitmap.length = 992)
    (hb : d1.fb_bitmap = d2.fb_bitmap) :
    gfb_frame (gfb_fb_mono_update d1) = gfb_frame (gfb_fb_mono_update d2) := by
  obtain ⟨a1, a2, a3, a4⟩ := gfb_fb_mono_update_vbitmap d1 hx1 hy1 hl1 hs1 hv1
  obtain ⟨b1, b2, b3, b4⟩ := gfb_fb_mono_update_vbitmap d2 hx2 hy2 hl2 hs2 hv2
  have f1 : gfb_frame (gfb_fb_mono_update d1) = (gfb_fb_mono_update d1).fb_vbitmap := by
    unfold gfb_frame
    apply List.take_of_length_le
    rw [a1]
    exact Nat.le_of_eq hs1.symm
  have f2 : gfb_frame (gfb_fb_mono_update d2) = (gfb_fb_mono_update d2).fb_vbitmap := by
    unfold gfb_frame
    apply List.take_of_length_le
    rw [b1]
    exact Nat.le_of_eq hs2.symm
  rw [f1, f2]
  apply list_eq_of_getD _ _ (by rw [a1, b1])
  intro i hi
  rw [a1] at hi
  by_cases h0 : i = 0
  · subst h0
    rw [a2, b2]
  · by_cases h32 : i < 32
    · rw [a3 i (by omega) h32, b3 i (by omega) h32]
    · have e : i = 32 + 160 * ((i - 32) / 160) + (i - 32) % 160 := by omega
      rw [e, a4 _ _ (by omega) (by omega), b4 _ _ (by omega) (by omega), hb]

theorem gfb_fb_update_busy_mono (usb : usb_env) (d : gfb_data)
    (hp : d.panel_type = .GFB_PANEL_TYPE_160_43_1) (hvirt : d.virtualized = false)
    (hbusy : d.fb_vbitmap_busy = true) :
    gfb_fb_update usb d
      = { data := gfb_fb_mono_update d, retval := 0, usb_submit_urb_called := false,
          submitted := none, schedule_delayed_work := some d.fb_defio_delay } := by
  rw [gfb_fb_update_mono usb d hp, gfb_fb_send_busy usb (gfb_fb_mono_update d) hvirt hbusy]
  rfl

/-- A drawing operation on a busy monochrome pipeline: the pipeline stays
busy, nothing is handed over, the surface is the one drawn and exactly one
retry is pending. -/
theorem busy_mono_draw (delay : Nat) (p : gfb_pipeline) (h : p.busy_mono delay)
    (written : Nat → Nat) (usb : usb_env) :
    (p.step (.draw written usb)).busy_mono delay ∧
    (p.step (.draw written usb)).deferred_work = [delay] ∧
    (p.step (.draw written usb)).data.fb_bitmap = written := by
  obtain ⟨hp, hx, hy, hl, hs, hv, hvirt, hbusy, hd, hf, hu, hq⟩ := h
  have hstep : p.step (.draw written usb)
      = p.after (gfb_fb_update usb { p.data with fb_bitmap := written }) := rfl
  have hlen := (gfb_fb_mono_update_vbitmap { p.data with fb_bitmap := written }
    hx hy hl hs hv).1
  have e := gfb_fb_update_busy_mono usb { p.data with fb_bitmap := written } hp hvirt hbusy
  generalize gfb_fb_update usb { p.data with fb_bitmap := written } = r at hstep e
  subst e
  rw [hstep]
  have hdw : schedule_delayed_work p.deferred_work p.data.fb_defio_delay = [delay] := by
    simp only [schedule_delayed_work, hd]
    rcases hq with hq | hq <;> simp [hq]
  refine ⟨⟨hp, hx, hy, hl, hs, hlen, hvirt, hbusy, hd, ?_, ?_, Or.inr hdw⟩, hdw, rfl⟩
  · simp [gfb_pipeline.after, hf]
  · simp [gfb_pipeline.after, hu]

theorem busy_mono_run (delay : Nat) (draws : List ((Nat → Nat) × usb_env)) :
    ∀ p : gfb_pipeline, p.busy_mono delay →
      (p.run (draws.map (fun d => gfb_event.draw d.1 d.2))).busy_mono delay := by
  induction draws with
  | nil => intro p h; exact h
  | cons d ds ih =>
    intro p h
    simp only [List.map_cons, gfb_pipeline.run, List.foldl_cons]
    exact ih _ (busy_mono_draw delay p h d.1 d.2).1

theorem gfb_pipeline_run_append (p : gfb_pipeline) (xs : List gfb_event) (y : gfb_event) :
    p.run (xs ++ [y]) = (p.run xs).step y := by
  simp only [gfb_pipeline.run, List.foldl_append, List.foldl_cons, List.foldl_nil]

/-- The state after the coalesced mutations. -/
theorem coalesce_events_run (env : gfb_probe_env) (data : gfb_data)
    (hprobe : gfb_probe env .GFB_PANEL_TYPE_160_43_1 = some data)
    (surface : Nat → Nat) (wire : List Nat) (hwire : wire.length = 992) (delay : Nat)
    (earlier : List ((Nat → Nat) × usb_env)) (final : Nat → Nat) (usb_final : usb_env) :
    ((gfb_pipeline.in_flight data surface wire delay).run
        (coalesce_events earlier final usb_final)).busy_mono delay ∧
    ((gfb_pipeline.in_flight data surface wire delay).run
        (coalesce_events earlier final usb_final)).deferred_work = [delay] ∧
    ((gfb_pipeline.in_flight data surface wire delay).run
        (coalesce_events earlier final usb_final)).data.fb_bitmap = final := by
  obtain ⟨hx, hy, hl, _, hs, _⟩ := gfb_probe_mono_geometry env data hprobe
  obtain ⟨_, hvirt, hp, _, _, _⟩ := gfb_probe_flags env _ data hprobe
  have h0 : (gfb_pipeline.in_flight data surface wire delay).busy_mono delay :=
    ⟨hp, hx, hy, hl, hs, hwire, hvirt, rfl, rfl, rfl, rfl, Or.inl rfl⟩
  have hE := busy_mono_run delay earlier _ h0
  unfold coalesce_events
  rw [gfb_pipeline_run_append]
  exact busy_mono_draw delay _ hE final usb_final

/-! ## Coalescing on either panel type -/

theorem gfb_fb_update_encode_eq (usb : usb_env) (d : gfb_data)
    (hp : d.panel_type ≠ .other) :
    gfb_fb_update usb d = gfb_fb_send usb (gfb_fb_update_encode d) := by
  unfold gfb_fb_update gfb_fb_update_encode
  cases h : d.panel_type
  · rfl
  · rfl
  · exact absurd h hp

/-- The encoders write the wire buffer only. -/
theorem gfb_fb_update_encode_fields (d : gfb_data) :
    (gfb_fb_update_encode d).panel_type = d.panel_type ∧
    (gfb_fb_update_encode d).var_xres = d.var_xres ∧
    (gfb_fb_update_encode d).var_yres = d.var_yres ∧
    (gfb_fb_update_encode d).fix_line_length = d.fix_line_length ∧
    (gfb_fb_update_encode d).fb_vbitmap_size = d.fb_vbitmap_size ∧
    (gfb_fb_update_encode d).virtualized = d.virtualized ∧
    (gfb_fb_update_encode d).fb_vbitmap_busy = d.fb_vbitmap_busy ∧
    (gfb_fb_update_encode d).fb_defio_delay = d.fb_defio_delay ∧
    (gfb_fb_update_encode d).fb_bitmap = d.fb_bitmap := by
  unfold gfb_fb_update_encode
  split <;> exact ⟨rfl, rfl, rfl, rfl, rfl, rfl, rfl, rfl, rfl⟩

/-- The wire buffer `gfb_fb_qvga_update` leaves for a 320x240 panel with a
wire buffer of 154112 bytes. -/
theorem gfb_fb_qvga_update_vbitmap (d : gfb_data)
    (hx : d.var_xres = 320) (hy : d.var_yres = 240)
    (hv : d.fb_vbitmap.length = 154112) :
    (gfb_fb_qvga_update d).fb_vbitmap.length = 154112 ∧
    (∀ i, i < 512 → (gfb_fb_qvga_update d).fb_vbitmap.getD i 0 = hdata.getD i 0) ∧
    (∀ col row, col < 320 → row < 240 →
      (gfb_fb_qvga_update d).fb_vbitmap.getD (512 + 2 * (col * 240 + row)) 0
        = d.fb_bitmap (2 * (row * 320 + col)) ∧
      (gfb_fb_qvga_update d).fb_vbitmap.getD (512 + 2 * (col * 240 + row) + 1) 0
        = d.fb_bitmap (2 * (row * 320 + col) + 1)) := by
  have hm : (memcpy d.fb_vbitmap hdata 512).length = 154112 := by
    rw [length_memcpy _ _ _ (by rw [hdata_length]) (by omega), hv]
  obtain ⟨_, bl, bin, bout⟩ := for_loop_qvga_update_col d.fb_bitmap 320 240 320
    (memcpy d.fb_vbitmap hdata 512) 512 (by omega)
  have hf : (gfb_fb_qvga_update d).fb_vbitmap
      = (for_loop 320 (gfb_fb_qvga_update_col d.fb_bitmap 320 240)
          (memcpy d.fb_vbitmap hdata 512, 512)).1 := by
    simp only [gfb_fb_qvga_update, hx, hy]
  rw [hf]
  refine ⟨by rw [bl, hm], ?_, ?_⟩
  · intro i hi
    rw [bout i (Or.inl hi), getD_memcpy_lt _ _ _ _ hdata_length.symm hi]
  · intro col row hc hr
    exact bin col row hc hr

/-- The frame of a 320x240 panel depends on the surface only, not on what the
wire buffer held or on the other fields of the panel data. -/
theorem gfb_frame_qvga_update_congr (d1 d2 : gfb_data)
    (hx1 : d1.var_xres = 320) (hy1 : d1.var_yres = 240)
    (hs1 : d1.fb_vbitmap_size = 154112) (hv1 : d1.fb_vbitmap.length = 154112)
    (hx2 : d2.var_xres = 320) (hy2 : d2.var_yres = 240)
    (hs2 : d2.fb_vbitmap_size = 154112) (hv2 : d2.fb_vbitmap.length = 154112)
    (hb : d1.fb_bitmap = d2.fb_bitmap) :
    gfb_frame (gfb_fb_qvga_update d1) = gfb_frame (gfb_fb_qvga_update d2) := by
  obtain ⟨a1, a2, a3⟩ := gfb_fb_qvga_update_vbitmap d1 hx1 hy1 hv1
  obtain ⟨b1, b2, b3⟩ := gfb_fb_qvga_update_vbitmap d2 hx2 hy2 hv2
  have f1 : gfb_frame (gfb_fb_qvga_update d1) = (gfb_fb_qvga_update d1).fb_vbitmap := by
    unfold gfb_frame
    apply List.take_of_length_le
    rw [a1]
    exact Nat.le_of_eq hs1.symm
  have f2 : gfb_frame (gfb_fb_qvga_update d2) = (gfb_fb_qvga_update d2).fb_vbitmap := by
    unfold gfb_frame
    apply List.take_of_length_le
    rw [b1]
    exact Nat.le_of_eq hs2.symm
  rw [f1, f2]
  apply list_eq_of_getD _ _ (by rw [a1, b1])
  intro i hi
  rw [a1] at hi
  by_cases h512 : i < 512
  · rw [a2 i h512, b2 i h512]
  · by_cases hpar : (i - 512) % 2 = 0
    · have e : i = 512 + 2 * (((i - 512) / 2) / 240 * 240 + ((i - 512) / 2) % 240) := by
        omega
      rw [e, (a3 _ _ (by omega) (by omega)).1, (b3 _ _ (by omega) (by omega)).1, hb]
    · have e : i = 512 + 2 * (((i - 512) / 2) / 240 * 240 + ((i - 512) / 2) % 240) + 1 := by
        omega
      rw [e, (a3 _ _ (by omega) (by omega)).2, (b3 _ _ (by omega) (by omega)).2, hb]

/-- On a probed panel of either type the encoder keeps the geometry and the
length of the wire buffer, and the frame it leaves is the frame of the
surface alone. -/
theorem gfb_fb_update_encode_frame (env : gfb_probe_env) (panel_type : gfb_panel_type)
    (data : gfb_data) (hprobe : gfb_probe env panel_type = some data)
    (d : gfb_data) (hs : d.same_panel data) :
    (gfb_fb_update_encode d).same_panel data ∧
    (∀ wire : List Nat, wire.length = data.fb_vbitmap_size →
      gfb_frame (gfb_fb_update_encode d) = panel_frame data d.fb_bitmap wire) := by
  obtain ⟨_, _, hpt, hne, _, _⟩ := gfb_probe_flags env panel_type data hprobe
  obtain ⟨s1, s2, s3, s4, s5, s6⟩ := hs
  obtain ⟨f1, f2, f3, f4, f5, _, _, _, _⟩ := gfb_fb_update_encode_fields d
  cases panel_type with
  | GFB_PANEL_TYPE_160_43_1 =>
    obtain ⟨gx, gy, gl, _, gs, _⟩ := gfb_probe_mono_geometry env data hprobe
    have hdp : d.panel_type = .GFB_PANEL_TYPE_160_43_1 := s1.trans hpt
    have e : gfb_fb_update_encode d = gfb_fb_mono_update d := by
      unfold gfb_fb_update_encode
      rw [hdp]
    have hlen := (gfb_fb_mono_update_vbitmap d (s2.trans gx) (s3.trans gy) (s4.trans gl)
      (s5.trans gs) (s6.trans gs)).1
    refine ⟨⟨f1.trans s1, f2.trans s2, f3.trans s3, f4.trans s4, f5.trans s5, ?_⟩, ?_⟩
    · rw [e, hlen, gs]
    · intro wire hwire
      have e2 : panel_frame data d.fb_bitmap wire
          = gfb_frame (gfb_fb_mono_update
              { data with fb_bitmap := d.fb_bitmap, fb_vbitmap := wire }) := by
        unfold panel_frame gfb_fb_update_encode
        simp only [hpt]
      rw [e, e2]
      exact gfb_frame_mono_update_congr d _ (s2.trans gx) (s3.trans gy) (s4.trans gl)
        (s5.trans gs) (s6.trans gs) gx gy gl gs (hwire.trans gs) rfl
  | GFB_PANEL_TYPE_320_240_16 =>
    obtain ⟨gx, gy, _, _, gs, _⟩ := gfb_probe_qvga_geometry env data hprobe
    have hdp : d.panel_type = .GFB_PANEL_TYPE_320_240_16 := s1.trans hpt
    have e : gfb_fb_update_encode d = gfb_fb_qvga_update d := by
      unfold gfb_fb_update_encode
      rw [hdp]
    have hlen := (gfb_fb_qvga_update_vbitmap d (s2.trans gx) (s3.trans gy)
      (s6.trans gs)).1
    refine ⟨⟨f1.trans s1, f2.trans s2, f3.trans s3, f4.trans s4, f5.trans s5, ?_⟩, ?_⟩
    · rw [e, hlen, gs]
    · intro wire hwire
      have e2 : panel_frame data d.fb_bitmap wire
          = gfb_frame (gfb_fb_qvga_update
              { data with fb_bitmap := d.fb_bitmap, fb_vbitmap := wire }) := by
        unfold panel_frame gfb_fb_update_encode
        simp only [hpt]
      rw [e, e2]
      exact gfb_frame_qvga_update_congr d _ (s2.trans gx) (s3.trans gy)
        (s5.trans gs) (s6.trans gs) gx gy gs (hwire.trans gs) rfl
  | other => exact absurd rfl hne

theorem gfb_fb_update_busy_panel (usb : usb_env) (d : gfb_data)
    (hp : d.panel_type ≠ .other) (hvirt : d.virtualized = false)
    (hbusy : d.fb_vbitmap_busy = true) :
    gfb_fb_update usb d
      = { data := gfb_fb_update_encode d, retval := 0, usb_submit_urb_called := false,
          submitted := none, schedule_delayed_work := some d.fb_defio_delay } := by
  obtain ⟨_, _, _, _, _, f6, f7, f8, _⟩ := gfb_fb_update_encode_fields d
  rw [gfb_fb_update_encode_eq usb d hp,
    gfb_fb_send_busy usb (gfb_fb_update_encode d) (f6.trans hvirt) (f7.trans hbusy), f8]

/-- A drawing operation on a busy pipeline of either panel type: the pipeline
stays busy, nothing is handed over, the surface is the one drawn and exactly
one retry is pending. -/
theorem busy_panel_draw (env : gfb_probe_env) (panel_type : gfb_panel_type)
    (data : gfb_data) (hprobe : gfb_probe env panel_type = some data)
    (delay : Nat) (p : gfb_pipeline) (h : p.busy_panel data delay)
    (written : Nat → Nat) (usb : usb_env) :
    (p.step (.draw written usb)).busy_panel data delay ∧
    (p.step (.draw written usb)).deferred_work = [delay] ∧
    (p.step (.draw written usb)).data.fb_bitmap = written := by
  obtain ⟨_, _, hpt, hne, _, _⟩ := gfb_probe_flags env panel_type data hprobe
  obtain ⟨hs, hvirt, hbusy, hd, hf, hu, hq⟩ := h
  have hp : p.data.panel_type ≠ .other := by
    rw [hs.1, hpt]
    exact hne
  have hstep : p.step (.draw written usb)
      = p.after (gfb_fb_update usb { p.data with fb_bitmap := written }) := rfl
  have hs2 : ({ p.data with fb_bitmap := written } : gfb_data).same_panel data := hs
  have henc := (gfb_fb_update_encode_frame env panel_type data hprobe
    { p.data with fb_bitmap := written } hs2).1
  obtain ⟨_, _, _, _, _, f6, f7, f8, f9⟩ :=
    gfb_fb_update_encode_fields { p.data with fb_bitmap := written }
  have e := gfb_fb_update_busy_panel usb { p.data with fb_bitmap := written } hp hvirt hbusy
  generalize gfb_fb_update usb { p.data with fb_bitmap := written } = r at hstep e
  subst e
  rw [hstep]
  have hdw : schedule_delayed_work p.deferred_work p.data.fb_defio_delay = [delay] := by
    simp only [schedule_delayed_work, hd]
    rcases hq with hq | hq <;> simp [hq]
  refine ⟨⟨henc, f6.trans hvirt, f7.trans hbusy, f8.trans hd, ?_, ?_, Or.inr hdw⟩, hdw, f9⟩
  · simp [gfb_pipeline.after, hf]
  · simp [gfb_pipeline.after, hu]

theorem busy_panel_run (env : gfb_probe_env) (panel_type : gfb_panel_type)
    (data : gfb_data) (hprobe : gfb_probe env panel_type = some data)
    (delay : Nat) (draws : List ((Nat → Nat) × usb_env)) :
    ∀ p : gfb_pipeline, p.busy_panel data delay →
      (p.run (draws.map (fun d => gfb_event.draw d.1 d.2))).busy_panel data delay := by
  induction draws with
  | nil => intro p h; exact h
  | cons d ds ih =>
    intro p h
    simp only [List.map_cons, gfb_pipeline.run, List.foldl_cons]
    exact ih _ (busy_panel_draw env panel_type data hprobe delay p h d.1 d.2).1

/-- The state after the coalesced mutations, on either panel type. -/
theorem coalesce_events_run_panel (env : gfb_probe_env) (panel_type : gfb_panel_type)
    (data : gfb_data) (hprobe : gfb_probe env panel_type = some data)
    (surface : Nat → Nat) (wire : List Nat) (hwire : wire.length = data.fb_vbitmap_size)
    (delay : Nat)
    (earlier : List ((Nat → Nat) × usb_env)) (final : Nat → Nat) (usb_final : usb_env) :
    ((gfb_pipeline.in_flight data surface wire delay).run
        (coalesce_events earlier final usb_final)).busy_panel data delay ∧
    ((gfb_pipeline.in_flight data surface wire delay).run
        (coalesce_events earlier final usb_final)).deferred_work = [delay] ∧
    ((gfb_pipeline.in_flight data surface wire delay).run
        (coalesce_events earlier final usb_final)).data.fb_bitmap = final := by
  obtain ⟨_, hvirt, _, _, _, _⟩ := gfb_probe_flags env _ data hprobe
  have h0 : (gfb_pipeline.in_flight data surface wire delay).busy_panel data delay :=
    ⟨⟨rfl, rfl, rfl, rfl, rfl, hwire⟩, hvirt, rfl, rfl, rfl, rfl, Or.inl rfl⟩
  have hE := busy_panel_run env panel_type data hprobe delay earlier _ h0
  unfold coalesce_events
  rw [gfb_pipeline_run_append]
  exact busy_panel_draw env panel_type data hprobe delay _ hE final usb_final

/-- C14: with a transfer in flight on a probed panel of either type (the
monochrome one or the colour one), after any number `N >= 1` of surface
mutations (each calling `update()`) exactly one deferred retry is pending,
with the configured delay, and nothing has been handed to the USB core; when
the retry runs, before or after the completion, the frame it encodes is the
frame of the final surface (the same whatever the wire buffer held), and if
it runs after the completion that frame is the one submitted.  On the
monochrome panel that frame is `mono_panel_frame`, on the colour panel
`qvga_panel_frame`. -/
theorem busy_mutations_coalesce (env : gfb_probe_env) (panel_type : gfb_panel_type)
    (data : gfb_data)
    (hprobe : gfb_probe env panel_type = some data)
    (surface : Nat → Nat) (wire : List Nat) (hwire : wire.length = data.fb_vbitmap_size)
    (delay : Nat)
    (earlier : List ((Nat → Nat) × usb_env)) (final : Nat → Nat) (usb_final : usb_env) :
    ((gfb_pipeline.in_flight data surface wire delay).run
        (coalesce_events earlier final usb_final)).deferred_work = [delay] ∧
    ((gfb_pipeline.in_flight data surface wire delay).run
        (coalesce_events earlier final usb_final)).frames = [] ∧
    ((gfb_pipeline.in_flight data surface wire delay).run
        (coalesce_events earlier final usb_final)).urbs_in_flight = 1 ∧
    (∀ usb : usb_env,
      gfb_frame (((gfb_pipeline.in_flight data surface wire delay).run
          (coalesce_events earlier final usb_final)).step (.deferred_io usb)).data
        = panel_frame data final wire ∧
      (((gfb_pipeline.in_flight data surface wire delay).run
          (coalesce_events earlier final usb_final)).step (.deferred_io usb)).frames = []) ∧
    (∀ (status : Int) (usb : usb_env), usb.ep_present = true → ¬ usb.usb_submit_urb < 0 →
      ((((gfb_pipeline.in_flight data surface wire delay).run
          (coalesce_events earlier final usb_final)).step (.completion status)).step
            (.deferred_io usb)).frames = [panel_frame data final wire] ∧
      ((((gfb_pipeline.in_flight data surface wire delay).run
          (coalesce_events earlier final usb_final)).step (.completion status)).step
            (.deferred_io usb)).deferred_work = []) ∧
    (∀ wire2 : List Nat, wire2.length = data.fb_vbitmap_size →
      panel_frame data final wire2 = panel_frame data final wire) ∧
    (panel_type = .GFB_PANEL_TYPE_160_43_1 →
      panel_frame data final wire = mono_panel_frame data final wire) ∧
    (panel_type = .GFB_PANEL_TYPE_320_240_16 →
      panel_frame data final wire = qvga_panel_frame data final wire) := by
  obtain ⟨_, _, hpt, hne, _, _⟩ := gfb_probe_flags env panel_type data hprobe
  obtain ⟨hinv, hdw, hsurf⟩ := coalesce_events_run_panel env panel_type data hprobe surface
    wire hwire delay earlier final usb_final
  generalize (gfb_pipeline.in_flight data surface wire delay).run
    (coalesce_events earlier final usb_final) = p at hinv hdw hsurf ⊢
  obtain ⟨hs, hvirt, hbusy, hd, hf, hu, _⟩ := hinv
  have hp : p.data.panel_type ≠ .other := by
    rw [hs.1, hpt]
    exact hne
  have hne2 : ¬ p.deferred_work = [] := by rw [hdw]; simp
  refine ⟨hdw, hf, hu, ?_, ?_, ?_, ?_, ?_⟩
  · intro usb
    have hstep : p.step (.deferred_io usb)
        = ({ p with deferred_work := [] } : gfb_pipeline).after (gfb_fb_update usb p.data) := by
      simp only [gfb_pipeline.step, if_neg hne2, gfb_fb_deferred_io]
    have e := gfb_fb_update_busy_panel usb p.data hp hvirt hbusy
    generalize gfb_fb_update usb p.data = r at hstep e
    subst e
    rw [hstep]
    constructor
    · have := (gfb_fb_update_encode_frame env panel_type data hprobe p.data hs).2 wire hwire
      rw [hsurf] at this
      exact this
    · simp [gfb_pipeline.after, hf]
  · intro status usb he hsub
    have hc : p.step (.completion status)
        = { p with data := gfb_fb_urb_completion p.data status,
                   urbs_in_flight := p.urbs_in_flight - 1 } := by
      simp only [gfb_pipeline.step]
      rw [if_neg (by omega)]
    have hstep : (p.step (.completion status)).step (.deferred_io usb)
        = ({ p with data := gfb_fb_urb_completion p.data status,
                    urbs_in_flight := p.urbs_in_flight - 1,
                    deferred_work := [] } : gfb_pipeline).after
            (gfb_fb_update usb (gfb_fb_urb_completion p.data status)) := by
      rw [hc]
      simp only [gfb_pipeline.step, if_neg hne2, gfb_fb_deferred_io]
    have hs3 : (gfb_fb_urb_completion p.data status).same_panel data := hs
    obtain ⟨g1, _, _, _, _, g6, g7, _, _⟩ :=
      gfb_fb_update_encode_fields (gfb_fb_urb_completion p.data status)
    have e : gfb_fb_update usb (gfb_fb_urb_completion p.data status)
        = gfb_fb_send usb (gfb_fb_update_encode (gfb_fb_urb_completion p.data status)) :=
      gfb_fb_update_encode_eq usb _ hp
    have e2 := gfb_fb_send_ok usb
      (gfb_fb_update_encode (gfb_fb_urb_completion p.data status))
      (g6.trans hvirt) (g7.trans rfl) (by rw [g1]; exact hp) he hsub
    rw [e2] at e
    generalize gfb_fb_update usb (gfb_fb_urb_completion p.data status) = r at hstep e
    subst e
    rw [hstep]
    constructor
    · simp only [gfb_pipeline.after, hf, List.nil_append, Option.toList]
      congr 1
      have := (gfb_fb_update_encode_frame env panel_type data hprobe
        (gfb_fb_urb_completion p.data status) hs3).2 wire hwire
      rw [show (gfb_fb_urb_completion p.data status).fb_bitmap = p.data.fb_bitmap from rfl,
        hsurf] at this
      exact this
    · rfl
  · intro wire2 hwire2
    have hsA : ({ data with fb_bitmap := final, fb_vbitmap := wire2 } : gfb_data).same_panel
        data := ⟨rfl, rfl, rfl, rfl, rfl, hwire2⟩
    exact (gfb_fb_update_encode_frame env panel_type data hprobe _ hsA).2 wire hwire
  · intro hm
    unfold panel_frame mono_panel_frame gfb_fb_update_encode
    simp only [hpt, hm]
  · intro hq
    unfold panel_frame qvga_panel_frame gfb_fb_update_encode
    simp only [hpt, hq]

theorem busy_mutations_coalesce_witness :
    gfb_probe (probe_ok_env (fun _ => 0) (fun _ => 0) 250) .GFB_PANEL_TYPE_320_240_16
      = some qvga_probed_data ∧
    ((List.range 154112).map (fun _ => 0)).length = qvga_probed_data.fb_vbitmap_size ∧
    ((gfb_pipeline.in_flight qvga_probed_data (fun _ => 0)
        ((List.range 154112).map (fun _ => 0)) 8).run
        (coalesce_events [(fun _ => 0x55, usb_ok), (fun _ => 0xAA, usb_ok)] all_on_surface
          usb_ok)).deferred_work = [8] ∧
    panel_frame qvga_probed_data all_on_surface ((List.range 154112).map (fun _ => 0))
      = qvga_panel_frame qvga_probed_data all_on_surface
          ((List.range 154112).map (fun _ => 0)) :=
  ⟨qvga_probed_data_probed, by rw [List.length_map, List.length_range]; rfl,
   (busy_mutations_coalesce _ _ _ qvga_probed_data_probed (fun _ => 0)
      ((List.range 154112).map (fun _ => 0))
      (by rw [List.length_map, List.length_range]; rfl) 8
      [(fun _ => 0x55, usb_ok), (fun _ => 0xAA, usb_ok)] all_on_surface usb_ok).1,
   (busy_mutations_coalesce _ _ _ qvga_probed_data_probed (fun _ => 0)
      ((List.range 154112).map (fun _ => 0))
      (by rw [List.length_map, List.length_range]; rfl) 8
      [(fun _ => 0x55, usb_ok), (fun _ => 0xAA, usb_ok)] all_on_surface usb_ok).2.2.2.2.2.2.2
      rfl⟩

/-! ## Lifetime of the panel data -/

/-- The fields after `gfb_fb_release`. -/
theorem gfb_fb_release_fields (HZ : Nat) (l : gfb_lifetime) :
    (gfb_fb_release HZ l).1.data.fb_count = l.data.fb_count - 1 ∧
    (gfb_fb_release HZ l).1.data.virtualized = l.data.virtualized ∧
    (gfb_fb_release HZ l).1.data.kref = l.data.kref - 1 ∧
    (gfb_fb_release HZ l).1.scheduled
      = l.scheduled + (if l.data.virtualized = true ∧ l.data.fb_count - 1 = 0 then 1 else 0) ∧
    (gfb_fb_release HZ l).1.work_runs = l.work_runs ∧
    (gfb_fb_release HZ l).1.freed = l.freed + (if l.data.kref - 1 = 0 then 1 else 0) ∧
    (gfb_fb_release HZ l).1.free_framebuffer_work
      = (if l.data.virtualized = true ∧ l.data.fb_count - 1 = 0 then
          schedule_delayed_work l.free_framebuffer_work HZ
         else l.free_framebuffer_work) ∧
    (gfb_fb_release HZ l).2 = 0 := by
  unfold gfb_fb_release kref_put schedule_free_framebuffer_work
  by_cases h : l.data.virtualized = true ∧ l.data.fb_count - 1 = 0 <;>
    by_cases hk : l.data.kref - 1 = 0 <;> simp [h, hk]

/-- The fields after `gfb_remove`. -/
theorem gfb_remove_fields (l : gfb_lifetime) :
    (gfb_remove l).data.fb_count = l.data.fb_count ∧
    (gfb_remove l).data.virtualized = true ∧
    (gfb_remove l).data.kref = l.data.kref - 1 ∧
    (gfb_remove l).scheduled = l.scheduled + (if l.data.fb_count = 0 then 1 else 0) ∧
    (gfb_remove l).work_runs = l.work_runs ∧
    (gfb_remove l).freed = l.freed + (if l.data.kref - 1 = 0 then 1 else 0) ∧
    (gfb_remove l).free_framebuffer_work
      = (if l.data.fb_count = 0 then schedule_delayed_work l.free_framebuffer_work 0
         else l.free_framebuffer_work) := by
  unfold gfb_remove kref_put schedule_free_framebuffer_work
  by_cases h : l.data.fb_count = 0 <;> by_cases hk : l.data.kref - 1 = 0 <;> simp [h, hk]

/-- The fields after `gfb_fb_open`. -/
theorem gfb_fb_open_fields (l : gfb_lifetime) :
    (gfb_fb_open l).1.data.fb_count
      = l.data.fb_count + (if l.data.virtualized = true then 0 else 1) ∧
    (gfb_fb_open l).1.data.virtualized = l.data.virtualized ∧
    (gfb_fb_open l).1.data.kref
      = l.data.kref + (if l.data.virtualized = true then 0 else 1) ∧
    (gfb_fb_open l).1.scheduled = l.scheduled ∧
    (gfb_fb_open l).1.work_runs = l.work_runs ∧
    (gfb_fb_open l).1.freed = l.freed ∧
    (gfb_fb_open l).1.free_framebuffer_work = l.free_framebuffer_work ∧
    (gfb_fb_open l).2 = (if l.data.virtualized = true then -ENODEV else 0) := by
  unfold gfb_fb_open
  cases h : l.data.virtualized <;> simp [h]

/-- The fields after the cleanup work has run. -/
theorem gfb_free_framebuffer_work_fields (l : gfb_lifetime) :
    (gfb_free_framebuffer_work l).data.fb_count = l.data.fb_count ∧
    (gfb_free_framebuffer_work l).data.virtualized = l.data.virtualized ∧
    (gfb_free_framebuffer_work l).data.kref = l.data.kref - 1 ∧
    (gfb_free_framebuffer_work l).scheduled = l.scheduled ∧
    (gfb_free_framebuffer_work l).work_runs = l.work_runs + 1 ∧
    (gfb_free_framebuffer_work l).freed = l.freed + (if l.data.kref - 1 = 0 then 1 else 0) ∧
    (gfb_free_framebuffer_work l).free_framebuffer_work = l.free_framebuffer_work ∧
    (gfb_free_framebuffer_work l).fb_info = false := by
  unfold gfb_free_framebuffer_work kref_put
  cases h : l.fb_info <;> by_cases hk : l.data.kref - 1 = 0 <;> simp [h, hk]

theorem lifetime_inv_step (HZ : Nat) (l : gfb_lifetime) (e : gfb_lifetime_event)
    (h : l.inv) (he : l.enabled e = true) : (l.step HZ e).inv := by
  obtain ⟨h1, h2, h3, h4, h5, h6⟩ := h
  cases e with
  | fb_open =>
    obtain ⟨f1, f2, f3, f4, f5, f6, f7, _⟩ := gfb_fb_open_fields l
    simp only [gfb_lifetime.step, gfb_lifetime.inv, f1, f2, f3, f4, f5, f6, f7]
    cases hv : l.data.virtualized
    · simp only [hv, Bool.false_eq_true, if_false, false_and] at h2 h3 ⊢
      have hk : l.data.kref ≠ 0 := by omega
      rw [if_neg hk] at h5
      refine ⟨by omega, by push_cast; omega, h3, h4, ?_, h6⟩
      rw [h5, if_neg (by omega)]
    · simp only [hv, if_true, true_and, Nat.add_zero, Int.add_zero] at h2 h3 ⊢
      exact ⟨h1, h2, h3, h4, h5, h6⟩
  | fb_release =>
    have hc : 0 < l.data.fb_count := by
      simpa [gfb_lifetime.enabled] using he
    have hs0 : l.scheduled = 0 := by
      rw [h3, if_neg (by intro hh; omega)]
    have hr0 : l.work_runs = 0 := by omega
    have hq : l.free_framebuffer_work = [] := by
      by_contra hne
      have := h6.mp hne
      omega
    have hk : 2 ≤ l.data.kref := by
      split_ifs at h2 <;> omega
    have hf : l.freed = 0 := by
      rw [h5, if_neg (by omega)]
    obtain ⟨f1, f2, f3, f4, f5, f6, f7, _⟩ := gfb_fb_release_fields HZ l
    simp only [gfb_lifetime.step, gfb_lifetime.inv, f1, f2, f3, f4, f5, f6, f7, hs0, hr0, hf,
      hq, schedule_delayed_work, if_true]
    refine ⟨by omega, ?_, by simp, by simp, by simp, ?_⟩
    · split_ifs at h2 ⊢ <;> push_cast <;> omega
    · split_ifs <;> simp
  | remove =>
    have hv : l.data.virtualized = false := by
      simpa [gfb_lifetime.enabled] using he
    have hs0 : l.scheduled = 0 := by
      rw [h3, if_neg (by intro hh; rw [hv] at hh; exact absurd hh.1 (by decide))]
    have hr0 : l.work_runs = 0 := by omega
    have hq : l.free_framebuffer_work = [] := by
      by_contra hne
      have := h6.mp hne
      omega
    simp only [hv, Bool.false_eq_true, if_false] at h2
    have hk : 2 ≤ l.data.kref := by omega
    have hf : l.freed = 0 := by
      rw [h5, if_neg (by omega)]
    obtain ⟨f1, f2, f3, f4, f5, f6, f7⟩ := gfb_remove_fields l
    simp only [gfb_lifetime.step, gfb_lifetime.inv, f1, f2, f3, f4, f5, f6, f7, hs0, hr0, hf,
      hq, schedule_delayed_work, if_true, true_and]
    refine ⟨h1, by push_cast; omega, by simp, by simp, by simp, ?_⟩
    split_ifs <;> simp
  | work =>
    have hne : l.free_framebuffer_work ≠ [] := by
      simpa [gfb_lifetime.enabled] using he
    have hlt := h6.mp hne
    have hs1 : l.scheduled = 1 := by
      split_ifs at h3 <;> omega
    have hr0 : l.work_runs = 0 := by omega
    have hvc : l.data.virtualized = true ∧ l.data.fb_count = 0 := by
      by_contra hh
      rw [if_neg hh] at h3
      omega
    simp only [hvc.1, if_true, hvc.2, hr0] at h2
    have hk : l.data.kref = 1 := by omega
    have hf : l.freed = 0 := by
      rw [h5, if_neg (by omega)]
    obtain ⟨f1, f2, f3, f4, f5, f6, f7, _⟩ :=
      gfb_free_framebuffer_work_fields { l with free_framebuffer_work := [] }
    simp only [gfb_lifetime.step, gfb_lifetime.inv, f1, f2, f3, f4, f5, f6, f7]
    simp only [hk, hf, hr0, hs1, hvc.1, hvc.2]
    simp

theorem lifetime_inv_run (HZ : Nat) (events : List gfb_lifetime_event) :
    ∀ l : gfb_lifetime, l.inv → l.well_formed HZ events = true → (l.run HZ events).inv := by
  induction events with
  | nil => intro l h _; exact h
  | cons e es ih =>
    intro l h hwf
    simp only [gfb_lifetime.well_formed, Bool.and_eq_true] at hwf
    simp only [gfb_lifetime.run, List.foldl_cons]
    exact ih _ (lifetime_inv_step HZ l e h hwf.1) hwf.2

theorem lifetime_virtualized_run (HZ : Nat) (events : List gfb_lifetime_event) :
    ∀ l : gfb_lifetime,
      ((l.run HZ events).data.virtualized = true ↔
        (l.data.virtualized = true ∨ gfb_lifetime_event.remove ∈ events)) := by
  induction events with
  | nil => intro l; simp [gfb_lifetime.run]
  | cons e es ih =>
    intro l
    simp only [gfb_lifetime.run, List.foldl_cons, List.mem_cons]
    have h := ih (l.step HZ e)
    simp only [gfb_lifetime.run] at h
    rw [h]
    cases e with
    | fb_open =>
      simp only [gfb_lifetime.step, (gfb_fb_open_fields l).2.1]
      simp
    | fb_release =>
      simp only [gfb_lifetime.step, (gfb_fb_release_fields HZ l).2.1]
      simp
    | remove =>
      simp only [gfb_lifetime.step, (gfb_remove_fields l).2.1]
      simp
    | work =>
      simp only [gfb_lifetime.step, (gfb_free_framebuffer_work_fields _).2.1]
      simp

/-! ## Lifetime of the panel data, in terms of the events -/

/-- The number of runs of the cleanup work is the number of `work` events. -/
theorem lifetime_work_runs_run (HZ : Nat) (events : List gfb_lifetime_event) :
    ∀ l : gfb_lifetime,
      (l.run HZ events).work_runs = l.work_runs + events.count .work := by
  induction events with
  | nil => intro l; simp [gfb_lifetime.run]
  | cons e es ih =>
    intro l
    have h := ih (l.step HZ e)
    simp only [gfb_lifetime.run, List.foldl_cons] at h ⊢
    rw [h]
    cases e with
    | fb_open =>
      simp only [gfb_lifetime.step, (gfb_fb_open_fields l).2.2.2.2.1]
      simp
    | fb_release =>
      simp only [gfb_lifetime.step, (gfb_fb_release_fields HZ l).2.2.2.2.1]
      simp
    | remove =>
      simp only [gfb_lifetime.step, (gfb_remove_fields l).2.2.2.2.1]
      simp
    | work =>
      simp only [gfb_lifetime.step, (gfb_free_framebuffer_work_fields _).2.2.2.2.1]
      simp
      omega

/-- The framebuffer is released (`data->fb_info` cleared) by a run of the
cleanup work and by nothing else. -/
theorem lifetime_fb_info_run (HZ : Nat) (events : List gfb_lifetime_event) :
    ∀ l : gfb_lifetime,
      ((l.run HZ events).fb_info = false ↔
        (l.fb_info = false ∨ gfb_lifetime_event.work ∈ events)) := by
  induction events with
  | nil => intro l; simp [gfb_lifetime.run]
  | cons e es ih =>
    intro l
    have h := ih (l.step HZ e)
    simp only [gfb_lifetime.run, List.foldl_cons, List.mem_cons] at h ⊢
    rw [h]
    cases e with
    | fb_open =>
      have e1 : (gfb_fb_open l).1.fb_info = l.fb_info := by
        unfold gfb_fb_open
        split_ifs <;> rfl
      simp only [gfb_lifetime.step, e1]
      simp
    | fb_release =>
      have e1 : (gfb_fb_release HZ l).1.fb_info = l.fb_info := by
        unfold gfb_fb_release kref_put schedule_free_framebuffer_work
        simp only []
        split_ifs <;> rfl
      simp only [gfb_lifetime.step, e1]
      simp
    | remove =>
      have e1 : (gfb_remove l).fb_info = l.fb_info := by
        unfold gfb_remove kref_put schedule_free_framebuffer_work
        simp only []
        split_ifs <;> rfl
      simp only [gfb_lifetime.step, e1]
      simp
    | work =>
      simp only [gfb_lifetime.step, (gfb_free_framebuffer_work_fields _).2.2.2.2.2.2.2]
      simp

/-- The open-handle count of the panel data follows the events: it grows with
each open made while attached and shrinks with each close. -/
theorem lifetime_fb_count_run (HZ : Nat) (events : List gfb_lifetime_event) :
    ∀ l : gfb_lifetime,
      (l.run HZ events).data.fb_count
        = l.data.fb_count
          + (if l.data.virtualized = true then 0
             else ((events.takeWhile (fun e => decide (e ≠ gfb_lifetime_event.remove))).count
                    gfb_lifetime_event.fb_open : Int))
          - (events.count gfb_lifetime_event.fb_release : Int) := by
  induction events with
  | nil => intro l; simp [gfb_lifetime.run]
  | cons e es ih =>
    intro l
    have h := ih (l.step HZ e)
    simp only [gfb_lifetime.run, List.foldl_cons] at h ⊢
    rw [h]
    cases e with
    | fb_open =>
      obtain ⟨f1, f2, _⟩ := gfb_fb_open_fields l
      simp only [gfb_lifetime.step, f1, f2]
      cases hv : l.data.virtualized <;> simp +decide [hv, List.takeWhile_cons]
      omega
    | fb_release =>
      obtain ⟨f1, f2, _⟩ := gfb_fb_release_fields HZ l
      simp only [gfb_lifetime.step, f1, f2]
      cases hv : l.data.virtualized <;> simp +decide [hv, List.takeWhile_cons] <;> omega
    | remove =>
      obtain ⟨f1, f2, _⟩ := gfb_remove_fields l
      simp only [gfb_lifetime.step, f1, f2]
      cases hv : l.data.virtualized <;> simp +decide [hv, List.takeWhile_cons]
    | work =>
      obtain ⟨f1, f2, _⟩ :=
        gfb_free_framebuffer_work_fields { l with free_framebuffer_work := [] }
      simp only [gfb_lifetime.step, f1, f2]
      cases hv : l.data.virtualized <;> simp +decide [hv, List.takeWhile_cons]

/-- A well-formed sequence detaches the device at most once. -/
theorem lifetime_count_remove (HZ : Nat) (events : List gfb_lifetime_event) :
    ∀ l : gfb_lifetime, l.well_formed HZ events = true →
      events.count .remove ≤ (if l.data.virtualized = true then 0 else 1) := by
  induction events with
  | nil => intro l _; simp
  | cons e es ih =>
    intro l hwf
    simp only [gfb_lifetime.well_formed, Bool.and_eq_true] at hwf
    have h := ih (l.step HZ e) hwf.2
    cases e with
    | fb_open =>
      simp only [gfb_lifetime.step, (gfb_fb_open_fields l).2.1] at h
      simpa using h
    | fb_release =>
      simp only [gfb_lifetime.step, (gfb_fb_release_fields HZ l).2.1] at h
      simpa using h
    | remove =>
      have hv : l.data.virtualized = false := by
        simpa [gfb_lifetime.enabled] using hwf.1
      simp only [gfb_lifetime.step, (gfb_remove_fields l).2.1, if_true] at h
      simp [hv]
      omega
    | work =>
      simp only [gfb_lifetime.step, (gfb_free_framebuffer_work_fields _).2.1] at h
      simpa using h

theorem lifetime_well_formed_append (HZ : Nat) (events : List gfb_lifetime_event)
    (e : gfb_lifetime_event) :
    ∀ l : gfb_lifetime,
      l.well_formed HZ (events ++ [e])
        = (l.well_formed HZ events && (l.run HZ events).enabled e) := by
  induction events with
  | nil => intro l; simp [gfb_lifetime.well_formed, gfb_lifetime.run]
  | cons x xs ih =>
    intro l
    have h := ih (l.step HZ x)
    show (l.enabled x && gfb_lifetime.well_formed HZ (l.step HZ x) (xs ++ [e])) = _
    rw [h]
    simp only [gfb_lifetime.well_formed, gfb_lifetime.run, List.foldl_cons, Bool.and_assoc]

theorem lifetime_run_append (HZ : Nat) (events : List gfb_lifetime_event)
    (e : gfb_lifetime_event) (l : gfb_lifetime) :
    l.run HZ (events ++ [e]) = (l.run HZ events).step HZ e := by
  simp only [gfb_lifetime.run, List.foldl_append, List.foldl_cons, List.foldl_nil]

/-- What a well-formed sequence of lifetime events leaves behind, in terms of
the events. -/
theorem lifetime_after_events (env : gfb_probe_env)
    (panel_type : gfb_panel_type) (data : gfb_data)
    (hprobe : gfb_probe env panel_type = some data) (HZ : Nat)
    (events : List gfb_lifetime_event)
    (hwf : (gfb_lifetime.init data).well_formed HZ events = true) :
    ((gfb_lifetime.init data).run HZ events).scheduled ≤ 1 ∧
    ((gfb_lifetime.init data).run HZ events).freed ≤ 1 ∧
    (((gfb_lifetime.init data).run HZ events).scheduled = 1 ↔
      (gfb_lifetime_event.remove ∈ events ∧
        ((gfb_lifetime.init data).run HZ events).data.fb_count = 0)) ∧
    (((gfb_lifetime.init data).run HZ events).freed = 1 ↔
      (gfb_lifetime_event.remove ∈ events ∧
        ((gfb_lifetime.init data).run HZ events).data.fb_count = 0 ∧
        ((gfb_lifetime.init data).run HZ events).work_runs = 1)) ∧
    (((gfb_lifetime.init data).run HZ events).data.kref = 0 ↔
      ((gfb_lifetime.init data).run HZ events).freed = 1) ∧
    (∀ l : gfb_lifetime,
      (gfb_remove l).scheduled = l.scheduled + (if l.data.fb_count = 0 then 1 else 0)) ∧
    (∀ l : gfb_lifetime,
      (gfb_fb_release HZ l).1.scheduled
        = l.scheduled +
            (if l.data.virtualized = true ∧ l.data.fb_count - 1 = 0 then 1 else 0)) ∧
    (∀ l : gfb_lifetime, (gfb_fb_open l).1.scheduled = l.scheduled) ∧
    (∀ l : gfb_lifetime, (gfb_free_framebuffer_work l).scheduled = l.scheduled) ∧
    ((gfb_lifetime.init data).run HZ events).work_runs = events.count .work ∧
    ((gfb_lifetime.init data).run HZ events).data.fb_count
      = gfb_lifetime_event.open_handles events ∧
    events.count .remove ≤ 1 ∧
    events.count .work ≤ 1 ∧
    (gfb_lifetime_event.work ∈ events →
      gfb_lifetime_event.remove ∈ events ∧ gfb_lifetime_event.open_handles events = 0) ∧
    (((gfb_lifetime.init data).run HZ events).scheduled = 1 ↔
      (gfb_lifetime_event.remove ∈ events ∧
        gfb_lifetime_event.open_handles events = 0)) ∧
    (((gfb_lifetime.init data).run HZ events).freed = 1 ↔
      (gfb_lifetime_event.remove ∈ events ∧
        gfb_lifetime_event.open_handles events = 0 ∧
        gfb_lifetime_event.work ∈ events)) ∧
    (((gfb_lifetime.init data).run HZ events).data.kref : Int)
      = 2 + gfb_lifetime_event.open_handles events
          - (if gfb_lifetime_event.remove ∈ events then 1 else 0)
          - (events.count .work : Int) ∧
    (((gfb_lifetime.init data).run HZ events).free_framebuffer_work ≠ [] ↔
      (gfb_lifetime_event.remove ∈ events ∧
        gfb_lifetime_event.open_handles events = 0 ∧
        gfb_lifetime_event.work ∉ events)) ∧
    (((gfb_lifetime.init data).run HZ events).fb_info = false ↔
      gfb_lifetime_event.work ∈ events) ∧
    ((gfb_lifetime_event.remove ∈ events ∧
        gfb_lifetime_event.open_handles events = 0 ∧
        gfb_lifetime_event.work ∉ events) →
      (gfb_lifetime.init data).well_formed HZ (events ++ [.work]) = true ∧
      ((gfb_lifetime.init data).run HZ events).freed = 0 ∧
      ((gfb_lifetime.init data).run HZ (events ++ [.work])).freed = 1 ∧
      ((gfb_lifetime.init data).run HZ (events ++ [.work])).data.kref = 0 ∧
      ((gfb_lifetime.init data).run HZ (events ++ [.work])).fb_info = false) := by
  obtain ⟨_, hv, _, _, hc, hk⟩ := gfb_probe_flags env panel_type data hprobe
  have h0 : (gfb_lifetime.init data).inv := by
    unfold gfb_lifetime.inv gfb_lifetime.init
    simp [hv, hc, hk]
  obtain ⟨h1, h2, h3, h4, h5, h6⟩ := lifetime_inv_run HZ events _ h0 hwf
  have hvirt := lifetime_virtualized_run HZ events (gfb_lifetime.init data)
  have hv0 : (gfb_lifetime.init data).data.virtualized = false := hv
  simp only [hv0, Bool.false_eq_true, false_or] at hvirt
  have hwr := lifetime_work_runs_run HZ events (gfb_lifetime.init data)
  have hwr0 : (gfb_lifetime.init data).work_runs = 0 := rfl
  rw [hwr0, Nat.zero_add] at hwr
  have hfc := lifetime_fb_count_run HZ events (gfb_lifetime.init data)
  have hc0 : (gfb_lifetime.init data).data.fb_count = 0 := hc
  rw [hc0, hv0] at hfc
  simp only [Bool.false_eq_true, if_false, Int.zero_add] at hfc
  have hfc2 : ((gfb_lifetime.init data).run HZ events).data.fb_count
      = gfb_lifetime_event.open_handles events := hfc
  have hrm := lifetime_count_remove HZ events (gfb_lifetime.init data) hwf
  rw [hv0] at hrm
  simp only [Bool.false_eq_true, if_false] at hrm
  have hfi := lifetime_fb_info_run HZ events (gfb_lifetime.init data)
  have hfi0 : (gfb_lifetime.init data).fb_info = true := rfl
  simp only [hfi0, Bool.true_eq_false, false_or] at hfi
  have hwfa := lifetime_well_formed_append HZ events .work (gfb_lifetime.init data)
  have hra := lifetime_run_append HZ events .work (gfb_lifetime.init data)
  have hstepw : ∀ L : gfb_lifetime,
      (L.step HZ .work).freed = L.freed + (if L.data.kref - 1 = 0 then 1 else 0) ∧
      (L.step HZ .work).data.kref = L.data.kref - 1 ∧
      (L.step HZ .work).fb_info = false := by
    intro L
    obtain ⟨_, _, f3, _, _, f6, _, f8⟩ :=
      gfb_free_framebuffer_work_fields { L with free_framebuffer_work := [] }
    exact ⟨f6, f3, f8⟩
  have hmemw : gfb_lifetime_event.work ∈ events ↔ 0 < events.count .work :=
    List.count_pos_iff.symm
  generalize gfb_lifetime_event.open_handles events = oh at hfc2 ⊢
  generalize (gfb_lifetime.init data).run HZ (events ++ [.work]) = L2 at hra ⊢
  generalize (gfb_lifetime.init data).well_formed HZ (events ++ [.work]) = w2 at hwfa ⊢
  generalize (gfb_lifetime.init data).run HZ events = L at *
  have hsched : L.scheduled ≤ 1 := by
    rw [h3]; split_ifs <;> omega
  have hcw : events.count .work ≤ 1 := by omega
  have hfreed : L.freed = 1 ↔
      (gfb_lifetime_event.remove ∈ events ∧ L.data.fb_count = 0 ∧ L.work_runs = 1) := by
    rw [← hvirt]
    constructor
    · intro hf
      rw [h5] at hf
      have hk0 : L.data.kref = 0 := by
        by_contra hne
        rw [if_neg hne] at hf
        omega
      by_cases hvv : L.data.virtualized = true
      · simp only [hvv, if_true, hk0] at h2
        have : L.data.fb_count = 0 ∧ L.work_runs = 1 := by
          push_cast at h2
          omega
        exact ⟨hvv, this.1, this.2⟩
      · have hs0 : L.scheduled = 0 := by
          rw [h3, if_neg (fun hh => hvv hh.1)]
        simp only [hvv, if_false, hk0] at h2
        push_cast at h2
        omega
    · intro ⟨hvv, hcc, hrr⟩
      simp only [hvv, if_true, hcc, hrr] at h2
      have hk0 : L.data.kref = 0 := by
        push_cast at h2
        omega
      rw [h5, if_pos hk0]
  have hschedi : L.scheduled = 1 ↔
      (gfb_lifetime_event.remove ∈ events ∧ L.data.fb_count = 0) := by
    rw [h3, ← hvirt]
    by_cases hc2 : L.data.virtualized = true ∧ L.data.fb_count = 0
    · simp [hc2]
    · simp [hc2]
  have hpend : L.free_framebuffer_work ≠ [] ↔
      (gfb_lifetime_event.remove ∈ events ∧ oh = 0 ∧ gfb_lifetime_event.work ∉ events) := by
    rw [h6, hmemw, ← hfc2]
    constructor
    · intro hlt
      have hs1 : L.scheduled = 1 := by omega
      have := hschedi.mp hs1
      exact ⟨this.1, this.2, by omega⟩
    · intro ⟨hr, hz, hnw⟩
      have hs1 := hschedi.mpr ⟨hr, hz⟩
      omega
  refine ⟨hsched, ?_, hschedi, hfreed, ?_, fun l => (gfb_remove_fields l).2.2.2.1,
    fun l => (gfb_fb_release_fields HZ l).2.2.2.1, fun l => (gfb_fb_open_fields l).2.2.2.1,
    fun l => (gfb_free_framebuffer_work_fields l).2.2.2.1, hwr, hfc2, hrm, hcw, ?_, ?_, ?_,
    ?_, hpend, hfi, ?_⟩
  · rw [h5]; split_ifs <;> omega
  · rw [h5]
    split_ifs with hk0
    · simp [hk0]
    · simp [hk0]
  · intro hw
    have hpos := hmemw.mp hw
    have hs1 : L.scheduled = 1 := by omega
    have := hschedi.mp hs1
    exact ⟨this.1, hfc2 ▸ this.2⟩
  · rw [hschedi, hfc2]
  · rw [hfreed, hfc2, hmemw, hwr]
    constructor
    · intro ⟨a, b, c⟩
      exact ⟨a, b, by omega⟩
    · intro ⟨a, b, c⟩
      exact ⟨a, b, by omega⟩
  · rw [← hfc2]
    by_cases hvv : L.data.virtualized = true
    · have hr := hvirt.mp hvv
      simp only [hvv, if_true] at h2
      rw [if_pos hr]
      omega
    · have hr : gfb_lifetime_event.remove ∉ events := fun hh => hvv (hvirt.mpr hh)
      simp only [hvv, if_false] at h2
      rw [if_neg hr]
      push_cast at h2
      omega
  · intro hcond
    have hne := hpend.mpr hcond
    obtain ⟨hr, hz, hnw⟩ := hcond
    have hen : L.enabled .work = true := by
      simp [gfb_lifetime.enabled, hne]
    have hw0 : events.count .work = 0 := by
      by_contra hh
      exact hnw (hmemw.mpr (by omega))
    have hvv := hvirt.mpr hr
    have hfc0 : L.data.fb_count = 0 := hfc2.trans hz
    simp only [hvv, if_true, hfc0, hwr, hw0] at h2
    have hk1 : L.data.kref = 1 := by
      push_cast at h2
      omega
    have hf0 : L.freed = 0 := by
      rw [h5, if_neg (by omega)]
    obtain ⟨g1, g2, g3⟩ := hstepw L
    refine ⟨by rw [hwfa, hwf, hen]; rfl, hf0, ?_, ?_, ?_⟩
    · rw [hra, g1, hf0, hk1]
      rfl
    · rw [hra, g2, hk1]
    · rw [hra, g3]

theorem lifetime_well_formed_take (HZ : Nat) (events : List gfb_lifetime_event) :
    ∀ (n : Nat) (l : gfb_lifetime), l.well_formed HZ events = true →
      l.well_formed HZ (events.take n) = true := by
  induction events with
  | nil => intro n l h; simpa using h
  | cons e es ih =>
    intro n l h
    cases n with
    | zero => rfl
    | succ k =>
      simp only [gfb_lifetime.well_formed, Bool.and_eq_true] at h
      simp only [List.take_succ_cons, gfb_lifetime.well_formed, Bool.and_eq_true]
      exact ⟨h.1, ih k _ h.2⟩

/-- C17: for every well-formed sequence of opens, closes, the detach and runs
of the cleanup work after `gfb_probe` (a close needs an open handle, the
device is detached at most once, the work runs only while pending).  In terms
of the events alone: the device is detached at most once and the work runs at
most once, and only after the detach and the last close; the cleanup work has
been scheduled exactly once as soon as the detach has happened and no handle
is open (by `gfb_remove` when no handle is open then, otherwise by the
`gfb_fb_release` that closes the last handle; opens and the work itself never
schedule it) and never otherwise; it is then pending until it runs, it can
run, and its run releases the framebuffer and drops the last reference;
`gfb_free_data` has run exactly once when the detach, the last close and the
run of the cleanup work have all happened, and not at all before; the
reference count is 2 plus the open handles, minus one for the detach and one
for the run of the work.  After every prefix of the sequence (its first `n`
events) the work has been scheduled exactly when the detach has happened and
no handle is open, and `gfb_free_data` has run exactly when moreover the work
has run. -/
theorem cleanup_scheduled_and_freed_once (env : gfb_probe_env)
    (panel_type : gfb_panel_type) (data : gfb_data)
    (hprobe : gfb_probe env panel_type = some data) (HZ : Nat)
    (events : List gfb_lifetime_event)
    (hwf : (gfb_lifetime.init data).well_formed HZ events = true) :
    (∀ n : Nat,
      ((gfb_lifetime.init data).run HZ (events.take n)).scheduled
        = (if gfb_lifetime_event.remove ∈ events.take n ∧
              gfb_lifetime_event.open_handles (events.take n) = 0 then 1 else 0) ∧
      ((gfb_lifetime.init data).run HZ (events.take n)).freed
        = (if gfb_lifetime_event.remove ∈ events.take n ∧
              gfb_lifetime_event.open_handles (events.take n) = 0 ∧
              gfb_lifetime_event.work ∈ events.take n then 1 else 0)) ∧
    ((gfb_lifetime.init data).run HZ events).scheduled ≤ 1 ∧
    ((gfb_lifetime.init data).run HZ events).freed ≤ 1 ∧
    (((gfb_lifetime.init data).run HZ events).scheduled = 1 ↔
      (gfb_lifetime_event.remove ∈ events ∧
        ((gfb_lifetime.init data).run HZ events).data.fb_count = 0)) ∧
    (((gfb_lifetime.init data).run HZ events).freed = 1 ↔
      (gfb_lifetime_event.remove ∈ events ∧
        ((gfb_lifetime.init data).run HZ events).data.fb_count = 0 ∧
        ((gfb_lifetime.init data).run HZ events).work_runs = 1)) ∧
    (((gfb_lifetime.init data).run HZ events).data.kref = 0 ↔
      ((gfb_lifetime.init data).run HZ events).freed = 1) ∧
    (∀ l : gfb_lifetime,
      (gfb_remove l).scheduled = l.scheduled + (if l.data.fb_count = 0 then 1 else 0)) ∧
    (∀ l : gfb_lifetime,
      (gfb_fb_release HZ l).1.scheduled
        = l.scheduled +
            (if l.data.virtualized = true ∧ l.data.fb_count - 1 = 0 then 1 else 0)) ∧
    (∀ l : gfb_lifetime, (gfb_fb_open l).1.scheduled = l.scheduled) ∧
    (∀ l : gfb_lifetime, (gfb_free_framebuffer_work l).scheduled = l.scheduled) ∧
    ((gfb_lifetime.init data).run HZ events).work_runs = events.count .work ∧
    ((gfb_lifetime.init data).run HZ events).data.fb_count
      = gfb_lifetime_event.open_handles events ∧
    events.count .remove ≤ 1 ∧
    events.count .work ≤ 1 ∧
    (gfb_lifetime_event.work ∈ events →
      gfb_lifetime_event.remove ∈ events ∧ gfb_lifetime_event.open_handles events = 0) ∧
    (((gfb_lifetime.init data).run HZ events).scheduled = 1 ↔
      (gfb_lifetime_event.remove ∈ events ∧
        gfb_lifetime_event.open_handles events = 0)) ∧
    (((gfb_lifetime.init data).run HZ events).freed = 1 ↔
      (gfb_lifetime_event.remove ∈ events ∧
        gfb_lifetime_event.open_handles events = 0 ∧
        gfb_lifetime_event.work ∈ events)) ∧
    (((gfb_lifetime.init data).run HZ events).data.kref : Int)
      = 2 + gfb_lifetime_event.open_handles events
          - (if gfb_lifetime_event.remove ∈ events then 1 else 0)
          - (events.count .work : Int) ∧
    (((gfb_lifetime.init data).run HZ events).free_framebuffer_work ≠ [] ↔
      (gfb_lifetime_event.remove ∈ events ∧
        gfb_lifetime_event.open_handles events = 0 ∧
        gfb_lifetime_event.work ∉ events)) ∧
    (((gfb_lifetime.init data).run HZ events).fb_info = false ↔
      gfb_lifetime_event.work ∈ events) ∧
    ((gfb_lifetime_event.remove ∈ events ∧
        gfb_lifetime_event.open_handles events = 0 ∧
        gfb_lifetime_event.work ∉ events) →
      (gfb_lifetime.init data).well_formed HZ (events ++ [.work]) = true ∧
      ((gfb_lifetime.init data).run HZ events).freed = 0 ∧
      ((gfb_lifetime.init data).run HZ (events ++ [.work])).freed = 1 ∧
      ((gfb_lifetime.init data).run HZ (events ++ [.work])).data.kref = 0 ∧
      ((gfb_lifetime.init data).run HZ (events ++ [.work])).fb_info = false) := by
  refine ⟨?_, lifetime_after_events env panel_type data hprobe HZ events hwf⟩
  intro n
  have h := lifetime_after_events env panel_type data hprobe HZ (events.take n)
    (lifetime_well_formed_take HZ events n _ hwf)
  obtain ⟨a1, a2, _, _, _, _, _, _, _, _, _, _, _, _, a15, a16, _⟩ := h
  constructor
  · by_cases hc : gfb_lifetime_event.remove ∈ events.take n ∧
        gfb_lifetime_event.open_handles (events.take n) = 0
    · rw [if_pos hc]
      exact a15.mpr hc
    · rw [if_neg hc]
      have : ¬ ((gfb_lifetime.init data).run HZ (events.take n)).scheduled = 1 :=
        fun hh => hc (a15.mp hh)
      omega
  · by_cases hc : gfb_lifetime_event.remove ∈ events.take n ∧
        gfb_lifetime_event.open_handles (events.take n) = 0 ∧
        gfb_lifetime_event.work ∈ events.take n
    · rw [if_pos hc]
      exact a16.mpr hc
    · rw [if_neg hc]
      have : ¬ ((gfb_lifetime.init data).run HZ (events.take n)).freed = 1 :=
        fun hh => hc (a16.mp hh)
      omega

theorem cleanup_scheduled_and_freed_once_witness :
    gfb_probe (probe_ok_env all_on_surface (fun _ => 0) 250) .GFB_PANEL_TYPE_160_43_1
      = some all_on_data ∧
    (gfb_lifetime.init all_on_data).well_formed 250
      [.fb_open, .fb_open, .fb_release, .remove, .fb_release] = true ∧
    (gfb_lifetime_event.remove ∈
        [gfb_lifetime_event.fb_open, .fb_open, .fb_release, .remove, .fb_release] ∧
      gfb_lifetime_event.open_handles [.fb_open, .fb_open, .fb_release, .remove, .fb_release]
        = 0 ∧
      gfb_lifetime_event.work ∉
        [gfb_lifetime_event.fb_open, .fb_open, .fb_release, .remove, .fb_release]) ∧
    ((gfb_lifetime.init all_on_data).run 250
      [.fb_open, .fb_open, .fb_release, .remove, .fb_release]).scheduled = 1 ∧
    ((gfb_lifetime.init all_on_data).run 250
      [.fb_open, .fb_open, .fb_release, .remove, .fb_release]).freed = 0 ∧
    ((gfb_lifetime.init all_on_data).run 250
      ([.fb_open, .fb_open, .fb_release, .remove, .fb_release] ++ [.work])).freed = 1 :=
  ⟨all_on_data_probed, by decide, by decide,
   (cleanup_scheduled_and_freed_once _ _ _ all_on_data_probed 250
      [.fb_open, .fb_open, .fb_release, .remove, .fb_release] (by decide)).2.2.2.2.2.2.2.2.2.2.2.2.2.2.2.1.mpr
      (by decide),
   ((cleanup_scheduled_and_freed_once _ _ _ all_on_data_probed 250
      [.fb_open, .fb_open, .fb_release, .remove, .fb_release] (by decide)).2.2.2.2.2.2.2.2.2.2.2.2.2.2.2.2.2.2.2.2
      (by decide)).2.1,
   ((cleanup_scheduled_and_freed_once _ _ _ all_on_data_probed 250
      [.fb_open, .fb_open, .fb_release, .remove, .fb_release] (by decide)).2.2.2.2.2.2.2.2.2.2.2.2.2.2.2.2.2.2.2.2
      (by decide)).2.2.1⟩

/-! ## The panel pipeline and the handshake -/

theorem gcore_run_panel (events : List gcore_event) :
    ∀ g : gcore_data,
      (g.run events).gfb_data = g.gfb_data.run (gcore_event.panel_events events) := by
  induction events with
  | nil => intro g; rfl
  | cons e es ih =>
    intro g
    cases e with
    | handshake s => exact ih (g.step (.handshake s))
    | panel e => exact ih (g.step (.panel e))

theorem gcore_run_handshake (events : List gcore_event) :
    ∀ g : gcore_data,
      (g.run events).data
        = (gcore_event.handshake_steps events).foldl session.step g.data := by
  induction events with
  | nil => intro g; rfl
  | cons e es ih =>
    intro g
    cases e with
    | handshake s => exact ih (g.step (.handshake s))
    | panel e => exact ih (g.step (.panel e))

/-- The functions of hid-gfb.c leave `virtualized` and `panel_type` alone. -/
theorem gfb_fb_send_keeps (usb : usb_env) (data : gfb_data) :
    (gfb_fb_send usb data).data.virtualized = data.virtualized ∧
    (gfb_fb_send usb data).data.panel_type = data.panel_type := by
  unfold gfb_fb_send
  cases hv : data.virtualized <;> cases hb : data.fb_vbitmap_busy <;>
    cases hp : data.panel_type <;> cases he : usb.ep_present <;>
    by_cases hs : usb.usb_submit_urb < 0 <;> simp [hv, hb, he, hs, hp]

theorem gfb_fb_update_keeps (usb : usb_env) (data : gfb_data) :
    (gfb_fb_update usb data).data.virtualized = data.virtualized ∧
    (gfb_fb_update usb data).data.panel_type = data.panel_type := by
  unfold gfb_fb_update
  split
  · exact gfb_fb_send_keeps usb (gfb_fb_mono_update data)
  · exact gfb_fb_send_keeps usb (gfb_fb_qvga_update data)
  · exact ⟨rfl, rfl⟩

theorem gfb_pipeline_step_keeps (p : gfb_pipeline) (e : gfb_event) :
    (p.step e).data.virtualized = p.data.virtualized ∧
    (p.step e).data.panel_type = p.data.panel_type := by
  cases e with
  | update usb => exact gfb_fb_update_keeps usb p.data
  | draw written usb => exact gfb_fb_update_keeps usb { p.data with fb_bitmap := written }
  | completion status =>
    simp only [gfb_pipeline.step]
    split_ifs
    · exact ⟨rfl, rfl⟩
    · exact ⟨rfl, rfl⟩
  | deferred_io usb =>
    simp only [gfb_pipeline.step]
    split_ifs
    · exact ⟨rfl, rfl⟩
    · exact gfb_fb_update_keeps usb p.data

theorem gfb_pipeline_run_keeps (events : List gfb_event) :
    ∀ p : gfb_pipeline,
      (p.run events).data.virtualized = p.data.virtualized ∧
      (p.run events).data.panel_type = p.data.panel_type := by
  induction events with
  | nil => intro p; exact ⟨rfl, rfl⟩
  | cons e es ih =>
    intro p
    have h1 := ih (p.step e)
    have h2 := gfb_pipeline_step_keeps p e
    exact ⟨h1.1.trans h2.1, h1.2.trans h2.2⟩

/-- An `update()` on a device whose panel is attached with the slot free,
under a USB core that has the endpoint and accepts the URB: one more frame is
handed over, whatever the driver data holds. -/
theorem gcore_update_submits (g : gcore_data) (usb : usb_env)
    (hv : g.gfb_data.data.virtualized = false)
    (hb : g.gfb_data.data.fb_vbitmap_busy = false)
    (hp : g.gfb_data.data.panel_type ≠ .other) (he : usb.ep_present = true)
    (hs : ¬ usb.usb_submit_urb < 0) :
    (g.step (.panel (.update usb))).gfb_data.frames.length
      = g.gfb_data.frames.length + 1 ∧
    (g.step (.panel (.update usb))).gfb_data.urbs_in_flight
      = g.gfb_data.urbs_in_flight + 1 ∧
    (g.step (.panel (.update usb))).gfb_data.data.fb_vbitmap_busy = true ∧
    (g.step (.panel (.update usb))).data = g.data := by
  obtain ⟨_, h2, h3, _⟩ := gfb_fb_update_free usb g.gfb_data.data hv hb hp he hs
  simp only [gcore_data.step, gfb_pipeline.step, gfb_pipeline.after]
  obtain ⟨x, hx⟩ := Option.isSome_iff_exists.mp h2
  simp [hx, h3]

/-- C18 as stated fails: on the device as `g15_probe` has it when it starts
waiting (readiness bitmask 0, not Stage3), one `update()` hands a frame to the
USB core, and so does a surface write through `gfb_fb_write`. -/
theorem update_before_readiness_submits :
    ((gcore_data.init all_on_data).run
        [.panel (.update usb_ok)]).data.g15data.ready_stages = 0 ∧
    ((gcore_data.init all_on_data).run
        [.panel (.update usb_ok)]).data.g15data.ready_stages ≠ G15_READY_STAGE_3 ∧
    ((gcore_data.init all_on_data).run [.panel (.update usb_ok)]).gfb_data.frames.length = 1 ∧
    ((gcore_data.init all_on_data).run [.panel (.update usb_ok)]).gfb_data.urbs_in_flight = 1 ∧
    (gfb_fb_write usb_ok all_on_data 1376 all_on_surface).submitted.isSome = true := by
  have h := gcore_update_submits (gcore_data.init all_on_data) usb_ok rfl rfl (by decide) rfl
    (by decide)
  have e : (gcore_data.init all_on_data).run [.panel (.update usb_ok)]
      = (gcore_data.init all_on_data).step (.panel (.update usb_ok)) := rfl
  have hw : gfb_fb_write usb_ok all_on_data 1376 all_on_surface
      = gfb_fb_update usb_ok { all_on_data with fb_bitmap := all_on_surface } := by
    unfold gfb_fb_write
    rw [if_pos (by decide)]
  rw [e, h.2.2.2, hw]
  refine ⟨rfl, by decide, h.1, h.2.1, ?_⟩
  exact (gfb_fb_update_free usb_ok { all_on_data with fb_bitmap := all_on_surface }
    rfl rfl (by decide) rfl (by decide)).2.1

/-- C18, as the code has it: the panel pipeline does not consult the
readiness bitmask.  In every state that deliveries, attach sections and panel
events lead to from a freshly probed device, an `update()` made while the
bitmask is not Stage3 hands one more frame to the USB core as soon as the slot
is free, the endpoint exists and the submission is accepted; the bitmask is
left as it was (still not Stage3), the panel state is the one its own events
alone lead to, and the driver data the one the handshake moves alone lead
to. -/
theorem update_not_gated_by_readiness (env : gfb_probe_env)
    (panel_type : gfb_panel_type) (data : gfb_data)
    (hprobe : gfb_probe env panel_type = some data)
    (events : List gcore_event) (usb : usb_env)
    (hnr : ((gcore_data.init data).run events).data.g15data.ready_stages
      ≠ G15_READY_STAGE_3)
    (hb : ((gcore_data.init data).run events).gfb_data.data.fb_vbitmap_busy = false)
    (he : usb.ep_present = true) (hs : 0 ≤ usb.usb_submit_urb) :
    (((gcore_data.init data).run events).step (.panel (.update usb))).gfb_data.frames.length
      = ((gcore_data.init data).run events).gfb_data.frames.length + 1 ∧
    (((gcore_data.init data).run events).step (.panel (.update usb))).gfb_data.urbs_in_flight
      = ((gcore_data.init data).run events).gfb_data.urbs_in_flight + 1 ∧
    (((gcore_data.init data).run events).step
        (.panel (.update usb))).data.g15data.ready_stages
      = ((gcore_data.init data).run events).data.g15data.ready_stages ∧
    (((gcore_data.init data).run events).step
        (.panel (.update usb))).data.g15data.ready_stages ≠ G15_READY_STAGE_3 ∧
    ((gcore_data.init data).run events).gfb_data
      = (gfb_pipeline.init data).run (gcore_event.panel_events events) ∧
    ((gcore_data.init data).run events).data
      = session.run (gcore_event.handshake_steps events) := by
  obtain ⟨_, hv, hpt, hne, _, _⟩ := gfb_probe_flags env panel_type data hprobe
  have hpanel : ((gcore_data.init data).run events).gfb_data
      = (gfb_pipeline.init data).run (gcore_event.panel_events events) :=
    gcore_run_panel events (gcore_data.init data)
  have hhand : ((gcore_data.init data).run events).data
      = session.run (gcore_event.handshake_steps events) :=
    gcore_run_handshake events (gcore_data.init data)
  have hk := gfb_pipeline_run_keeps (gcore_event.panel_events events) (gfb_pipeline.init data)
  have hv2 : ((gcore_data.init data).run events).gfb_data.data.virtualized = false := by
    rw [hpanel]
    exact hk.1.trans hv
  have hp2 : ((gcore_data.init data).run events).gfb_data.data.panel_type ≠ .other := by
    rw [hpanel, hk.2]
    exact fun h => hne (hpt.symm.trans h)
  obtain ⟨h1, h2, _, h4⟩ := gcore_update_submits ((gcore_data.init data).run events) usb
    hv2 hb hp2 he (not_lt.mpr hs)
  exact ⟨h1, h2, by rw [h4], by rw [h4]; exact hnr, hpanel, hhand⟩

theorem update_not_gated_by_readiness_witness :
    gfb_probe (probe_ok_env all_on_surface (fun _ => 0) 250) .GFB_PANEL_TYPE_160_43_1
      = some all_on_data ∧
    ((gcore_data.init all_on_data).run
        [.handshake (.report { report := { id := 6 }, raw_data := scenario_a_raw_data,
                               size := 9 })]).data.g15data.ready_stages
      ≠ G15_READY_STAGE_3 ∧
    (((gcore_data.init all_on_data).run
        [.handshake (.report { report := { id := 6 }, raw_data := scenario_a_raw_data,
                               size := 9 })]).step
      (.panel (.update usb_ok))).gfb_data.frames.length
      = ((gcore_data.init all_on_data).run
          [.handshake (.report { report := { id := 6 }, raw_data := scenario_a_raw_data,
                                 size := 9 })]).gfb_data.frames.length + 1 :=
  ⟨all_on_data_probed, by decide,
   (update_not_gated_by_readiness _ _ _ all_on_data_probed
      [.handshake (.report { report := { id := 6 }, raw_data := scenario_a_raw_data,
                             size := 9 })] usb_ok (by decide) rfl rfl (by decide)).1⟩

/-! ## The attach procedures -/

/-- An aborted `g15_probe` returns 0 exactly when every step before `gfb_probe`
succeeded and `gfb_probe` returned no pipeline. -/
theorem g15_probe_zero_abort (env : probe_env) :
    ((g15_probe env).cleanup ≠ [] ∧ (g15_probe env).retval = 0) ↔
      (env.reaches_gfb_probe ∧ (gfb_probe env.gfb .GFB_PANEL_TYPE_160_43_1).isNone = true) := by
  unfold g15_probe probe_env.reaches_gfb_probe
  cases h1 : env.gcore_alloc_data_ok
  · simp +decide [*, ENOMEM, err_no_cleanup, err_cleanup_gdata,
      err_cleanup_g15data, err_cleanup_hid, err_cleanup_input, err_cleanup_leds,
      err_cleanup_gfb]
  cases h2 : env.kzalloc_ok
  · simp +decide [*, ENOMEM, err_no_cleanup, err_cleanup_gdata,
      err_cleanup_g15data, err_cleanup_hid, err_cleanup_input, err_cleanup_leds,
      err_cleanup_gfb]
  by_cases h3 : env.gcore_hid_open = 0
  swap
  · simp +decide [*, ENOMEM, err_no_cleanup, err_cleanup_gdata,
      err_cleanup_g15data, err_cleanup_hid, err_cleanup_input, err_cleanup_leds,
      err_cleanup_gfb]
  by_cases h4 : env.gcore_input_probe = 0
  swap
  · simp +decide [*, ENOMEM, err_no_cleanup, err_cleanup_gdata,
      err_cleanup_g15data, err_cleanup_hid, err_cleanup_input, err_cleanup_leds,
      err_cleanup_gfb]
  by_cases h5 : env.read_feature_reports = 0
  swap
  · simp +decide [*, ENOMEM, err_no_cleanup, err_cleanup_gdata,
      err_cleanup_g15data, err_cleanup_hid, err_cleanup_input, err_cleanup_leds,
      err_cleanup_gfb]
  by_cases h6 : env.gcore_leds_probe = 0
  swap
  · simp +decide [*, ENOMEM, err_no_cleanup, err_cleanup_gdata,
      err_cleanup_g15data, err_cleanup_hid, err_cleanup_input, err_cleanup_leds,
      err_cleanup_gfb]
  cases h7 : gfb_probe env.gfb .GFB_PANEL_TYPE_160_43_1
  · simp +decide [*, ENOMEM, err_no_cleanup, err_cleanup_gdata,
      err_cleanup_g15data, err_cleanup_hid, err_cleanup_input, err_cleanup_leds,
      err_cleanup_gfb]
  by_cases h8 : env.sysfs_create_group = 0
  swap
  · simp +decide [*, ENOMEM, err_no_cleanup, err_cleanup_gdata,
      err_cleanup_g15data, err_cleanup_hid, err_cleanup_input, err_cleanup_leds,
      err_cleanup_gfb]
  simp +decide [*, ENOMEM, err_no_cleanup, err_cleanup_gdata,
      err_cleanup_g15data, err_cleanup_hid, err_cleanup_input, err_cleanup_leds,
      err_cleanup_gfb]

/-- An aborted `g13_probe` returns 0 exactly when every step before `gfb_probe`
succeeded and `gfb_probe` returned no pipeline. -/
theorem g13_probe_zero_abort (env : probe_env) :
    ((g13_probe env).cleanup ≠ [] ∧ (g13_probe env).retval = 0) ↔
      (env.reaches_gfb_probe ∧ (gfb_probe env.gfb .GFB_PANEL_TYPE_160_43_1).isNone = true) := by
  unfold g13_probe probe_env.reaches_gfb_probe
  cases h1 : env.gcore_alloc_data_ok
  · simp +decide [*, ENOMEM, err_no_cleanup, err_cleanup_gdata,
      err_cleanup_g15data, err_cleanup_hid, err_cleanup_input, err_cleanup_leds,
      err_cleanup_gfb]
  cases h2 : env.kzalloc_ok
  · simp +decide [*, ENOMEM, err_no_cleanup, err_cleanup_gdata,
      err_cleanup_g15data, err_cleanup_hid, err_cleanup_input, err_cleanup_leds,
      err_cleanup_gfb]
  by_cases h3 : env.gcore_hid_open = 0
  swap
  · simp +decide [*, ENOMEM, err_no_cleanup, err_cleanup_gdata,
      err_cleanup_g15data, err_cleanup_hid, err_cleanup_input, err_cleanup_leds,
      err_cleanup_gfb]
  by_cases h4 : env.gcore_input_probe = 0
  swap
  · simp +decide [*, ENOMEM, err_no_cleanup, err_cleanup_gdata,
      err_cleanup_g15data, err_cleanup_hid, err_cleanup_input, err_cleanup_leds,
      err_cleanup_gfb]
  by_cases h5 : env.read_feature_reports = 0
  swap
  · simp +decide [*, ENOMEM, err_no_cleanup, err_cleanup_gdata,
      err_cleanup_g15data, err_cleanup_hid, err_cleanup_input, err_cleanup_leds,
      err_cleanup_gfb]
  by_cases h6 : env.gcore_leds_probe = 0
  swap
  · simp +decide [*, ENOMEM, err_no_cleanup, err_cleanup_gdata,
      err_cleanup_g15data, err_cleanup_hid, err_cleanup_input, err_cleanup_leds,
      err_cleanup_gfb]
  cases h7 : gfb_probe env.gfb .GFB_PANEL_TYPE_160_43_1
  · simp +decide [*, ENOMEM, err_no_cleanup, err_cleanup_gdata,
      err_cleanup_g15data, err_cleanup_hid, err_cleanup_input, err_cleanup_leds,
      err_cleanup_gfb]
  by_cases h8 : env.sysfs_create_group = 0
  swap
  · simp +decide [*, ENOMEM, err_no_cleanup, err_cleanup_gdata,
      err_cleanup_g15data, err_cleanup_hid, err_cleanup_input, err_cleanup_leds,
      err_cleanup_gfb]
  simp +decide [*, ENOMEM, err_no_cleanup, err_cleanup_gdata,
      err_cleanup_g15data, err_cleanup_hid, err_cleanup_input, err_cleanup_leds,
      err_cleanup_gfb]

/-- An aborted `g15v2_probe` returns 0 exactly when every step before `gfb_probe`
succeeded and `gfb_probe` returned no pipeline. -/
theorem g15v2_probe_zero_abort (env : probe_env) :
    ((g15v2_probe env).cleanup ≠ [] ∧ (g15v2_probe env).retval = 0) ↔
      (env.reaches_gfb_probe ∧ (gfb_probe env.gfb .GFB_PANEL_TYPE_160_43_1).isNone = true) := by
  unfold g15v2_probe probe_env.reaches_gfb_probe
  cases h1 : env.gcore_alloc_data_ok
  · simp +decide [*, ENOMEM, err_no_cleanup, err_cleanup_gdata,
      err_cleanup_g15data, err_cleanup_hid, err_cleanup_input, err_cleanup_leds,
      err_cleanup_gfb]
  cases h2 : env.kzalloc_ok
  · simp +decide [*, ENOMEM, err_no_cleanup, err_cleanup_gdata,
      err_cleanup_g15data, err_cleanup_hid, err_cleanup_input, err_cleanup_leds,
      err_cleanup_gfb]
  by_cases h3 : env.gcore_hid_open = 0
  swap
  · simp +decide [*, ENOMEM, err_no_cleanup, err_cleanup_gdata,
      err_cleanup_g15data, err_cleanup_hid, err_cleanup_input, err_cleanup_leds,
      err_cleanup_gfb]
  by_cases h4 : env.gcore_input_probe = 0
  swap
  · simp +decide [*, ENOMEM, err_no_cleanup, err_cleanup_gdata,
      err_cleanup_g15data, err_cleanup_hid, err_cleanup_input, err_cleanup_leds,
      err_cleanup_gfb]
  by_cases h5 : env.read_feature_reports = 0
  swap
  · simp +decide [*, ENOMEM, err_no_cleanup, err_cleanup_gdata,
      err_cleanup_g15data, err_cleanup_hid, err_cleanup_input, err_cleanup_leds,
      err_cleanup_gfb]
  by_cases h6 : env.gcore_leds_probe = 0
  swap
  · simp +decide [*, ENOMEM, err_no_cleanup, err_cleanup_gdata,
      err_cleanup_g15data, err_cleanup_hid, err_cleanup_input, err_cleanup_leds,
      err_cleanup_gfb]
  cases h7 : gfb_probe env.gfb .GFB_PANEL_TYPE_160_43_1
  · simp +decide [*, ENOMEM, err_no_cleanup, err_cleanup_gdata,
      err_cleanup_g15data, err_cleanup_hid, err_cleanup_input, err_cleanup_leds,
      err_cleanup_gfb]
  by_cases h8 : env.sysfs_create_group = 0
  swap
  · simp +decide [*, ENOMEM, err_no_cleanup, err_cleanup_gdata,
      err_cleanup_g15data, err_cleanup_hid, err_cleanup_input, err_cleanup_leds,
      err_cleanup_gfb]
  simp +decide [*, ENOMEM, err_no_cleanup, err_cleanup_gdata,
      err_cleanup_g15data, err_cleanup_hid, err_cleanup_input, err_cleanup_leds,
      err_cleanup_gfb]

/-- An aborted `g510_probe` returns 0 exactly when every step before `gfb_probe`
succeeded and `gfb_probe` returned no pipeline. -/
theorem g510_probe_zero_abort (env : probe_env) :
    ((g510_probe env).cleanup ≠ [] ∧ (g510_probe env).retval = 0) ↔
      (env.reaches_gfb_probe ∧ (gfb_probe env.gfb .GFB_PANEL_TYPE_160_43_1).isNone = true) := by
  unfold g510_probe probe_env.reaches_gfb_probe
  cases h1 : env.gcore_alloc_data_ok
  · simp +decide [*, ENOMEM, err_no_cleanup, err_cleanup_gdata,
      err_cleanup_g15data, err_cleanup_hid, err_cleanup_input, err_cleanup_leds,
      err_cleanup_gfb]
  cases h2 : env.kzalloc_ok
  · simp +decide [*, ENOMEM, err_no_cleanup, err_cleanup_gdata,
      err_cleanup_g15data, err_cleanup_hid, err_cleanup_input, err_cleanup_leds,
      err_cleanup_gfb]
  by_cases h3 : env.gcore_hid_open = 0
  swap
  · simp +decide [*, ENOMEM, err_no_cleanup, err_cleanup_gdata,
      err_cleanup_g15data, err_cleanup_hid, err_cleanup_input, err_cleanup_leds,
      err_cleanup_gfb]
  by_cases h4 : env.gcore_input_probe = 0
  swap
  · simp +decide [*, ENOMEM, err_no_cleanup, err_cleanup_gdata,
      err_cleanup_g15data, err_cleanup_hid, err_cleanup_input, err_cleanup_leds,
      err_cleanup_gfb]
  by_cases h5 : env.read_feature_reports = 0
  swap
  · simp +decide [*, ENOMEM, err_no_cleanup, err_cleanup_gdata,
      err_cleanup_g15data, err_cleanup_hid, err_cleanup_input, err_cleanup_leds,
      err_cleanup_gfb]
  by_cases h6 : env.gcore_leds_probe = 0
  swap
  · simp +decide [*, ENOMEM, err_no_cleanup, err_cleanup_gdata,
      err_cleanup_g15data, err_cleanup_hid, err_cleanup_input, err_cleanup_leds,
      err_cleanup_gfb]
  cases h7 : gfb_probe env.gfb .GFB_PANEL_TYPE_160_43_1
  · simp +decide [*, ENOMEM, err_no_cleanup, err_cleanup_gdata,
      err_cleanup_g15data, err_cleanup_hid, err_cleanup_input, err_cleanup_leds,
      err_cleanup_gfb]
  by_cases h8 : env.sysfs_create_group = 0
  swap
  · simp +decide [*, ENOMEM, err_no_cleanup, err_cleanup_gdata,
      err_cleanup_g15data, err_cleanup_hid, err_cleanup_input, err_cleanup_leds,
      err_cleanup_gfb]
  simp +decide [*, ENOMEM, err_no_cleanup, err_cleanup_gdata,
      err_cleanup_g15data, err_cleanup_hid, err_cleanup_input, err_cleanup_leds,
      err_cleanup_gfb]

/-- An aborted `g19_probe` returns 0 exactly when every step before `gfb_probe`
succeeded and `gfb_probe` returned no pipeline. -/
theorem g19_probe_zero_abort (env : probe_env) :
    ((g19_probe env).cleanup ≠ [] ∧ (g19_probe env).retval = 0) ↔
      (env.reaches_gfb_probe ∧ env.usb_alloc_urb_ok = true ∧
        (gfb_probe env.gfb .GFB_PANEL_TYPE_320_240_16).isNone = true) := by
  unfold g19_probe probe_env.reaches_gfb_probe
  cases h1 : env.gcore_alloc_data_ok
  · simp +decide [*, ENOMEM, err_no_cleanup, err_cleanup_gdata,
      g19_err_cleanup_g19data, g19_err_cleanup_ep1_urb, g19_err_cleanup_hid,
      g19_err_cleanup_input, g19_err_cleanup_leds, g19_err_cleanup_gfb, g19_err_cleanup_sysfs]
  cases h2 : env.kzalloc_ok
  · simp +decide [*, ENOMEM, err_no_cleanup, err_cleanup_gdata,
      g19_err_cleanup_g19data, g19_err_cleanup_ep1_urb, g19_err_cleanup_hid,
      g19_err_cleanup_input, g19_err_cleanup_leds, g19_err_cleanup_gfb, g19_err_cleanup_sysfs]
  cases h0 : env.usb_alloc_urb_ok
  · simp +decide [*, ENOMEM, err_no_cleanup, err_cleanup_gdata,
      g19_err_cleanup_g19data, g19_err_cleanup_ep1_urb, g19_err_cleanup_hid,
      g19_err_cleanup_input, g19_err_cleanup_leds, g19_err_cleanup_gfb, g19_err_cleanup_sysfs]
  by_cases h3 : env.gcore_hid_open = 0
  swap
  · simp +decide [*, ENOMEM, err_no_cleanup, err_cleanup_gdata,
      g19_err_cleanup_g19data, g19_err_cleanup_ep1_urb, g19_err_cleanup_hid,
      g19_err_cleanup_input, g19_err_cleanup_leds, g19_err_cleanup_gfb, g19_err_cleanup_sysfs]
  by_cases h4 : env.gcore_input_probe = 0
  swap
  · simp +decide [*, ENOMEM, err_no_cleanup, err_cleanup_gdata,
      g19_err_cleanup_g19data, g19_err_cleanup_ep1_urb, g19_err_cleanup_hid,
      g19_err_cleanup_input, g19_err_cleanup_leds, g19_err_cleanup_gfb, g19_err_cleanup_sysfs]
  by_cases h5 : env.read_feature_reports = 0
  swap
  · simp +decide [*, ENOMEM, err_no_cleanup, err_cleanup_gdata,
      g19_err_cleanup_g19data, g19_err_cleanup_ep1_urb, g19_err_cleanup_hid,
      g19_err_cleanup_input, g19_err_cleanup_leds, g19_err_cleanup_gfb, g19_err_cleanup_sysfs]
  by_cases h6 : env.gcore_leds_probe = 0
  swap
  · simp +decide [*, ENOMEM, err_no_cleanup, err_cleanup_gdata,
      g19_err_cleanup_g19data, g19_err_cleanup_ep1_urb, g19_err_cleanup_hid,
      g19_err_cleanup_input, g19_err_cleanup_leds, g19_err_cleanup_gfb, g19_err_cleanup_sysfs]
  cases h7 : gfb_probe env.gfb .GFB_PANEL_TYPE_320_240_16
  · simp +decide [*, ENOMEM, err_no_cleanup, err_cleanup_gdata,
      g19_err_cleanup_g19data, g19_err_cleanup_ep1_urb, g19_err_cleanup_hid,
      g19_err_cleanup_input, g19_err_cleanup_leds, g19_err_cleanup_gfb, g19_err_cleanup_sysfs]
  by_cases h8 : env.sysfs_create_group = 0
  swap
  · simp +decide [*, ENOMEM, err_no_cleanup, err_cleanup_gdata,
      g19_err_cleanup_g19data, g19_err_cleanup_ep1_urb, g19_err_cleanup_hid,
      g19_err_cleanup_input, g19_err_cleanup_leds, g19_err_cleanup_gfb, g19_err_cleanup_sysfs]
  by_cases h9 : env.g19_ep1_read = 0
  swap
  · simp +decide [*, ENOMEM, err_no_cleanup, err_cleanup_gdata,
      g19_err_cleanup_g19data, g19_err_cleanup_ep1_urb, g19_err_cleanup_hid,
      g19_err_cleanup_input, g19_err_cleanup_leds, g19_err_cleanup_gfb, g19_err_cleanup_sysfs]
  simp +decide [*, ENOMEM, err_no_cleanup, err_cleanup_gdata,
      g19_err_cleanup_g19data, g19_err_cleanup_ep1_urb, g19_err_cleanup_hid,
      g19_err_cleanup_input, g19_err_cleanup_leds, g19_err_cleanup_gfb, g19_err_cleanup_sysfs]

/-- C19, the code at a failing input: every step before `gfb_probe` succeeds
and `gfb_probe` returns no pipeline (here `vmalloc` of the surface buffer
fails).  Each of `g15_probe`, `g13_probe`, `g15v2_probe`, `g510_probe` and
`g19_probe` calls `dev_err`, releases what it had acquired in reverse order
and returns 0; and for each of them an aborted attach returns 0 exactly when
it was `gfb_probe` that failed. -/
theorem gfb_probe_failure_returns_zero :
    (gfb_probe gfb_env_no_vmalloc .GFB_PANEL_TYPE_160_43_1).isNone = true ∧
    (gfb_probe gfb_env_no_vmalloc .GFB_PANEL_TYPE_320_240_16).isNone = true ∧
    ((g15_probe (attach_ok_env gfb_env_no_vmalloc)).retval = 0 ∧
      (g15_probe (attach_ok_env gfb_env_no_vmalloc)).dev_err = true ∧
      (g15_probe (attach_ok_env gfb_env_no_vmalloc)).handshake.isNone = true ∧
      (g15_probe (attach_ok_env gfb_env_no_vmalloc)).cleanup
        = [.gcore_leds_remove, .gcore_input_remove, .gcore_hid_close, .kfree,
           .gcore_free_data, .hid_set_drvdata_NULL]) ∧
    ((g13_probe (attach_ok_env gfb_env_no_vmalloc)).retval = 0 ∧
      (g13_probe (attach_ok_env gfb_env_no_vmalloc)).dev_err = true ∧
      (g13_probe (attach_ok_env gfb_env_no_vmalloc)).handshake.isNone = true ∧
      (g13_probe (attach_ok_env gfb_env_no_vmalloc)).cleanup
        = [.gcore_leds_remove, .gcore_input_remove, .gcore_hid_close, .kfree,
           .gcore_free_data, .hid_set_drvdata_NULL]) ∧
    ((g15v2_probe (attach_ok_env gfb_env_no_vmalloc)).retval = 0 ∧
      (g15v2_probe (attach_ok_env gfb_env_no_vmalloc)).dev_err = true ∧
      (g15v2_probe (attach_ok_env gfb_env_no_vmalloc)).handshake.isNone = true ∧
      (g15v2_probe (attach_ok_env gfb_env_no_vmalloc)).cleanup
        = [.gcore_leds_remove, .gcore_input_remove, .gcore_hid_close, .kfree,
           .gcore_free_data, .hid_set_drvdata_NULL]) ∧
    ((g510_probe (attach_ok_env gfb_env_no_vmalloc)).retval = 0 ∧
      (g510_probe (attach_ok_env gfb_env_no_vmalloc)).dev_err = true ∧
      (g510_probe (attach_ok_env gfb_env_no_vmalloc)).handshake.isNone = true ∧
      (g510_probe (attach_ok_env gfb_env_no_vmalloc)).cleanup
        = [.gcore_leds_remove, .gcore_input_remove, .gcore_hid_close, .kfree,
           .gcore_free_data, .hid_set_drvdata_NULL]) ∧
    ((g19_probe (attach_ok_env gfb_env_no_vmalloc)).retval = 0 ∧
      (g19_probe (attach_ok_env gfb_env_no_vmalloc)).dev_err = true ∧
      (g19_probe (attach_ok_env gfb_env_no_vmalloc)).handshake.isNone = true ∧
      (g19_probe (attach_ok_env gfb_env_no_vmalloc)).cleanup
        = [.gcore_leds_remove, .gcore_input_remove, .gcore_hid_close, .usb_free_urb,
           .kfree, .gcore_free_data, .hid_set_drvdata_NULL]) ∧
    (∀ env : probe_env,
      ((g15_probe env).cleanup ≠ [] ∧ (g15_probe env).retval = 0) ↔
        (env.reaches_gfb_probe ∧
          (gfb_probe env.gfb .GFB_PANEL_TYPE_160_43_1).isNone = true)) ∧
    (∀ env : probe_env,
      ((g13_probe env).cleanup ≠ [] ∧ (g13_probe env).retval = 0) ↔
        (env.reaches_gfb_probe ∧
          (gfb_probe env.gfb .GFB_PANEL_TYPE_160_43_1).isNone = true)) ∧
    (∀ env : probe_env,
      ((g15v2_probe env).cleanup ≠ [] ∧ (g15v2_probe env).retval = 0) ↔
        (env.reaches_gfb_probe ∧
          (gfb_probe env.gfb .GFB_PANEL_TYPE_160_43_1).isNone = true)) ∧
    (∀ env : probe_env,
      ((g510_probe env).cleanup ≠ [] ∧ (g510_probe env).retval = 0) ↔
        (env.reaches_gfb_probe ∧
          (gfb_probe env.gfb .GFB_PANEL_TYPE_160_43_1).isNone = true)) ∧
    (∀ env : probe_env,
      ((g19_probe env).cleanup ≠ [] ∧ (g19_probe env).retval = 0) ↔
        (env.reaches_gfb_probe ∧ env.usb_alloc_urb_ok = true ∧
          (gfb_probe env.gfb .GFB_PANEL_TYPE_320_240_16).isNone = true)) := by
  exact ⟨rfl, rfl, ⟨rfl, rfl, rfl, rfl⟩, ⟨rfl, rfl, rfl, rfl⟩, ⟨rfl, rfl, rfl, rfl⟩,
    ⟨rfl, rfl, rfl, rfl⟩, ⟨rfl, rfl, rfl, rfl⟩, g15_probe_zero_abort, g13_probe_zero_abort,
    g15v2_probe_zero_abort, g510_probe_zero_abort, g19_probe_zero_abort⟩

/-! ## The report decoder -/

theorem range_8_eq : List.range 8 = [0, 1, 2, 3, 4, 5, 6, 7] := by decide

theorem range_4_eq : List.range 4 = [0, 1, 2, 3] := by decide

/-- A call of `gcore_input_report_key` never hands over a synchronization
marker. -/
theorem count_sync_report_key (keycode : List Nat) (scancode value : Nat) :
    (gcore_input_report_key keycode scancode value).count .sync = 0 := by
  unfold gcore_input_report_key
  split <;> split_ifs <;> simp

/-- A scancode at or past the end of the keycode table: `MSC_SCAN` on a
non-zero value and nothing otherwise. -/
theorem gcore_input_report_key_unmapped (keycode : List Nat) (scancode value : Nat)
    (h : keycode.length ≤ scancode) :
    gcore_input_report_key keycode scancode value
      = if value ≠ 0 then [.msc_scan scancode] else [] := by
  unfold gcore_input_report_key input_get_keycode
  rw [if_neg (by omega)]

theorem count_sync_flatMap {α : Type} (l : List α) (f : α → List input_event)
    (h : ∀ a, (f a).count .sync = 0) : (l.flatMap f).count .sync = 0 := by
  induction l with
  | nil => rfl
  | cons a l ih => rw [List.flatMap_cons, List.count_append, h a, ih]

/-- The calls of `g15_raw_event_process_input` in closed form: bit index
outermost, payload byte innermost. -/
theorem g15_process_input_events (keycode : List Nat) (raw_data : Nat → Nat) :
    (g15_raw_event_process_input keycode raw_data).events
      = (List.range 8).flatMap (fun i => (List.range 8).flatMap (fun j =>
          gcore_input_report_key keycode (i + 8 * j)
            ((g15_raw_event_process_input keycode raw_data).raw_data (j + 1) &&& (1 <<< i))))
        ++ [.sync] := by
  simp only [g15_raw_event_process_input, for_loop, range_8_eq, List.flatMap_cons,
    List.flatMap_nil, List.append_nil, List.nil_append, List.append_assoc]
  rfl

/-- The calls of `g510_raw_event_process_input` in closed form. -/
theorem g510_process_input_events (keycode : List Nat) (raw_data : Nat → Nat) :
    (g510_raw_event_process_input keycode raw_data).events
      = (List.range 8).flatMap (fun i => (List.range 4).flatMap (fun j =>
          gcore_input_report_key keycode (i + 8 * j)
            ((g510_raw_event_process_input keycode raw_data).raw_data (j + 1) &&& (1 <<< i))))
        ++ [.sync] := by
  simp only [g510_raw_event_process_input, for_loop, range_8_eq, range_4_eq,
    List.flatMap_cons, List.flatMap_nil, List.append_nil, List.nil_append, List.append_assoc]
  rfl

/-- The calls of `g15v2_raw_event_process_input` in closed form. -/
theorem g15v2_process_input_events (keycode : List Nat) (raw_data : Nat → Nat) :
    (g15v2_raw_event_process_input keycode raw_data).events
      = (List.range 8).flatMap (fun i =>
          gcore_input_report_key keycode i (raw_data 1 &&& (1 <<< i)) ++
          gcore_input_report_key keycode (i + 8) (raw_data 2 &&& (1 <<< i)))
        ++ [.sync] := by
  simp only [g15v2_raw_event_process_input, for_loop, range_8_eq, List.flatMap_cons,
    List.flatMap_nil, List.append_nil, List.nil_append, List.append_assoc]
  rfl

/-- The calls of `g19_raw_event_process_input` in closed form. -/
theorem g19_process_input_events (keycode : List Nat) (raw_data : Nat → Nat) :
    (g19_raw_event_process_input keycode raw_data).events
      = (List.range 8).flatMap (fun i =>
          gcore_input_report_key keycode i (raw_data 1 &&& (1 <<< i)) ++
          (gcore_input_report_key keycode (i + 8) (raw_data 2 &&& (1 <<< i)) ++
           gcore_input_report_key keycode (i + 16) (raw_data 3 &&& 0xBF &&& (1 <<< i))))
        ++ [.sync] := by
  simp only [g19_raw_event_process_input, for_loop, range_8_eq, List.flatMap_cons,
    List.flatMap_nil, List.append_nil, List.nil_append, List.append_assoc]
  rfl

/-- The calls of `g110_raw_event_process_input` in closed form. -/
theorem g110_process_input_events (keycode : List Nat) (raw_data : Nat → Nat) :
    (g110_raw_event_process_input keycode raw_data).events
      = (List.range 8).flatMap (fun i =>
          gcore_input_report_key keycode i (raw_data 1 &&& (1 <<< i)) ++
          (gcore_input_report_key keycode (i + 8) (raw_data 2 &&& (1 <<< i)) ++
           (if i = 0 then
              gcore_input_report_key keycode (i + 16) (raw_data 3 &&& 0xBF &&& (1 <<< i))
            else [])))
        ++ [.sync] := by
  simp only [g110_raw_event_process_input, for_loop, range_8_eq, List.flatMap_cons,
    List.flatMap_nil, List.append_nil, List.nil_append, List.append_assoc]
  simp +decide only [if_true, if_false, List.append_nil, List.append_assoc]
  rfl

/-- The order in which `g13_raw_event_process_input` walks the scancodes. -/
theorem g13_process_input_events (keycode : List Nat) (raw_data : Nat → Nat) :
    (g13_raw_event_process_input keycode raw_data).events
      = ((List.range 8).flatMap (fun i =>
          [i, i + 8] ++ (if i ≤ 5 then [i + 16] else []) ++ [i + 22] ++
            (if i ≤ 4 then [i + 30] else []))).flatMap (fun s =>
          gcore_input_report_key keycode s
            (raw_data (g13_scancode_source s).1 &&& (1 <<< (g13_scancode_source s).2)))
        ++ [.abs ABS_X (raw_data 1), .abs ABS_Y (raw_data 2), .sync] := by
  simp only [g13_raw_event_process_input, for_loop, range_8_eq, List.flatMap_cons,
    List.flatMap_nil, List.append_nil, List.nil_append, List.append_assoc]
  simp +decide only [if_true, if_false, List.append_nil, List.append_assoc, List.cons_append,
    List.nil_append, List.flatMap_cons, List.flatMap_nil]
  rfl

theorem and_and_self (x m : Nat) : x &&& m &&& m = x &&& m := by
  rw [Nat.and_assoc, Nat.and_self]

theorem g15_process_input_sync (keycode : List Nat) (raw_data : Nat → Nat) :
    (g15_raw_event_process_input keycode raw_data).events.count .sync = 1 ∧
    (g15_raw_event_process_input keycode raw_data).events.getLast? = some .sync := by
  rw [g15_process_input_events]
  refine ⟨?_, List.getLast?_concat _⟩
  rw [List.count_append, count_sync_flatMap]
  · rfl
  · intro i
    exact count_sync_flatMap _ _ (fun j => count_sync_report_key _ _ _)

theorem g510_process_input_sync (keycode : List Nat) (raw_data : Nat → Nat) :
    (g510_raw_event_process_input keycode raw_data).events.count .sync = 1 ∧
    (g510_raw_event_process_input keycode raw_data).events.getLast? = some .sync := by
  rw [g510_process_input_events]
  refine ⟨?_, List.getLast?_concat _⟩
  rw [List.count_append, count_sync_flatMap]
  · rfl
  · intro i
    exact count_sync_flatMap _ _ (fun j => count_sync_report_key _ _ _)

theorem g15v2_process_input_sync (keycode : List Nat) (raw_data : Nat → Nat) :
    (g15v2_raw_event_process_input keycode raw_data).events.count .sync = 1 ∧
    (g15v2_raw_event_process_input keycode raw_data).events.getLast? = some .sync := by
  rw [g15v2_process_input_events]
  refine ⟨?_, List.getLast?_concat _⟩
  rw [List.count_append, count_sync_flatMap]
  · rfl
  · intro i
    rw [List.count_append, count_sync_report_key, count_sync_report_key]

theorem g19_process_input_sync (keycode : List Nat) (raw_data : Nat → Nat) :
    (g19_raw_event_process_input keycode raw_data).events.count .sync = 1 ∧
    (g19_raw_event_process_input keycode raw_data).events.getLast? = some .sync := by
  rw [g19_process_input_events]
  refine ⟨?_, List.getLast?_concat _⟩
  rw [List.count_append, count_sync_flatMap]
  · rfl
  · intro i
    rw [List.count_append, List.count_append, count_sync_report_key, count_sync_report_key,
      count_sync_report_key]

theorem g110_process_input_sync (keycode : List Nat) (raw_data : Nat → Nat) :
    (g110_raw_event_process_input keycode raw_data).events.count .sync = 1 ∧
    (g110_raw_event_process_input keycode raw_data).events.getLast? = some .sync := by
  rw [g110_process_input_events]
  refine ⟨?_, List.getLast?_concat _⟩
  rw [List.count_append, count_sync_flatMap]
  · rfl
  · intro i
    rw [List.count_append, List.count_append, count_sync_report_key, count_sync_report_key]
    split_ifs
    · rw [count_sync_report_key]
    · rfl

theorem g13_process_input_sync (keycode : List Nat) (raw_data : Nat → Nat) :
    (g13_raw_event_process_input keycode raw_data).events.count .sync = 1 ∧
    (g13_raw_event_process_input keycode raw_data).events.getLast? = some .sync := by
  rw [g13_process_input_events]
  constructor
  · rw [List.count_append, count_sync_flatMap _ _ (fun s => count_sync_report_key _ _ _)]
    simp +decide
  · simp

/-- C21: for each of the six input-report decoders, every keycode table and
every report buffer: the calls made on the input device are the same for two
buffers that agree on payload bytes 1..8 (nothing else is read, and decoding
the buffer a call has left behind gives the same list again), exactly one of
the calls is `input_sync`, and it is the last one. -/
theorem decode_is_pure_with_one_sync (keycode : List Nat) (raw_data raw_data' : Nat → Nat)
    (h : ∀ k, 1 ≤ k → k ≤ 8 → raw_data k = raw_data' k) :
    ((g15_raw_event_process_input keycode raw_data).events
        = (g15_raw_event_process_input keycode raw_data').events ∧
      (g15_raw_event_process_input keycode
          (g15_raw_event_process_input keycode raw_data).raw_data).events
        = (g15_raw_event_process_input keycode raw_data).events ∧
      (g15_raw_event_process_input keycode raw_data).events.count .sync = 1 ∧
      (g15_raw_event_process_input keycode raw_data).events.getLast? = some .sync) ∧
    ((g13_raw_event_process_input keycode raw_data).events
        = (g13_raw_event_process_input keycode raw_data').events ∧
      (g13_raw_event_process_input keycode
          (g13_raw_event_process_input keycode raw_data).raw_data).events
        = (g13_raw_event_process_input keycode raw_data).events ∧
      (g13_raw_event_process_input keycode raw_data).events.count .sync = 1 ∧
      (g13_raw_event_process_input keycode raw_data).events.getLast? = some .sync) ∧
    ((g15v2_raw_event_process_input keycode raw_data).events
        = (g15v2_raw_event_process_input keycode raw_data').events ∧
      (g15v2_raw_event_process_input keycode
          (g15v2_raw_event_process_input keycode raw_data).raw_data).events
        = (g15v2_raw_event_process_input keycode raw_data).events ∧
      (g15v2_raw_event_process_input keycode raw_data).events.count .sync = 1 ∧
      (g15v2_raw_event_process_input keycode raw_data).events.getLast? = some .sync) ∧
    ((g19_raw_event_process_input keycode raw_data).events
        = (g19_raw_event_process_input keycode raw_data').events ∧
      (g19_raw_event_process_input keycode
          (g19_raw_event_process_input keycode raw_data).raw_data).events
        = (g19_raw_event_process_input keycode raw_data).events ∧
      (g19_raw_event_process_input keycode raw_data).events.count .sync = 1 ∧
      (g19_raw_event_process_input keycode raw_data).events.getLast? = some .sync) ∧
    ((g110_raw_event_process_input keycode raw_data).events
        = (g110_raw_event_process_input keycode raw_data').events ∧
      (g110_raw_event_process_input keycode
          (g110_raw_event_process_input keycode raw_data).raw_data).events
        = (g110_raw_event_process_input keycode raw_data).events ∧
      (g110_raw_event_process_input keycode raw_data).events.count .sync = 1 ∧
      (g110_raw_event_process_input keycode raw_data).events.getLast? = some .sync) ∧
    ((g510_raw_event_process_input keycode raw_data).events
        = (g510_raw_event_process_input keycode raw_data').events ∧
      (g510_raw_event_process_input keycode
          (g510_raw_event_process_input keycode raw_data).raw_data).events
        = (g510_raw_event_process_input keycode raw_data).events ∧
      (g510_raw_event_process_input keycode raw_data).events.count .sync = 1 ∧
      (g510_raw_event_process_input keycode raw_data).events.getLast? = some .sync) := by
  have h1 := h 1 (by decide) (by decide)
  have h2 := h 2 (by decide) (by decide)
  have h3 := h 3 (by decide) (by decide)
  have h4 := h 4 (by decide) (by decide)
  have h5 := h 5 (by decide) (by decide)
  have h6 := h 6 (by decide) (by decide)
  have h7 := h 7 (by decide) (by decide)
  have h8 := h 8 (by decide) (by decide)
  refine ⟨⟨?_, ?_, g15_process_input_sync _ _⟩, ⟨?_, ?_, g13_process_input_sync _ _⟩,
    ⟨?_, ?_, g15v2_process_input_sync _ _⟩, ⟨?_, ?_, g19_process_input_sync _ _⟩,
    ⟨?_, ?_, g110_process_input_sync _ _⟩, ⟨?_, ?_, g510_process_input_sync _ _⟩⟩
  · simp +decide only [g15_raw_event_process_input, h1, h2, h3, h4, h5, h6, h7, h8, if_true,
      if_false]
  · simp +decide only [g15_raw_event_process_input, and_and_self, if_true, if_false]
  · simp only [g13_raw_event_process_input, h1, h2, h3, h4, h5, h6, h7]
  · rfl
  · simp only [g15v2_raw_event_process_input, h1, h2]
  · rfl
  · simp +decide only [g19_raw_event_process_input, h1, h2, h3, if_true, if_false]
  · simp +decide only [g19_raw_event_process_input, and_and_self, if_true, if_false]
  · simp +decide only [g110_raw_event_process_input, h1, h2, h3, if_true, if_false]
  · simp +decide only [g110_raw_event_process_input, and_and_self, if_true, if_false]
  · simp +decide only [g510_raw_event_process_input, h1, h2, h3, h4, if_true, if_false]
  · simp +decide only [g510_raw_event_process_input, and_and_self, if_true, if_false]

theorem decode_is_pure_with_one_sync_witness :
    (∀ k, 1 ≤ k → k ≤ 8 →
      raw_data_of [2, 0x04, 0x01] k = raw_data_of [7, 0x04, 0x01, 0, 0, 0, 0, 0, 0, 9] k) ∧
    (g15_raw_event_process_input g15_default_keymap (raw_data_of [2, 0x04, 0x01])).events
      = (g15_raw_event_process_input g15_default_keymap
          (raw_data_of [7, 0x04, 0x01, 0, 0, 0, 0, 0, 0, 9])).events :=
  ⟨by intro k hk1 hk8; interval_cases k <;> rfl,
   (decode_is_pure_with_one_sync g15_default_keymap (raw_data_of [2, 0x04, 0x01])
      (raw_data_of [7, 0x04, 0x01, 0, 0, 0, 0, 0, 0, 9])
      (by intro k hk1 hk8; interval_cases k <;> rfl)).1.1⟩

/-- C22: `gcore_input_report_key` hands over exactly one key-state event for
the bound key, pressed exactly when `value` is non-zero, when the lookup
succeeds with an entry other than KEY_UNKNOWN and KEY_RESERVED; in every
other case (no entry, KEY_UNKNOWN, KEY_RESERVED) exactly one `MSC_SCAN` event
carrying the scancode when `value` is non-zero, and nothing when it is zero. -/
theorem report_key_emits_one_event (keycode : List Nat) (scancode value : Nat) :
    (∀ k, input_get_keycode keycode scancode = some k → k ≠ KEY_UNKNOWN →
      k ≠ KEY_RESERVED →
      gcore_input_report_key keycode scancode value = [.key k (decide (value ≠ 0))]) ∧
    ((input_get_keycode keycode scancode = none ∨
        input_get_keycode keycode scancode = some KEY_UNKNOWN ∨
        input_get_keycode keycode scancode = some KEY_RESERVED) →
      (value ≠ 0 → gcore_input_report_key keycode scancode value = [.msc_scan scancode]) ∧
      (value = 0 → gcore_input_report_key keycode scancode value = [])) ∧
    (input_get_keycode keycode scancode
      = if scancode < keycode.length then some (keycode.getD scancode 0) else none) := by
  refine ⟨?_, ?_, rfl⟩
  · intro k hk h1 h2
    unfold gcore_input_report_key
    rw [hk]
    simp only [h1, h2, ne_eq, not_false_eq_true, and_self, if_true]
  · intro hk
    unfold gcore_input_report_key
    rcases hk with hk | hk | hk <;> rw [hk] <;> constructor <;> intro hv <;>
      simp +decide [hv]

theorem report_key_emits_one_event_witness :
    gcore_input_report_key g15_default_keymap 9 0x02 = [.key KEY_F2 true] ∧
    gcore_input_report_key g15_default_keymap 1 0x02 = [.msc_scan 1] :=
  ⟨(report_key_emits_one_event g15_default_keymap 9 0x02).1 KEY_F2 (by decide) (by decide)
      (by decide),
   ((report_key_emits_one_event g15_default_keymap 1 0x02).2.1
      (Or.inr (Or.inl (by decide)))).1 (by decide)⟩

/-- C23 as stated fails: on the G15 report with payload byte 1 = 0x04 and
byte 2 = 0x01 (default keymap), the press of KEY_F7 (scancode 8, bit 0 of
byte 2) is handed over before the press of KEY_F13 (scancode 2, bit 2 of
byte 1): an edge from the lower-indexed byte comes after one from the
higher-indexed byte. -/
theorem edge_of_lower_byte_after_higher_byte :
    raw_data_of [2, 0x04, 0x01] 1 = 0x04 ∧
    raw_data_of [2, 0x04, 0x01] 2 = 0x01 ∧
    input_get_keycode g15_default_keymap 2 = some KEY_F13 ∧
    input_get_keycode g15_default_keymap 8 = some KEY_F7 ∧
    (g15_raw_event_process_input g15_default_keymap
        (raw_data_of [2, 0x04, 0x01])).events.filter
        (fun e => decide (e = .key KEY_F7 true ∨ e = .key KEY_F13 true))
      = [.key KEY_F7 true, .key KEY_F13 true] ∧
    (g15_raw_event_process_input g15_default_keymap
        (raw_data_of [2, 0x04, 0x01])).events.indexOf (.key KEY_F7 true)
      < (g15_raw_event_process_input g15_default_keymap
        (raw_data_of [2, 0x04, 0x01])).events.indexOf (.key KEY_F13 true) := by
  refine ⟨rfl, rfl, rfl, rfl, ?_, ?_⟩ <;> decide

/-- C23, as the code has it: the decoders walk the report bit index first and
payload byte second.  The calls of `g15_raw_event_process_input` are, for
bit `i` = 0..7 in this order and within one bit for byte `j + 1` = 1..8 in
this order, the call for scancode `i + 8 * j` with bit `i` of byte `j + 1`
(byte 4 with bit 0 cleared), then `input_sync`; `g510_raw_event_process_input`
does the same over bytes 1..4.  Byte order is kept among the edges of one bit
index only; the scancodes are visited in the order 0, 8, 16, ..., 56, 1, 9,
... -/
theorem edges_in_bit_major_order (keycode : List Nat) (raw_data : Nat → Nat) :
    (g15_raw_event_process_input keycode raw_data).events
      = (List.range 8).flatMap (fun i => (List.range 8).flatMap (fun j =>
          gcore_input_report_key keycode (i + 8 * j)
            ((if j + 1 = 4 then raw_data 4 &&& 0xFE else raw_data (j + 1)) &&& (1 <<< i))))
        ++ [.sync] ∧
    (g510_raw_event_process_input keycode raw_data).events
      = (List.range 8).flatMap (fun i => (List.range 4).flatMap (fun j =>
          gcore_input_report_key keycode (i + 8 * j)
            ((if j + 1 = 4 then raw_data 4 &&& 0xFE else raw_data (j + 1)) &&& (1 <<< i))))
        ++ [.sync] ∧
    (List.range 8).flatMap (fun i => (List.range 8).map (fun j => i + 8 * j))
      = [0, 8, 16, 24, 32, 40, 48, 56, 1, 9, 17, 25, 33, 41, 49, 57,
         2, 10, 18, 26, 34, 42, 50, 58, 3, 11, 19, 27, 35, 43, 51, 59,
         4, 12, 20, 28, 36, 44, 52, 60, 5, 13, 21, 29, 37, 45, 53, 61,
         6, 14, 22, 30, 38, 46, 54, 62, 7, 15, 23, 31, 39, 47, 55, 63] :=
  ⟨g15_process_input_events keycode raw_data, g510_process_input_events keycode raw_data,
   by decide⟩

/-- C24: for every keycode table and every G13 report, the calls of
`g13_raw_event_process_input` are one call of `gcore_input_report_key` per
scancode, with the bit of the payload byte the layout names (scancode i from
bit i of byte 3, 8+i from byte 4, 16+i from byte 5 for i up to 5, 22+i from
byte 6, 30+i from byte 7 for i up to 4), then axis X with byte 1, axis Y with
byte 2 and `input_sync`; the scancodes visited are 0..34, each exactly once,
all below the 35 entries of the default keymap. -/
theorem g13_reports_35_scancodes_and_axes (keycode : List Nat) (raw_data : Nat → Nat) :
    (g13_raw_event_process_input keycode raw_data).events
      = ((List.range 8).flatMap (fun i =>
          [i, i + 8] ++ (if i ≤ 5 then [i + 16] else []) ++ [i + 22] ++
            (if i ≤ 4 then [i + 30] else []))).flatMap (fun s =>
          gcore_input_report_key keycode s
            (raw_data (g13_scancode_source s).1 &&& (1 <<< (g13_scancode_source s).2)))
        ++ [.abs ABS_X (raw_data 1), .abs ABS_Y (raw_data 2), .sync] ∧
    List.Perm
      ((List.range 8).flatMap (fun i =>
          [i, i + 8] ++ (if i ≤ 5 then [i + 16] else []) ++ [i + 22] ++
            (if i ≤ 4 then [i + 30] else [])))
      (List.range 35) ∧
    (List.range 35).map g13_scancode_source
      = (List.range 8).map (fun i => (3, i)) ++ (List.range 8).map (fun i => (4, i)) ++
        (List.range 6).map (fun i => (5, i)) ++ (List.range 8).map (fun i => (6, i)) ++
        (List.range 5).map (fun i => (7, i)) ∧
    g13_default_keymap.length = 35 ∧
    (g13_raw_event_process_input keycode raw_data).raw_data 1 = raw_data 1 ∧
    (g13_raw_event_process_input keycode raw_data).raw_data 2 = raw_data 2 :=
  ⟨g13_process_input_events keycode raw_data, by decide, by decide, rfl, rfl, rfl⟩

theorem and_254_and_1 (x : Nat) : x &&& 254 &&& 1 = 0 := by
  rw [Nat.and_assoc, show (254 &&& 1 : Nat) = 0 from by decide, Nat.and_zero]

/-- On the G510 default keymap only the call for scancode 24 can name
KEY_OK. -/
theorem g510_count_key_ok (s v : Nat) (p : Bool) :
    (gcore_input_report_key g510_default_keymap s v).count (.key KEY_OK p)
      = if s = 24 ∧ p = decide (v ≠ 0) then 1 else 0 := by
  by_cases hs : s < 32
  · by_cases hv : v = 0 <;> interval_cases s <;> cases p <;>
      simp +decide [gcore_input_report_key, input_get_keycode, g510_default_keymap, hv]
  · have hne : ¬ (s = 24 ∧ p = decide (v ≠ 0)) := fun h => hs (by omega)
    rw [gcore_input_report_key_unmapped _ _ _ (by simpa using hs), if_neg hne]
    split_ifs <;> simp

/-- The G510 decoder on the default keymap: the only call that can name
KEY_OK is the one for scancode 24, and its value is 0. -/
theorem g510_key_ok_events (raw_data : Nat → Nat) :
    (g510_raw_event_process_input g510_default_keymap raw_data).events.count
        (.key KEY_OK false) = 1 ∧
    (g510_raw_event_process_input g510_default_keymap raw_data).events.count
        (.key KEY_OK true) = 0 := by
  have h4 : (g510_raw_event_process_input g510_default_keymap raw_data).raw_data 4
      = raw_data 4 &&& 254 := rfl
  rw [g510_process_input_events]
  simp +decide only [range_8_eq, range_4_eq, List.flatMap_cons, List.flatMap_nil,
    List.append_nil, List.count_append, g510_count_key_ok, Nat.reduceAdd, Nat.reduceMul,
    h4, and_254_and_1, Nat.shiftLeft_zero, List.count_cons, List.count_nil, if_true, if_false,
    and_true, and_false, true_and, false_and]

/-- C28: for every G510 report, `g510_raw_event_process_input` clears bit 0 of
byte 4 before decoding, so the call for scancode 24 has value 0 for every
keycode table; the default keymap binds scancode 24 (and no other scancode)
to KEY_OK, so the calls contain the release of KEY_OK exactly once and never
its press. -/
theorem g510_key_ok_never_pressed (keycode : List Nat) (raw_data : Nat → Nat) :
    (g510_raw_event_process_input keycode raw_data).raw_data 4 = raw_data 4 &&& 0xFE ∧
    ((g510_raw_event_process_input keycode raw_data).raw_data 4).testBit 0 = false ∧
    (g510_raw_event_process_input keycode raw_data).raw_data 4 &&& (1 <<< 0) = 0 ∧
    (g510_raw_event_process_input keycode raw_data).events
      = (List.range 8).flatMap (fun i => (List.range 4).flatMap (fun j =>
          gcore_input_report_key keycode (i + 8 * j)
            ((g510_raw_event_process_input keycode raw_data).raw_data (j + 1) &&& (1 <<< i))))
        ++ [.sync] ∧
    input_get_keycode g510_default_keymap 24 = some KEY_OK ∧
    g510_default_keymap.count KEY_OK = 1 ∧
    gcore_input_report_key g510_default_keymap 24
        ((g510_raw_event_process_input g510_default_keymap raw_data).raw_data 4 &&& (1 <<< 0))
      = [.key KEY_OK false] ∧
    (g510_raw_event_process_input g510_default_keymap raw_data).events.count
        (.key KEY_OK false) = 1 ∧
    (g510_raw_event_process_input g510_default_keymap raw_data).events.count
        (.key KEY_OK true) = 0 := by
  have h0 : raw_data 4 &&& 0xFE &&& (1 <<< 0) = 0 := and_254_and_1 (raw_data 4)
  have h4 : (g510_raw_event_process_input keycode raw_data).raw_data 4
      = raw_data 4 &&& 0xFE := rfl
  have h4d : (g510_raw_event_process_input g510_default_keymap raw_data).raw_data 4
      = raw_data 4 &&& 0xFE := rfl
  refine ⟨h4, ?_, ?_, g510_process_input_events keycode raw_data, rfl, by decide, ?_,
    (g510_key_ok_events raw_data).1, (g510_key_ok_events raw_data).2⟩
  · rw [h4, Nat.testBit_and]
    simp
  · rw [h4, h0]
  · rw [h4d, h0]
    rfl

/-- C29: for every keycode table of 17 entries (the size of the G110 keymap)
and every button bitmap byte, `g110_ep1_urb_completion` calls
`gcore_input_report_key` for scancodes 24..31 with bit i of the byte for
scancode 24 + i; none of them is in the table, so it hands over no key-state
event: an `MSC_SCAN` event for each set bit, nothing for a clear bit, then one
`input_sync`; the URB is then submitted again. -/
theorem g110_ep1_never_emits_key (keycode : List Nat) (ep1keys : Nat → Nat)
    (h : keycode.length = 17) :
    (g110_ep1_urb_completion keycode ep1keys).events
      = (List.range 8).flatMap (fun i =>
          gcore_input_report_key keycode (24 + i) (ep1keys 0 &&& (1 <<< i))) ++ [.sync] ∧
    (∀ i, i < 8 → input_get_keycode keycode (24 + i) = none) ∧
    (g110_ep1_urb_completion keycode ep1keys).events
      = (List.range 8).flatMap (fun i =>
          if (ep1keys 0).testBit i then [.msc_scan (24 + i)] else []) ++ [.sync] ∧
    (g110_ep1_urb_completion keycode ep1keys).events.all (fun e => !e.is_key) = true ∧
    (g110_ep1_urb_completion keycode ep1keys).events.count .sync = 1 ∧
    (g110_ep1_urb_completion keycode ep1keys).usb_submit_urb_called = true ∧
    g110_default_keymap.length = 17 := by
  have e1 : (g110_ep1_urb_completion keycode ep1keys).events
      = (List.range 8).flatMap (fun i =>
          gcore_input_report_key keycode (24 + i) (ep1keys 0 &&& (1 <<< i))) ++ [.sync] := by
    simp only [g110_ep1_urb_completion, for_loop, range_8_eq, List.flatMap_cons,
      List.flatMap_nil, List.append_nil, List.nil_append, List.append_assoc]
  have hcall : ∀ i, gcore_input_report_key keycode (24 + i) (ep1keys 0 &&& (1 <<< i))
      = if (ep1keys 0).testBit i then [.msc_scan (24 + i)] else [] := by
    intro i
    rw [gcore_input_report_key_unmapped keycode _ _ (by omega)]
    have hb : (ep1keys 0 &&& (1 <<< i) ≠ 0) ↔ (ep1keys 0).testBit i = true := by
      rw [Nat.one_shiftLeft, ne_eq, and_two_pow_eq_zero_iff]
      simp
    by_cases ht : (ep1keys 0).testBit i = true
    · rw [if_pos (hb.mpr ht), if_pos ht]
    · rw [if_neg (fun hh => ht (hb.mp hh)), if_neg ht]
  have e2 : (g110_ep1_urb_completion keycode ep1keys).events
      = (List.range 8).flatMap (fun i =>
          if (ep1keys 0).testBit i then [.msc_scan (24 + i)] else []) ++ [.sync] := by
    rw [e1]
    simp only [hcall]
  refine ⟨e1, ?_, e2, ?_, ?_, rfl, rfl⟩
  · intro i _
    unfold input_get_keycode
    rw [if_neg (by omega)]
  · rw [e2, List.all_eq_true]
    intro e he
    rw [List.mem_append, List.mem_flatMap] at he
    rcases he with ⟨i, _, hi⟩ | he
    · split_ifs at hi
      · rw [List.mem_singleton] at hi
        subst hi
        rfl
      · cases hi
    · rw [List.mem_singleton] at he
      subst he
      rfl
  · rw [e1, List.count_append, count_sync_flatMap _ _ (fun i => count_sync_report_key _ _ _)]
    rfl

theorem g110_ep1_never_emits_key_witness :
    g110_default_keymap.length = 17 ∧
    (g110_ep1_urb_completion g110_default_keymap (raw_data_of [0x05])).events
      = (List.range 8).flatMap (fun i =>
          if ((raw_data_of [0x05]) 0).testBit i then [.msc_scan (24 + i)] else [])
        ++ [.sync] :=
  ⟨rfl, (g110_ep1_never_emits_key g110_default_keymap (raw_data_of [0x05]) rfl).2.2.1⟩

/-! ## The M-button LEDs of the G510 -/

/-- C25: in `g510_led_mbtns_brightness_set` the mask used to update the stored
bitmap is 0 for every LED, so for every requested brightness and every prior
bitmap (a `u8`) the stored `led_mbtns` is left unchanged, and
`g510_led_mbtns_brightness_get` returns after the call what it returned before
it. -/
theorem g510_mbtns_set_keeps_bitmap (led_cdev value led_mbtns : Nat)
    (h : led_mbtns < 256) :
    (g510_led_mbtns_brightness_set led_cdev value led_mbtns).mask = 0 ∧
    (g510_led_mbtns_brightness_set led_cdev value led_mbtns).led_mbtns = led_mbtns ∧
    g510_led_mbtns_brightness_get led_cdev
        (g510_led_mbtns_brightness_set led_cdev value led_mbtns).led_mbtns
      = g510_led_mbtns_brightness_get led_cdev led_mbtns := by
  have hm : (led_mbtns &&& (0xFF ^^^ 0)) % 256 = led_mbtns := by
    have e : (0xFF ^^^ 0 : Nat) = 2 ^ 8 - 1 := by decide
    rw [e, Nat.and_pow_two_sub_one_eq_mod]
    omega
  have hs : (g510_led_mbtns_brightness_set led_cdev value led_mbtns).led_mbtns
      = led_mbtns := by
    unfold g510_led_mbtns_brightness_set
    simp only [ne_eq, not_true_eq_false, false_and, if_false]
    exact hm
  exact ⟨rfl, hs, by rw [hs]⟩

theorem g510_mbtns_set_keeps_bitmap_witness :
    (0x05 : Nat) < 256 ∧
    (g510_led_mbtns_brightness_set G510_LED_M2 LED_FULL 0x05).led_mbtns = 0x05 ∧
    g510_led_mbtns_brightness_get G510_LED_M2
        (g510_led_mbtns_brightness_set G510_LED_M2 LED_FULL 0x05).led_mbtns = LED_OFF :=
  ⟨by decide, (g510_mbtns_set_keeps_bitmap G510_LED_M2 LED_FULL 0x05 (by decide)).2.1,
   by decide⟩

/-! ## Reachable values of the readiness bitmask -/

/-- C26: in every state a fresh session reaches by report deliveries
interleaved with the locked sections of the attach procedure (taken in
order), the bitmask is one of 0x00, 0x01, 0x02, 0x03, 0x06, 0x07, 0x0F, 0x1F,
0x3F, 0x7F, paired with the number of sections done as `session_inv` says;
so the next section keeps every bit that is set, and the stage value it may
force (Stage1 before the first section, Stage2 before the second, Stage3
before the third) contains the bitmask. -/
theorem reachable_bitmasks_forcing_adds_bits (steps : List session_step) :
    (session.run steps).g15data.ready_stages
      ∈ [0x00, 0x01, 0x02, 0x03, 0x06, 0x07, 0x0F, 0x1F, 0x3F, 0x7F] ∧
    session_inv (session.run steps).attach_done (session.run steps).g15data.ready_stages ∧
    (session.run steps).g15data.ready_stages
        &&& ((session.run steps).step .attach).g15data.ready_stages
      = (session.run steps).g15data.ready_stages ∧
    ((session.run steps).attach_done = 0 →
      (session.run steps).g15data.ready_stages ||| G15_READY_STAGE_1 = G15_READY_STAGE_1) ∧
    ((session.run steps).attach_done = 1 →
      (session.run steps).g15data.ready_stages ||| G15_READY_STAGE_2 = G15_READY_STAGE_2) ∧
    ((session.run steps).attach_done = 2 →
      (session.run steps).g15data.ready_stages ||| G15_READY_STAGE_3 = G15_READY_STAGE_3) := by
  have hinv := session_inv_run steps
  refine ⟨?_, hinv, ?_⟩
  · generalize (session.run steps).g15data.ready_stages = m at hinv
    generalize (session.run steps).attach_done = n at hinv
    unfold session_inv at hinv
    rcases hinv with ⟨_, h | h | h | h | h | h⟩ | ⟨_, h | h⟩ | ⟨_, h | h⟩ | ⟨_, h⟩ <;>
      subst h <;> decide
  · generalize session.run steps = s at hinv
    obtain ⟨⟨m, ready⟩, n⟩ := s
    unfold session_inv at hinv
    simp only at hinv
    rcases hinv with ⟨hn, h | h | h | h | h | h⟩ | ⟨hn, h | h⟩ | ⟨hn, h | h⟩ | ⟨hn, h⟩ <;>
      subst hn <;> subst h <;>
      simp +decide [session.step, wait_ready_stage_1, wait_ready_stage_2,
        send_finalize_report_locked, G15_READY_STAGE_1, G15_READY_STAGE_2, G15_READY_STAGE_3,
        G15_READY_SUBSTAGE_4, G15_READY_SUBSTAGE_6]

theorem reachable_bitmasks_forcing_adds_bits_witness :
    (session.run [.report ⟨⟨1⟩, scenario_a_raw_data, 9⟩,
        .report ⟨⟨1⟩, scenario_a_raw_data, 9⟩]).attach_done = 0 ∧
    (session.run [.report ⟨⟨1⟩, scenario_a_raw_data, 9⟩,
        .report ⟨⟨1⟩, scenario_a_raw_data, 9⟩]).g15data.ready_stages = 0x06 ∧
    (session.run [.report ⟨⟨1⟩, scenario_a_raw_data, 9⟩,
        .report ⟨⟨1⟩, scenario_a_raw_data, 9⟩]).g15data.ready_stages ||| G15_READY_STAGE_1
      = G15_READY_STAGE_1 :=
  ⟨by decide, by decide,
   (reachable_bitmasks_forcing_adds_bits [.report ⟨⟨1⟩, scenario_a_raw_data, 9⟩,
      .report ⟨⟨1⟩, scenario_a_raw_data, 9⟩]).2.2.2.1 (by decide)⟩

/-! ## Memory accesses of the monochrome encoder -/

theorem reads_bit_loop (ll : Nat) (n : Nat) (reads : List Nat) (src : Nat) :
    for_loop n (fun _bit (st : List Nat × Nat) => (st.1 ++ [st.2], st.2 + ll)) (reads, src)
      = (reads ++ (List.range n).map (fun bit => src + bit * ll), src + n * ll) := by
  induction n with
  | zero => simp [for_loop]
  | succ k ih =>
    rw [for_loop, ih, List.range_succ, List.map_append]
    simp only [List.map_cons, List.map_nil, List.append_assoc, Prod.mk.injEq, true_and]
    rw [Nat.add_mul, Nat.one_mul, Nat.add_assoc]

theorem reads_col_loop (ll row_start : Nat) (n : Nat) (reads : List Nat) :
    for_loop n (fun col reads =>
        (for_loop 8 (fun _bit (st : List Nat × Nat) => (st.1 ++ [st.2], st.2 + ll))
          (reads, row_start + col / 8)).1) reads
      = reads ++ (List.range n).flatMap (fun col =>
          (List.range 8).map (fun bit => row_start + col / 8 + bit * ll)) := by
  induction n with
  | zero => simp [for_loop]
  | succ k ih =>
    have hr : List.range (k + 1) = List.range k ++ [k] := List.range_succ ..
    rw [for_loop, ih, reads_bit_loop, hr, List.flatMap_append]
    simp only [List.flatMap_cons, List.flatMap_nil, List.append_nil, List.append_assoc]

/-- The offsets `gfb_fb_mono_update` reads, band by band, column by column,
bit by bit. -/
theorem gfb_fb_mono_update_reads_eq (data : gfb_data) :
    gfb_fb_mono_update_reads data
      = (List.range ((data.var_yres + 7) / 8)).flatMap (fun band =>
          (List.range data.var_xres).flatMap (fun col =>
            (List.range 8).map (fun bit =>
              band * 8 * data.fix_line_length + col / 8 + bit * data.fix_line_length))) := by
  unfold gfb_fb_mono_update_reads
  simp only []
  generalize (data.var_yres + 7) / 8 = bands
  have key : ∀ n (reads : List Nat),
      for_loop n (fun band reads =>
        for_loop data.var_xres (fun col reads =>
          (for_loop 8 (fun _bit (st : List Nat × Nat) =>
              (st.1 ++ [st.2], st.2 + data.fix_line_length))
            (reads, band * 8 * data.fix_line_length + col / 8)).1) reads) reads
      = reads ++ (List.range n).flatMap (fun band =>
          (List.range data.var_xres).flatMap (fun col =>
            (List.range 8).map (fun bit =>
              band * 8 * data.fix_line_length + col / 8 + bit * data.fix_line_length))) := by
    intro n
    induction n with
    | zero => intro reads; simp [for_loop]
    | succ k ih =>
      intro reads
      have hr : List.range (k + 1) = List.range k ++ [k] := List.range_succ ..
      rw [for_loop, ih, reads_col_loop, hr, List.flatMap_append]
      simp only [List.flatMap_cons, List.flatMap_nil, List.append_nil, List.append_assoc]
  rw [key, List.nil_append]

theorem writes_col_loop (n : Nat) (w : List Nat) (d : Nat) :
    for_loop n (fun _col (st : List Nat × Nat) => (st.1 ++ [st.2], st.2 + 1)) (w, d)
      = (w ++ (List.range n).map (fun col => d + col), d + n) := by
  induction n with
  | zero => simp [for_loop]
  | succ k ih =>
    rw [for_loop, ih, List.range_succ, List.map_append]
    simp only [List.map_cons, List.map_nil, List.append_assoc, Prod.mk.injEq, true_and]
    rw [Nat.add_assoc]

/-- The offsets `gfb_fb_mono_update` writes: the `memset` range, offset 0, and
one offset per column of each band from 32 on. -/
theorem gfb_fb_mono_update_writes_eq (data : gfb_data) :
    gfb_fb_mono_update_writes data
      = List.range data.fb_vbitmap_size ++ [0] ++
        (List.range ((data.var_yres + 7) / 8)).flatMap (fun band =>
          (List.range data.var_xres).map (fun col => 32 + band * data.var_xres + col)) := by
  unfold gfb_fb_mono_update_writes
  simp only []
  generalize (data.var_yres + 7) / 8 = bands
  generalize List.range data.fb_vbitmap_size ++ [0] = w0
  have key : ∀ n (w : List Nat) (d : Nat),
      for_loop n (fun _band (st : List Nat × Nat) =>
        for_loop data.var_xres (fun _col (st : List Nat × Nat) => (st.1 ++ [st.2], st.2 + 1))
          st) (w, d)
      = (w ++ (List.range n).flatMap (fun band =>
          (List.range data.var_xres).map (fun col => d + band * data.var_xres + col)),
         d + n * data.var_xres) := by
    intro n
    induction n with
    | zero => intro w d; simp [for_loop]
    | succ k ih =>
      intro w d
      have hr : List.range (k + 1) = List.range k ++ [k] := List.range_succ ..
      rw [for_loop, ih, writes_col_loop, hr, List.flatMap_append]
      simp only [List.flatMap_cons, List.flatMap_nil, List.append_nil, List.append_assoc,
        Prod.mk.injEq, true_and]
      rw [Nat.add_mul, Nat.one_mul, Nat.add_assoc]
  rw [key]

/-- C27, the code at a failing input: on the probed 160x43 panel (surface
buffer of 1376 bytes, wire buffer of 992 bytes) `gfb_fb_mono_update` reads the
surface offsets `band * 256 + col / 8 + bit * 32` for band < 6, col < 160,
bit < 8: offset 1376 (band 5, column 0, bit 3) and offsets up to 1523 are read,
past the 1376 bytes of the surface, and the frame depends on them (two
memories with the same 1376 surface bytes give different frames).  Every wire
offset written is below 992. -/
theorem mono_update_reads_past_surface :
    all_on_data.fix_smem_len = 1376 ∧
    all_on_data.fb_vbitmap.length = 992 ∧
    (∀ off, off ∈ gfb_fb_mono_update_reads all_on_data ↔
      ∃ band col bit, band < 6 ∧ col < 160 ∧ bit < 8 ∧
        off = band * 8 * 32 + col / 8 + bit * 32) ∧
    1376 ∈ gfb_fb_mono_update_reads all_on_data ∧
    1523 ∈ gfb_fb_mono_update_reads all_on_data ∧
    (gfb_fb_mono_update_reads all_on_data).all (fun off => decide (off < 1524)) = true ∧
    (gfb_fb_mono_update_writes all_on_data).all (fun off => decide (off < 992)) = true ∧
    (∀ k, all_on_surface k = if k < 1376 then 0xFF else 0x00) ∧
    (mono_panel_frame all_on_data all_on_surface (List.replicate 992 0)).getD 832 0 = 0x07 ∧
    (mono_panel_frame all_on_data (fun _ => 0xFF) (List.replicate 992 0)).getD 832 0
      = 0xFF := by
  have hmem : ∀ off, off ∈ gfb_fb_mono_update_reads all_on_data ↔
      ∃ band col bit, band < 6 ∧ col < 160 ∧ bit < 8 ∧
        off = band * 8 * 32 + col / 8 + bit * 32 := by
    intro off
    rw [gfb_fb_mono_update_reads_eq]
    simp only [List.mem_flatMap, List.mem_map, List.mem_range]
    constructor
    · rintro ⟨band, hb, col, hc, bit, hbit, rfl⟩
      exact ⟨band, col, bit, hb, hc, hbit, rfl⟩
    · rintro ⟨band, col, bit, hb, hc, hbit, rfl⟩
      exact ⟨band, hb, col, hc, bit, hbit, rfl⟩
  have hb1 := (mono_panel_frame_bytes _ _ all_on_data_probed all_on_surface
    (List.replicate 992 0) (List.length_replicate _ _)).2.2.2 5 0 (by decide) (by decide)
  have hb2 := (mono_panel_frame_bytes _ _ all_on_data_probed (fun _ => 0xFF)
    (List.replicate 992 0) (List.length_replicate _ _)).2.2.2 5 0 (by decide) (by decide)
  refine ⟨rfl, List.length_replicate _ _, hmem, ?_, ?_, ?_, ?_, fun k => rfl, ?_, ?_⟩
  · exact (hmem 1376).mpr ⟨5, 0, 3, by decide, by decide, by decide, by decide⟩
  · exact (hmem 1523).mpr ⟨5, 159, 7, by decide, by decide, by decide, by decide⟩
  · rw [List.all_eq_true]
    intro off hoff
    obtain ⟨band, col, bit, hb, hc, hbit, rfl⟩ := (hmem off).mp hoff
    simp only [decide_eq_true_eq]
    omega
  · rw [List.all_eq_true, gfb_fb_mono_update_writes_eq]
    intro off hoff
    simp only [decide_eq_true_eq]
    simp only [List.mem_append, List.mem_range, List.mem_singleton, List.mem_flatMap,
      List.mem_map] at hoff
    rcases hoff with (h | h) | ⟨band, hb, col, hc, rfl⟩
    · exact h
    · omega
    · have hb6 : band < 6 := hb
      have hc160 : col < 160 := hc
      have e : all_on_data.var_xres = 160 := rfl
      rw [e]
      omega
  · rw [show (832 : Nat) = 32 + 160 * 5 + 0 from rfl, hb1]
    decide
  · rw [show (832 : Nat) = 32 + 160 * 5 + 0 from rfl, hb2]
    decide

/-! ## The value of a surface write -/

theorem gfb_fb_send_retval (usb : usb_env) (data : gfb_data)
    (hp : data.panel_type ≠ .other) (hu : usb.usb_submit_urb ≤ 0) :
    (gfb_fb_send usb data).retval ≤ 0 ∧
    ((gfb_fb_send usb data).retval = 0 ↔
      ((gfb_fb_send usb data).submitted.isSome = true ∨
        (gfb_fb_send usb data).schedule_delayed_work.isSome = true)) := by
  unfold gfb_fb_send
  cases hv : data.virtualized <;> cases hb : data.fb_vbitmap_busy <;>
    cases hpt : data.panel_type <;> cases he : usb.ep_present <;>
    by_cases hs : usb.usb_submit_urb < 0 <;>
    simp +decide [hv, hb, he, hs, hpt, ENODEV, EINVAL] at hp ⊢ <;> omega

theorem gfb_fb_update_retval (usb : usb_env) (data : gfb_data)
    (hp : data.panel_type ≠ .other) (hu : usb.usb_submit_urb ≤ 0) :
    (gfb_fb_update usb data).retval ≤ 0 ∧
    ((gfb_fb_update usb data).retval = 0 ↔
      ((gfb_fb_update usb data).submitted.isSome = true ∨
        (gfb_fb_update usb data).schedule_delayed_work.isSome = true)) := by
  rcases gfb_fb_update_eq usb data hp with e | e
  · rw [e]
    exact gfb_fb_send_retval usb (gfb_fb_mono_update data) hp hu
  · rw [e]
    exact gfb_fb_send_retval usb (gfb_fb_qvga_update data) hp hu

/-- C30: for every surface write through `gfb_fb_write` on a panel of a known
type, with `usb_submit_urb` returning 0 or a negative error as the kernel
documents: when `fb_sys_write` returned -EFAULT or -EPERM that value is
returned, nothing is encoded, submitted or scheduled; for every other value
(a positive byte count included) the result is that of `gfb_fb_update` on the
written surface, which is 0 exactly when a frame was submitted or a retry was
scheduled and negative otherwise, so never a positive byte count. -/
theorem fb_write_returns_update_result (usb : usb_env) (data : gfb_data)
    (fb_sys_write_result : Int) (written : Nat → Nat)
    (hp : data.panel_type ≠ .other) (hu : usb.usb_submit_urb ≤ 0) :
    ((fb_sys_write_result = -EFAULT ∨ fb_sys_write_result = -EPERM) →
      (gfb_fb_write usb data fb_sys_write_result written).retval = fb_sys_write_result ∧
      (gfb_fb_write usb data fb_sys_write_result written).usb_submit_urb_called = false ∧
      (gfb_fb_write usb data fb_sys_write_result written).submitted = none ∧
      (gfb_fb_write usb data fb_sys_write_result written).schedule_delayed_work = none ∧
      (gfb_fb_write usb data fb_sys_write_result written).data.fb_vbitmap
        = data.fb_vbitmap ∧
      (gfb_fb_write usb data fb_sys_write_result written).data.fb_vbitmap_busy
        = data.fb_vbitmap_busy) ∧
    (fb_sys_write_result ≠ -EFAULT → fb_sys_write_result ≠ -EPERM →
      gfb_fb_write usb data fb_sys_write_result written
        = gfb_fb_update usb { data with fb_bitmap := written } ∧
      (gfb_fb_write usb data fb_sys_write_result written).retval ≤ 0 ∧
      ((gfb_fb_write usb data fb_sys_write_result written).retval = 0 ↔
        ((gfb_fb_write usb data fb_sys_write_result written).submitted.isSome = true ∨
          (gfb_fb_write usb data fb_sys_write_result written).schedule_delayed_work.isSome
            = true)) ∧
      (0 < fb_sys_write_result →
        (gfb_fb_write usb data fb_sys_write_result written).retval
          ≠ fb_sys_write_result)) := by
  constructor
  · intro h
    have hn : ¬ (fb_sys_write_result ≠ -EFAULT ∧ fb_sys_write_result ≠ -EPERM) := by
      rcases h with h | h
      · exact fun hh => hh.1 h
      · exact fun hh => hh.2 h
    unfold gfb_fb_write
    simp only [if_neg hn]
    exact ⟨trivial, trivial, trivial, trivial, trivial, trivial⟩
  · intro h1 h2
    have e : gfb_fb_write usb data fb_sys_write_result written
        = gfb_fb_update usb { data with fb_bitmap := written } := by
      unfold gfb_fb_write
      simp only [if_pos (And.intro h1 h2)]
    have hr := gfb_fb_update_retval usb { data with fb_bitmap := written } hp hu
    rw [e]
    refine ⟨rfl, hr.1, hr.2, ?_⟩
    intro hpos hEq
    have := hr.1
    omega

theorem fb_write_returns_update_result_witness :
    all_on_data.panel_type ≠ .other ∧ usb_ok.usb_submit_urb ≤ 0 ∧
    (gfb_fb_write usb_ok all_on_data 1376 all_on_surface).retval ≤ 0 ∧
    (gfb_fb_write usb_ok all_on_data (-EFAULT) all_on_surface).retval = -EFAULT :=
  ⟨by decide, by decide,
   ((fb_write_returns_update_result usb_ok all_on_data 1376 all_on_surface (by decide)
      (by decide)).2 (by decide) (by decide)).2.1,
   ((fb_write_returns_update_result usb_ok all_on_data (-EFAULT) all_on_surface (by decide)
      (by decide)).1 (Or.inl rfl)).1⟩

end Lg4l
